import Mathlib

/-!
# go-freebsd-libzfs: error taxonomy and libzfs driver

A shallow embedding of `errors/errors.go`, `internal/driver/libzfs_driver.go`,
`internal/driver/libzfs_helpers.go` and the C helpers of `internal/cgo/zfs_c.go`,
followed by the properties established about them.

Conventions of the embedding
* Go `int` values are `Int`; none of the embedded code does arithmetic on them.
* A Go `error` interface value is a `GoError`: the nil interface, a `*ZfsError`
  (identified with the record it points to), or an error of any other type,
  which carries its message and what its `Unwrap` returns: one error for a
  type with `Unwrap() error`, a list of errors for a type with
  `Unwrap() []error` (`errors.Join`, `fmt.Errorf` with several `%w`). Errors
  of other types have no `As` or `Is` method of their own.
* A function that can panic returns `Option`, `none` being the panic.
* The C library is an oracle (`Backend`) that answers every call from the
  history of the calls made so far; the driver records each call it makes.
-/

namespace errors

/-! ## Decimal rendering used by the `%d` verb -/

/-- The character of a decimal digit. -/
def digitChar (d : Nat) : Char := Char.ofNat (48 + d)

/-- The value of a decimal digit character. -/
def digitVal (c : Char) : Nat := c.toNat - 48

/-- Decimal digits of `n`, most significant first; `fuel` bounds the number of digits. -/
def decimalDigits : Nat → Nat → List Char
  | 0, _ => []
  | fuel + 1, n =>
    if n < 10 then [digitChar n] else decimalDigits fuel (n / 10) ++ [digitChar (n % 10)]

/-- Decimal rendering of a natural number. -/
def formatNat (n : Nat) : String := String.mk (decimalDigits (n + 1) n)

/-- Rendering of a Go `int` by `%d`: an optional minus sign, then the decimal digits. -/
def formatInt : Int → String
  | Int.ofNat n => formatNat n
  | Int.negSucc n => "-" ++ formatNat (n + 1)

/-- Reads a digit string back, most significant digit first. -/
def parseDigits (l : List Char) : Nat := l.foldl (fun acc c => acc * 10 + digitVal c) 0

/-! ## Error codes (`errors.go`, lines 10-28) -/

def ErrCodeNotFound : String := "ENOENT"
def ErrCodePermission : String := "EPERM"
def ErrCodeExists : String := "EEXIST"
def ErrCodeBusy : String := "EBUSY"
def ErrCodeInval : String := "EINVAL"
def ErrCodeNoSpace : String := "ENOSPC"
def ErrCodeIO : String := "EIO"
def ErrCodeChecksum : String := "ECKSUM"
def ErrCodeFault : String := "EFAULT"
def ErrCodeNotSupported : String := "ENOTSUP"
def ErrCodeNameTooLong : String := "ENAMETOOLONG"
def ErrCodeQuotaExceeded : String := "EQUOT"
def ErrCodeNotEmpty : String := "ENOTEMPTY"
def ErrCodeCrossDevice : String := "EXDEV"
def ErrCodeResourceBusy : String := "EBUSY"
def ErrCodeFeatureUnsupported : String := "ENOTSUP"

/-! ## Error values -/

/-- A Go `error` interface value. `zfs` is a `*ZfsError` with its six fields;
`foreign` is an error of any other type with at most one parent, with its message and
the result of its `Unwrap() error` (`nil` when it wraps nothing); `joined` is an error
of a type with `Unwrap() []error`, as `errors.Join` and `fmt.Errorf` with several `%w`
return, with its message and the list its `Unwrap` returns. -/
inductive GoError where
  | nil : GoError
  | zfs (Op Resource Code : String) (Errno : Int) (Detail : String) (Cause : GoError) : GoError
  | foreign (msg : String) (cause : GoError) : GoError
  | joined (msg : String) (errs : List GoError) : GoError
  deriving Repr

mutual
/-- Equality of two error values, decided field by field. -/
def GoError.beq : GoError → GoError → Bool
  | GoError.nil, GoError.nil => true
  | GoError.zfs op res code errno detail cause, GoError.zfs op2 res2 code2 errno2 detail2 cause2 =>
    op == op2 && res == res2 && code == code2 && errno == errno2 && detail == detail2 &&
      GoError.beq cause cause2
  | GoError.foreign msg cause, GoError.foreign msg2 cause2 => msg == msg2 && GoError.beq cause cause2
  | GoError.joined msg errs, GoError.joined msg2 errs2 => msg == msg2 && GoError.beqList errs errs2
  | _, _ => false
/-- Equality of two lists of error values. -/
def GoError.beqList : List GoError → List GoError → Bool
  | [], [] => true
  | x :: xs, y :: ys => GoError.beq x y && GoError.beqList xs ys
  | _, _ => false
end

instance : DecidableEq GoError := fun a b =>
  decidable_of_iff (GoError.beq a b = true) (by
    revert b
    refine GoError.rec
      (motive_1 := fun a => ∀ b, GoError.beq a b = true ↔ a = b)
      (motive_2 := fun l => ∀ l2, GoError.beqList l l2 = true ↔ l = l2)
      ?_ ?_ ?_ ?_ ?_ ?_ a
    · intro b
      cases b <;> simp [GoError.beq]
    · intro op res code errno detail cause ih b
      cases b <;> simp [GoError.beq, ih]
      tauto
    · intro msg cause ih b
      cases b <;> simp [GoError.beq, ih]
    · intro msg errs ih b
      cases b <;> simp [GoError.beq, ih]
    · intro l2
      cases l2 <;> simp [GoError.beqList]
    · intro head tail ih1 ih2 l2
      cases l2 <;> simp [GoError.beqList, ih1, ih2])

/-- The record `ZfsError` of `errors.go`, lines 30-38. -/
structure ZfsError where
  Op : String
  Resource : String
  Code : String
  Errno : Int
  Detail : String
  Cause : GoError
  deriving DecidableEq, Repr

/-- A `*ZfsError` seen as an `error` interface value. -/
def ZfsError.toError (e : ZfsError) : GoError :=
  GoError.zfs e.Op e.Resource e.Code e.Errno e.Detail e.Cause

/-- The method `(*ZfsError).Error`. -/
def ZfsError.Error (e : ZfsError) : String :=
  if e.Resource ≠ "" then
    "zfs " ++ e.Op ++ " " ++ e.Resource ++ ": " ++ e.Detail ++ " (" ++ e.Code ++ ")"
  else
    "zfs " ++ e.Op ++ ": " ++ e.Detail ++ " (" ++ e.Code ++ ")"

/-- The method `(*ZfsError).Unwrap`. -/
def ZfsError.Unwrap (e : ZfsError) : GoError := e.Cause

/-- The method `(*ZfsError).Is`: the target must itself be a `*ZfsError`. -/
def ZfsError.Is (e : ZfsError) (target : GoError) : Bool :=
  match target with
  | GoError.zfs op _ code _ _ _ => e.Code == code && e.Op == op
  | _ => false

/-- Calling `Error()` on an interface value; on the nil interface this panics. -/
def GoError.Error : GoError → Option String
  | GoError.nil => none
  | GoError.zfs op res code errno detail cause => some (ZfsError.Error ⟨op, res, code, errno, detail, cause⟩)
  | GoError.foreign msg _ => some msg
  | GoError.joined msg _ => some msg

/-- The library function `errors.Unwrap`: it calls `Unwrap() error` only, and returns nil
for an error with `Unwrap() []error`. -/
def GoError.Unwrap : GoError → GoError
  | GoError.nil => GoError.nil
  | GoError.zfs _ _ _ _ _ cause => cause
  | GoError.foreign _ cause => cause
  | GoError.joined _ _ => GoError.nil

/-- Whether the dynamic type of the value is `*ZfsError`. -/
def GoError.isZfs : GoError → Bool
  | GoError.zfs _ _ _ _ _ _ => true
  | _ => false

/-- The errors met by unwrapping repeatedly, the error itself first. -/
def unwrapChain : GoError → List GoError
  | GoError.nil => []
  | GoError.zfs op res code errno detail cause =>
    GoError.zfs op res code errno detail cause :: unwrapChain cause
  | GoError.foreign msg cause => GoError.foreign msg cause :: unwrapChain cause
  | GoError.joined msg errs => [GoError.joined msg errs]

/-- Wraps an error in foreign wrappers, the first message outermost. -/
def wrapForeign : List String → GoError → GoError
  | [], e => e
  | m :: ms, e => GoError.foreign m (wrapForeign ms e)

mutual
/-- Embeds `AsZfsError` (lines 62-69), through the library function `errors.As`: it
tests the error itself, follows `Unwrap() error`, and for `Unwrap() []error` tries each
element in order, depth first, skipping nil; it stops at the first `*ZfsError`. `none` is
the result `(nil, false)`. -/
def AsZfsError : GoError → Option ZfsError
  | GoError.nil => none
  | GoError.zfs op res code errno detail cause => some ⟨op, res, code, errno, detail, cause⟩
  | GoError.foreign _ cause => AsZfsError cause
  | GoError.joined _ errs => AsZfsErrorList errs
/-- The loop of `errors.As` over the result of `Unwrap() []error`. -/
def AsZfsErrorList : List GoError → Option ZfsError
  | [] => none
  | err :: rest =>
    match AsZfsError err with
    | some zfsErr => some zfsErr
    | none => AsZfsErrorList rest
end

/-- Embeds `IsZfsError` (lines 71-75). -/
def IsZfsError (err : GoError) : Bool := (AsZfsError err).isSome

/-- Embeds `NewZfsError` (lines 199-209). -/
def NewZfsError (op resource code : String) (errno : Int) (detail : String) (cause : GoError) :
    ZfsError :=
  { Op := op, Resource := resource, Code := code, Errno := errno, Detail := detail, Cause := cause }

/-- Embeds `WrapZfsError` (lines 211-234); `none` is the panic of `cause.Error()` on a nil cause. -/
def WrapZfsError (op resource : String) (cause : GoError) : Option ZfsError :=
  match AsZfsError cause with
  | some zfsErr =>
    some { Op := op, Resource := resource, Code := zfsErr.Code, Errno := zfsErr.Errno,
           Detail := zfsErr.Detail, Cause := zfsErr.Cause }
  | none =>
    match cause.Error with
    | none => none
    | some msg =>
      some { Op := op, Resource := resource, Code := "UNKNOWN", Errno := -1,
             Detail := msg, Cause := cause }

/-- Embeds `IsDatasetNotFound` (lines 236-243). -/
def IsDatasetNotFound (err : GoError) : Bool :=
  match AsZfsError err with
  | some zfsErr =>
    zfsErr.Code == ErrCodeNotFound && (zfsErr.Op == "get_dataset" || zfsErr.Op == "list_datasets")
  | none => false

/-- Embeds `IsPoolNotFound` (lines 245-252). -/
def IsPoolNotFound (err : GoError) : Bool :=
  match AsZfsError err with
  | some zfsErr =>
    zfsErr.Code == ErrCodeNotFound && (zfsErr.Op == "get_pool" || zfsErr.Op == "list_pools")
  | none => false

/-- Embeds `IsPermissionDenied` (lines 254-260). -/
def IsPermissionDenied (err : GoError) : Bool :=
  match AsZfsError err with
  | some zfsErr => zfsErr.Code == ErrCodePermission
  | none => false

/-- Embeds `IsExists` (lines 262-268). -/
def IsExists (err : GoError) : Bool :=
  match AsZfsError err with
  | some zfsErr => zfsErr.Code == ErrCodeExists
  | none => false

/-- Embeds `IsBusy` (lines 270-276). -/
def IsBusy (err : GoError) : Bool :=
  match AsZfsError err with
  | some zfsErr => zfsErr.Code == ErrCodeBusy
  | none => false

/-- Embeds `IsNoSpace` (lines 278-284). -/
def IsNoSpace (err : GoError) : Bool :=
  match AsZfsError err with
  | some zfsErr => zfsErr.Code == ErrCodeNoSpace
  | none => false

/-- Embeds `IsNotSupported` (lines 286-292). -/
def IsNotSupported (err : GoError) : Bool :=
  match AsZfsError err with
  | some zfsErr => zfsErr.Code == ErrCodeNotSupported || zfsErr.Code == ErrCodeFeatureUnsupported
  | none => false

/-- Embeds `MapErrno` (lines 294-324). -/
def MapErrno (errno : Int) : String :=
  match errno with
  | 2 => ErrCodeNotFound
  | 1 => ErrCodePermission
  | 17 => ErrCodeExists
  | 16 => ErrCodeBusy
  | 22 => ErrCodeInval
  | 28 => ErrCodeNoSpace
  | 5 => ErrCodeIO
  | 45 => ErrCodeNotSupported
  | 63 => ErrCodeNameTooLong
  | 69 => ErrCodeQuotaExceeded
  | 66 => ErrCodeNotEmpty
  | 18 => ErrCodeCrossDevice
  | _ => "ERRNO_" ++ formatInt errno

/-- The twelve codes of the switch in `MapErrno`. -/
def mappedErrnos : List Int := [2, 1, 17, 16, 22, 28, 5, 45, 63, 69, 66, 18]

/-- The kinds the switch in `MapErrno` returns for its twelve cases. -/
def mappedKinds : List String :=
  [ErrCodeNotFound, ErrCodePermission, ErrCodeExists, ErrCodeBusy, ErrCodeInval, ErrCodeNoSpace,
   ErrCodeIO, ErrCodeNotSupported, ErrCodeNameTooLong, ErrCodeQuotaExceeded, ErrCodeNotEmpty,
   ErrCodeCrossDevice]

end errors

namespace driver

open errors

/-! ## Data model (`internal/driver/driver.go`, `constants.go`) -/

/-- The record `PoolInfo`. -/
structure PoolInfo where
  Name : String
  GUID : Nat
  Health : String
  State : String
  deriving DecidableEq, Repr

/-- The enumeration `DatasetType`; the four declared constants, in `iota` order. -/
inductive DatasetType where
  | DatasetFilesystem
  | DatasetVolume
  | DatasetSnapshot
  | DatasetBookmark
  deriving DecidableEq, Repr

/-- The record `DatasetInfo`; `Type_` is the field `Type`. -/
structure DatasetInfo where
  Name : String
  Type_ : DatasetType
  GUID : Nat
  deriving DecidableEq, Repr

/-- The enumeration `PropSource`. -/
inductive PropSource where
  | PropSourceLocal
  | PropSourceInherited
  | PropSourceDefault
  | PropSourceTemporary
  | PropSourceReceived
  deriving DecidableEq, Repr

/-- Embeds `PropSource.String` (driver.go, lines 58-73); the enumeration has no value for
the default case "unknown". -/
def PropSource.String : PropSource → String
  | PropSource.PropSourceLocal => "local"
  | PropSource.PropSourceInherited => "inherited"
  | PropSource.PropSourceDefault => "default"
  | PropSource.PropSourceTemporary => "temporary"
  | PropSource.PropSourceReceived => "received"

/-- The record `PropertyInfo`; every value the driver stores is a string. -/
structure PropertyInfo where
  Name : String
  Value : String
  Source : PropSource
  Received : Bool
  deriving DecidableEq, Repr

/-- A Go `map[string]T`, as the list of its entries; keys are pairwise distinct. -/
abbrev GoMap (T : Type) := List (String × T)

/-- The assignment `m[k] = v`. -/
def GoMap.set {T : Type} (m : GoMap T) (k : String) (v : T) : GoMap T :=
  m.filter (fun kv => kv.1 ≠ k) ++ [(k, v)]

/-- The lookup `v, ok := m[k]`. -/
def GoMap.get {T : Type} (m : GoMap T) (k : String) : Option T :=
  (m.find? (fun kv => kv.1 = k)).map Prod.snd

/-- The record `ImportOptions`. -/
structure ImportOptions where
  NewName : String
  AltRoot : String
  Force : Bool
  Destroyed : Bool
  deriving DecidableEq, Repr

/-- The record `ExportOptions`. -/
structure ExportOptions where
  Force : Bool
  Message : String
  deriving DecidableEq, Repr

/-- The record `CreateOptions`. -/
structure CreateOptions where
  Properties : GoMap String
  FsProperties : GoMap String
  AltRoot : String
  Force : Bool
  deriving DecidableEq, Repr

/-- The record `VdevSpec`; `Type_` is the field `Type`. -/
structure VdevSpec where
  Type_ : String
  Devices : List String
  deriving DecidableEq, Repr

/-- The flag set `VdevOnlineFlags`, as a natural number. -/
abbrev VdevOnlineFlags := Nat

def VdevOnlineCheckRemove : VdevOnlineFlags := 1
def VdevOnlineUnspare : VdevOnlineFlags := 2
def VdevOnlineForceFault : VdevOnlineFlags := 4
def VdevOnlineExpand : VdevOnlineFlags := 8

/-- The record `CloneInfo`. -/
structure CloneInfo where
  Name : String
  Origin : String
  IsClone : Bool
  CloneCount : Int
  Dependents : List String
  deriving DecidableEq, Repr

def PropNameMountpoint : String := "mountpoint"
def PropNameCompression : String := "compression"
def PropNameUsed : String := "used"
def PropNameAvail : String := "avail"
def PropNameRefer : String := "refer"
def PropNameCompressratio : String := "compressratio"
def PropNameQuota : String := "quota"
def PropNameReservation : String := "reservation"
def PropNameRecordsize : String := "recordsize"
def PropNameVersion : String := "version"
def PropNameGuid : String := "guid"
def PropNameSize : String := "size"
def PropNameCapacity : String := "capacity"
def PropNameFree : String := "free"
def PropNameAllocated : String := "allocated"
def PropNameHealth : String := "health"

def PoolStateActive : Int := 0
def PoolStateExported : Int := 1
def PoolStateDestroyed : Int := 2
def PoolStateSpare : Int := 3
def PoolStateL2Cache : Int := 4
def PoolStateUninitialized : Int := 5
def PoolStateUnavail : Int := 6
def PoolStatePotentiallyActive : Int := 7

def PoolStatusCorruptCache : Int := 0
def PoolStatusMissingDevR : Int := 1
def PoolStatusMissingDevNr : Int := 2
def PoolStatusCorruptLabelR : Int := 3
def PoolStatusCorruptLabelNr : Int := 4

def VdevTypeRoot : String := "root"
def VdevTypeDisk : String := "disk"
def VdevTypeMirror : String := "mirror"
def VdevTypeRaidz : String := "raidz"
def VdevTypeRaidz2 : String := "raidz2"
def VdevTypeRaidz3 : String := "raidz3"

/-! ## The C library: libzfs and libnvpair

The library is not part of the repository. It is an oracle: each call is
answered from the calls made before it, and every call is recorded in a trace.
Accessors that only read the object behind a handle given to an iteration
callback (`zpool_get_name`, `zfs_get_name`, `zfs_get_type`, ...) read a field
of that object and are not recorded. -/

/-- An attribute tree `nvlist_t`: its string pairs and its arrays of trees. -/
inductive NvList where
  | mk (strings : List (String × String)) (arrays : List (String × List NvList)) : NvList
  deriving Repr

/-- The string pairs of a tree. -/
def NvList.strings : NvList → List (String × String)
  | NvList.mk s _ => s

/-- The tree arrays of a tree. -/
def NvList.arrays : NvList → List (String × List NvList)
  | NvList.mk _ a => a

/-- The pool properties the driver asks for (`zpool_prop_t`). -/
inductive zpool_prop_t where
  | ZPOOL_PROP_SIZE
  | ZPOOL_PROP_CAPACITY
  | ZPOOL_PROP_HEALTH
  | ZPOOL_PROP_GUID
  | ZPOOL_PROP_VERSION
  | ZPOOL_PROP_FREE
  | ZPOOL_PROP_ALLOCATED
  deriving DecidableEq, Repr

/-- The dataset properties the driver asks for (`zfs_prop_t`). -/
inductive zfs_prop_t where
  | ZFS_PROP_USED
  | ZFS_PROP_AVAILABLE
  | ZFS_PROP_REFERENCED
  | ZFS_PROP_COMPRESSRATIO
  | ZFS_PROP_QUOTA
  | ZFS_PROP_RESERVATION
  | ZFS_PROP_RECORDSIZE
  | ZFS_PROP_MOUNTPOINT
  | ZFS_PROP_COMPRESSION
  | ZFS_PROP_ORIGIN
  deriving DecidableEq, Repr

/-- The values of `zfs_type_t`, bit flags, as `mapDatasetType` lists them. -/
def ZFS_TYPE_FILESYSTEM : Nat := 1
def ZFS_TYPE_SNAPSHOT : Nat := 2
def ZFS_TYPE_VOLUME : Nat := 4
def ZFS_TYPE_POOL : Nat := 8
def ZFS_TYPE_BOOKMARK : Nat := 16

/-- The mask `ZFS_TYPE_DATASET`: filesystem, volume or snapshot. -/
def ZFS_TYPE_DATASET : Nat := ZFS_TYPE_FILESYSTEM ||| ZFS_TYPE_VOLUME ||| ZFS_TYPE_SNAPSHOT

/-- A pool visited by `zpool_iter`: what the accessors on its handle return. -/
structure ZpoolObj where
  name : String
  state : Int
  status : Int
  deriving DecidableEq, Repr

/-- A dataset visited by an iteration: what the accessors on its handle return,
the objects `zfs_iter_children` and `zfs_iter_snapshots` visit under it, and the
result each of these two calls gives once every visit has returned zero. -/
inductive ZfsNode where
  | mk (name : String) (type : Nat) (guid : Nat) (children : List ZfsNode) (childrenRet : Int)
      (snapshots : List ZfsNode) (snapshotsRet : Int) : ZfsNode
  deriving Repr

def ZfsNode.name : ZfsNode → String
  | ZfsNode.mk n _ _ _ _ _ _ => n

def ZfsNode.type : ZfsNode → Nat
  | ZfsNode.mk _ t _ _ _ _ _ => t

def ZfsNode.guid : ZfsNode → Nat
  | ZfsNode.mk _ _ g _ _ _ _ => g

/-- A call into the library, with the arguments that identify it. A pool or
dataset handle is named by the object behind it. -/
inductive Call where
  | libzfs_init
  | libzfs_fini
  | libzfs_errno
  | libzfs_error_description
  | zpool_iter
  | zfs_iter_root
  | zfs_iter_children (ds : String)
  | zfs_iter_snapshots (ds : String)
  | zpool_open (pool : String)
  | zpool_close (pool : String)
  | zpool_get_prop (pool : String) (prop : zpool_prop_t)
  | zfs_open (ds : String) (types : Nat)
  | zfs_close (ds : String)
  | zfs_prop_get (ds : String) (prop : zfs_prop_t)
  | zfs_prop_set (ds : String) (propname propval : String)
  | zfs_get_clones_nvl (ds : String)
  | zpool_export (pool : String) (force : Bool) (message : String)
  | zpool_create (pool : String) (nvroot props fsprops : Option NvList)
  | zpool_destroy (pool : String) (message : String)
  | zfs_create (path : String) (type : Nat) (props : Option NvList)
  | zfs_destroy (ds : String) (defer_destroy : Bool)
  | zfs_snapshot (path : String) (recursive : Bool) (props : Option NvList)
  | zfs_rollback (ds snap : String) (force : Bool)
  | zfs_clone (snap clonename : String) (props : Option NvList)
  | zfs_promote (ds : String)
  | nvlist_alloc
  | nvlist_free (nvl : NvList)
  | nvlist_add_string (nvl : NvList) (name val : String)
  | nvlist_add_nvlist_array (nvl : NvList) (name : String) (val : List NvList)
  | zpool_add (pool : String) (nvroot : Option NvList)
  | zpool_vdev_attach (pool old_disk new_disk : String) (replacing : Int)
  | zpool_vdev_detach (pool path : String)
  | zpool_vdev_remove (pool path : String)
  | zpool_vdev_online (pool path : String) (flags : Nat)
  | zpool_vdev_offline (pool path : String) (istmp : Bool)
  | zpool_clear (pool path : String)
  deriving Repr

/-- The calls made so far, oldest first. -/
abbrev Trace := List Call

/-- The library as an oracle over the calls made so far. -/
structure Backend where
  /-- The result of a call that returns an integer status. -/
  int : Trace → Call → Int
  /-- Whether a call that returns a pointer returns a non-null one. -/
  ptr : Trace → Call → Bool
  /-- The object behind the handle `zpool_open` returns, `none` for a null handle. -/
  zpool_open : Trace → String → Option ZpoolObj
  /-- The object behind the handle `zfs_open` returns, `none` for a null handle. -/
  zfs_open : Trace → String → Nat → Option ZfsNode
  /-- The string a call returns or writes into its buffer. -/
  str : Trace → Call → String
  /-- The pools `zpool_iter` visits. -/
  pools : Trace → List ZpoolObj
  /-- The datasets `zfs_iter_root` visits. -/
  roots : Trace → List ZfsNode
  /-- The tree `zfs_get_clones_nvl` returns for a dataset, `none` for a null pointer. -/
  clones : Trace → String → Option NvList

/-- Makes a call that returns an integer. -/
def callInt (B : Backend) (c : Call) (t : Trace) : Int × Trace := (B.int t c, t ++ [c])

/-- Makes a call that returns a pointer; the result tells whether it is non-null. -/
def callPtr (B : Backend) (c : Call) (t : Trace) : Bool × Trace := (B.ptr t c, t ++ [c])

/-- Makes a call that returns a string. -/
def callStr (B : Backend) (c : Call) (t : Trace) : String × Trace := (B.str t c, t ++ [c])

/-- Makes a call whose result is not used. -/
def callVoid (c : Call) (t : Trace) : Trace := t ++ [c]

/-- Whether a call is `libzfs_fini`. -/
def Call.isFini : Call → Bool
  | Call.libzfs_fini => true
  | _ => false

/-- Whether a call allocates an attribute tree. -/
def Call.isAlloc : Call → Bool
  | Call.nvlist_alloc => true
  | _ => false

/-- The iteration loop of `zpool_iter`, `zfs_iter_root`, `zfs_iter_children` and
`zfs_iter_snapshots`: the callback is invoked once per object, in order, while it
returns zero; `ret` is the result of the library once every visit returned zero. -/
def iterate {α σ : Type} (func : α → σ → Trace → (Int × σ) × Trace) :
    List α → Int → σ → Trace → (Int × σ) × Trace
  | [], ret, data, t => ((ret, data), t)
  | x :: xs, ret, data, t =>
    let r := func x data t
    if r.1.1 ≠ 0 then r else iterate func xs ret r.1.2 r.2

/-- A callback that makes no library call. -/
def pureCallback {α σ : Type} (func : α → σ → Int × σ) : α → σ → Trace → (Int × σ) × Trace :=
  fun x data t => (func x data, t)

/-- The library function `zpool_iter`. -/
def zpool_iter {σ : Type} (B : Backend) (func : ZpoolObj → σ → Trace → (Int × σ) × Trace)
    (data : σ) (t : Trace) : (Int × σ) × Trace :=
  iterate func (B.pools t) (B.int t Call.zpool_iter) data (t ++ [Call.zpool_iter])

/-- The library function `zfs_iter_root`. -/
def zfs_iter_root {σ : Type} (B : Backend) (func : ZfsNode → σ → Trace → (Int × σ) × Trace)
    (data : σ) (t : Trace) : (Int × σ) × Trace :=
  iterate func (B.roots t) (B.int t Call.zfs_iter_root) data (t ++ [Call.zfs_iter_root])

/-- The library function `zfs_iter_snapshots` on the handle of `zhp`. -/
def zfs_iter_snapshots {σ : Type} (func : ZfsNode → σ → Trace → (Int × σ) × Trace) :
    ZfsNode → σ → Trace → (Int × σ) × Trace
  | ZfsNode.mk name _ _ _ _ snapshots snapshotsRet, data, t =>
    iterate func snapshots snapshotsRet data (t ++ [Call.zfs_iter_snapshots name])

/-! ## C helpers (`internal/cgo/zfs_c.go`) -/

/-- The connection handle `libzfs_handle_t*`, when it is not null. -/
abbrev Handle := Unit

/-- Embeds `go_libzfs_init` (lines 14-16). -/
def go_libzfs_init (B : Backend) (t : Trace) : Option Handle × Trace :=
  let r := callPtr B Call.libzfs_init t
  (if r.1 then some () else none, r.2)

/-- Embeds `go_libzfs_fini` (lines 18-22). -/
def go_libzfs_fini (hdl : Option Handle) (t : Trace) : Trace :=
  match hdl with
  | some _ => callVoid Call.libzfs_fini t
  | none => t

/-- Embeds `go_libzfs_errno` (lines 24-26). -/
def go_libzfs_errno (B : Backend) (t : Trace) : Int × Trace := callInt B Call.libzfs_errno t

/-- Embeds `go_libzfs_error_description` (lines 28-30). -/
def go_libzfs_error_description (B : Backend) (t : Trace) : String × Trace :=
  callStr B Call.libzfs_error_description t

/-- Embeds `go_zpool_get_name` (lines 33-35). -/
def go_zpool_get_name (zhp : ZpoolObj) : String := zhp.name

/-- Embeds `go_zpool_get_guid` (lines 37-40). -/
def go_zpool_get_guid (_zhp : ZpoolObj) : Nat := 0

/-- Embeds `go_zfs_get_name` (lines 43-45). -/
def go_zfs_get_name (zhp : ZfsNode) : String := zhp.name

/-- Embeds `go_zfs_get_guid` (lines 47-49). -/
def go_zfs_get_guid (zhp : ZfsNode) : Nat := zhp.guid

/-- Embeds `go_zfs_get_type` (lines 51-53). -/
def go_zfs_get_type (zhp : ZfsNode) : Nat := zhp.type

/-- Embeds `go_zpool_get_state` (lines 111-113). -/
def go_zpool_get_state (zhp : ZpoolObj) : Int := zhp.state

/-- Embeds `go_zpool_get_status` (lines 115-122). -/
def go_zpool_get_status (zhp : ZpoolObj) : Int := zhp.status

/-- Embeds `go_iter_pools` (lines 56-58). -/
def go_iter_pools {σ : Type} (B : Backend) (func : ZpoolObj → σ → Int × σ) (data : σ)
    (t : Trace) : (Int × σ) × Trace :=
  zpool_iter B (pureCallback func) data t

/-- Embeds `go_iter_datasets` (lines 61-63). -/
def go_iter_datasets {σ : Type} (B : Backend) (func : ZfsNode → σ → Int × σ) (data : σ)
    (t : Trace) : (Int × σ) × Trace :=
  zfs_iter_root B (pureCallback func) data t

mutual
/-- Embeds `comprehensive_iter_func` (lines 81-108). -/
def comprehensive_iter_func {σ : Type} (callback : ZfsNode → σ → Int × σ) :
    ZfsNode → σ → Trace → (Int × σ) × Trace
  | ZfsNode.mk name type guid children childrenRet snapshots snapshotsRet, data, t =>
    let zhp := ZfsNode.mk name type guid children childrenRet snapshots snapshotsRet
    let zfs_type := type
    let r := callback zhp data
    if r.1 ≠ 0 then (r, t)
    else if zfs_type ≠ ZFS_TYPE_SNAPSHOT then
      let rc := comprehensive_iter_children callback children childrenRet r.2
        (t ++ [Call.zfs_iter_children name])
      if rc.1.1 ≠ 0 then rc
      else
        let rs := zfs_iter_snapshots (pureCallback callback) zhp rc.1.2 rc.2
        if rs.1.1 ≠ 0 then rs else ((0, rs.1.2), rs.2)
    else ((0, r.2), t)
/-- The loop of `zfs_iter_children` with `comprehensive_iter_func` as its callback. -/
def comprehensive_iter_children {σ : Type} (callback : ZfsNode → σ → Int × σ) :
    List ZfsNode → Int → σ → Trace → (Int × σ) × Trace
  | [], ret, data, t => ((ret, data), t)
  | x :: xs, ret, data, t =>
    let r := comprehensive_iter_func callback x data t
    if r.1.1 ≠ 0 then r else comprehensive_iter_children callback xs ret r.1.2 r.2
end

/-- Embeds `go_iter_all_datasets` (lines 75-78): `zfs_iter_root` with `comprehensive_iter_func`. -/
def go_iter_all_datasets {σ : Type} (B : Backend) (func : ZfsNode → σ → Int × σ) (data : σ)
    (t : Trace) : (Int × σ) × Trace :=
  comprehensive_iter_children func (B.roots t) (B.int t Call.zfs_iter_root) data
    (t ++ [Call.zfs_iter_root])

/-- Embeds `go_get_zpool_property` (lines 158-161): the status and the buffer contents. -/
def go_get_zpool_property (B : Backend) (zhp : ZpoolObj) (prop : zpool_prop_t) (t : Trace) :
    (Int × String) × Trace :=
  ((B.int t (Call.zpool_get_prop zhp.name prop), B.str t (Call.zpool_get_prop zhp.name prop)),
    t ++ [Call.zpool_get_prop zhp.name prop])

/-- Embeds `go_get_zfs_property` (lines 163-167): the status and the buffer contents. -/
def go_get_zfs_property (B : Backend) (zhp : ZfsNode) (prop : zfs_prop_t) (t : Trace) :
    (Int × String) × Trace :=
  ((B.int t (Call.zfs_prop_get zhp.name prop), B.str t (Call.zfs_prop_get zhp.name prop)),
    t ++ [Call.zfs_prop_get zhp.name prop])

/-- The library function `nvlist_alloc` with `NV_UNIQUE_NAME`: the status and the new tree. -/
def nvlist_alloc (B : Backend) (t : Trace) : (Int × Option NvList) × Trace :=
  let r := callInt B Call.nvlist_alloc t
  ((r.1, if r.1 = 0 then some (NvList.mk [] []) else none), r.2)

/-- The library function `nvlist_add_string` on a tree with unique names: the status and
the tree afterwards. -/
def nvlist_add_string (B : Backend) (nvl : NvList) (name val : String) (t : Trace) :
    (Int × NvList) × Trace :=
  let r := callInt B (Call.nvlist_add_string nvl name val) t
  ((r.1,
    if r.1 = 0 then
      NvList.mk (nvl.strings.filter (fun kv => kv.1 ≠ name) ++ [(name, val)])
        (nvl.arrays.filter (fun kv => kv.1 ≠ name))
    else nvl), r.2)

/-- The library function `nvlist_add_nvlist_array` on a tree with unique names: the
status and the tree afterwards; the elements are copied into the tree. -/
def nvlist_add_nvlist_array (B : Backend) (nvl : NvList) (name : String) (val : List NvList)
    (t : Trace) : (Int × NvList) × Trace :=
  let r := callInt B (Call.nvlist_add_nvlist_array nvl name val) t
  ((r.1,
    if r.1 = 0 then
      NvList.mk (nvl.strings.filter (fun kv => kv.1 ≠ name))
        (nvl.arrays.filter (fun kv => kv.1 ≠ name) ++ [(name, val)])
    else nvl), r.2)

/-- Embeds `go_nvlist_alloc` (lines 316-322). -/
def go_nvlist_alloc (B : Backend) (t : Trace) : Option NvList × Trace :=
  let r := nvlist_alloc B t
  if r.1.1 ≠ 0 then (none, r.2) else (r.1.2, r.2)

/-- Embeds `go_nvlist_free` (lines 324-328). -/
def go_nvlist_free (nvl : Option NvList) (t : Trace) : Trace :=
  match nvl with
  | some l => callVoid (Call.nvlist_free l) t
  | none => t

/-- Embeds `go_nvlist_add_string` (lines 330-332). -/
def go_nvlist_add_string (B : Backend) (nvl : NvList) (name val : String) (t : Trace) :
    (Int × NvList) × Trace :=
  nvlist_add_string B nvl name val t

/-- Embeds `go_nvlist_add_nvlist_array` (lines 346-348). -/
def go_nvlist_add_nvlist_array (B : Backend) (nvl : NvList) (name : String)
    (val : List NvList) (t : Trace) : (Int × NvList) × Trace :=
  nvlist_add_nvlist_array B nvl name val t

/-- What the C library reads of `C.CString(s)`: Go copies the bytes of `s` and appends a
NUL byte, and C reads up to the first NUL byte, so the string is cut at its first NUL. -/
def CString (s : String) : String := String.mk (s.data.takeWhile (fun c => c ≠ Char.ofNat 0))

/-- Embeds `go_create_vdev_nvlist` (lines 351-369); `path` is `none` for a null pointer. -/
def go_create_vdev_nvlist (B : Backend) (type : String) (path : Option String) (t : Trace) :
    Option NvList × Trace :=
  let a := nvlist_alloc B t
  match a.1.2 with
  | none => (none, a.2)
  | some vdev =>
    let s := nvlist_add_string B vdev "type" type a.2
    if s.1.1 ≠ 0 then (none, callVoid (Call.nvlist_free s.1.2) s.2)
    else
      match path with
      | none => (some s.1.2, s.2)
      | some p =>
        let q := nvlist_add_string B s.1.2 "path" p s.2
        if q.1.1 ≠ 0 then (none, callVoid (Call.nvlist_free q.1.2) q.2)
        else (some q.1.2, q.2)

/-- Embeds `go_create_mirror_vdev` (lines 475-493). -/
def go_create_mirror_vdev (B : Backend) (children : List NvList) (t : Trace) :
    Option NvList × Trace :=
  let a := nvlist_alloc B t
  match a.1.2 with
  | none => (none, a.2)
  | some mirror =>
    let s := nvlist_add_string B mirror "type" "mirror" a.2
    if s.1.1 ≠ 0 then (none, callVoid (Call.nvlist_free s.1.2) s.2)
    else
      let q := nvlist_add_nvlist_array B s.1.2 "children" children s.2
      if q.1.1 ≠ 0 then (none, callVoid (Call.nvlist_free q.1.2) q.2)
      else (some q.1.2, q.2)

/-- Embeds `go_create_raidz_vdev` (lines 495-521). -/
def go_create_raidz_vdev (B : Backend) (children : List NvList) (parity : Int) (t : Trace) :
    Option NvList × Trace :=
  let type : Option String :=
    if parity = 1 then some "raidz"
    else if parity = 2 then some "raidz2"
    else if parity = 3 then some "raidz3"
    else none
  match type with
  | none => (none, t)
  | some ty =>
    let a := nvlist_alloc B t
    match a.1.2 with
    | none => (none, a.2)
    | some raidz =>
      let s := nvlist_add_string B raidz "type" ty a.2
      if s.1.1 ≠ 0 then (none, callVoid (Call.nvlist_free s.1.2) s.2)
      else
        let q := nvlist_add_nvlist_array B s.1.2 "children" children s.2
        if q.1.1 ≠ 0 then (none, callVoid (Call.nvlist_free q.1.2) q.2)
        else (some q.1.2, q.2)

/-- Embeds `go_zfs_clone` (lines 381-392). -/
def go_zfs_clone (B : Backend) (snapname clonename : String) (props : Option NvList)
    (t : Trace) : Int × Trace :=
  let t1 := t ++ [Call.zfs_open snapname ZFS_TYPE_SNAPSHOT]
  match B.zfs_open t snapname ZFS_TYPE_SNAPSHOT with
  | none => (-1, t1)
  | some snap_zhp =>
    let r := callInt B (Call.zfs_clone snap_zhp.name clonename props) t1
    (r.1, callVoid (Call.zfs_close snap_zhp.name) r.2)

/-- Embeds `go_zfs_get_origin` (lines 399-408); `none` is the null pointer. -/
def go_zfs_get_origin (B : Backend) (zhp : ZfsNode) (t : Trace) : Option String × Trace :=
  let c := Call.zfs_prop_get zhp.name zfs_prop_t.ZFS_PROP_ORIGIN
  (if B.int t c = 0 then some (B.str t c) else none, t ++ [c])

/-- Embeds `go_zfs_get_clones_nvlist` (lines 410-412). -/
def go_zfs_get_clones_nvlist (B : Backend) (zhp : ZfsNode) (t : Trace) : Option NvList × Trace :=
  (B.clones t zhp.name, t ++ [Call.zfs_get_clones_nvl zhp.name])

/-- Embeds `go_zfs_is_clone` (lines 415-419). -/
def go_zfs_is_clone (B : Backend) (zhp : ZfsNode) (t : Trace) : Bool × Trace :=
  let c := Call.zfs_prop_get zhp.name zfs_prop_t.ZFS_PROP_ORIGIN
  (decide (B.int t c = 0) && decide ((B.str t c).length > 0), t ++ [c])

/-- Embeds `go_zfs_get_clone_count` (lines 422-439): the number of pairs of the clones tree. -/
def go_zfs_get_clone_count (B : Backend) (zhp : ZfsNode) (t : Trace) : Int × Trace :=
  let t1 := t ++ [Call.zfs_get_clones_nvl zhp.name]
  match B.clones t zhp.name with
  | none => (0, t1)
  | some clones =>
    (((clones.strings.length + clones.arrays.length : Nat) : Int),
      callVoid (Call.nvlist_free clones) t1)

/-- Embeds `go_get_zfs_type_filesystem`, `_volume`, `_snapshot` (lines 306-308). -/
def go_get_zfs_type_filesystem : Nat := ZFS_TYPE_FILESYSTEM
def go_get_zfs_type_volume : Nat := ZFS_TYPE_VOLUME
def go_get_zfs_type_snapshot : Nat := ZFS_TYPE_SNAPSHOT

/-- Embeds `go_get_zfs_online_*` (lines 563-579). -/
def go_get_zfs_online_checkremove : Nat := 1
def go_get_zfs_online_unspare : Nat := 2
def go_get_zfs_online_forcefault : Nat := 4
def go_get_zfs_online_expand : Nat := 8

/-! ## The driver (`libzfs_driver.go`, `libzfs_helpers.go`)

Every method takes the trace of the calls made so far and returns the trace
afterwards. The mutex is not modelled: methods run one at a time. `defer`red
calls are made at each exit that follows the `defer` statement, last first;
`C.CString` and `C.free` are not library calls and are not recorded. What the
library reads of a `C.CString` is modelled by `CString` in the tree builders
(`createVdevNvlist`, `createVdevRoot`, `createPropsNvlist`, `createMirrorVdev`,
`createRaidzVdev`, `createComplexVdevNvlist`) and in `CreatePool`, where a string of the
caller ends up in a tree or in the creation request; a literal of the source such as
"type" or "children" holds no NUL byte and is written as it is; elsewhere a name is passed
as given, which is what the library reads of a name without a NUL byte. -/

/-- The record `libzfsDriver`: the connection handle, nil once closed, and whether a
finalizer is registered for the driver. -/
structure libzfsDriver where
  h : Option Handle
  finalizer : Bool
  deriving DecidableEq, Repr

/-- The error `fmt.Errorf(msg)` of a format without `%w`. -/
def errorf (msg : String) : GoError := GoError.foreign msg GoError.nil

/-- The error `fmt.Errorf(prefix + "%w", err)`: it unwraps to `err`. -/
def errorfW (pre : String) (err : GoError) : GoError :=
  GoError.foreign (pre ++ (err.Error).getD "%!w(<nil>)") err

/-- The library function `strings.HasPrefix`. -/
def HasPrefix (s pre : String) : Bool := pre.data.isPrefixOf s.data

/-- The two calls `go_libzfs_errno`, `go_libzfs_error_description` of a failure path and
the error `fmt.Errorf(what + " (errno %d): %s", errno, desc)` built from them. -/
def libzfsFailure (B : Backend) (what : String) (t : Trace) : GoError × Trace :=
  let e := go_libzfs_errno B t
  let ds := go_libzfs_error_description B e.2
  (errorf (what ++ " (errno " ++ formatInt e.1 ++ "): " ++ ds.1), ds.2)

/-- Embeds `NewLibZFS` (lines 184-194). -/
def NewLibZFS (B : Backend) (t : Trace) : (Option libzfsDriver × GoError) × Trace :=
  let r := go_libzfs_init B t
  match r.1 with
  | none => ((none, errorf "libzfs_init failed"), r.2)
  | some h => ((some { h := some h, finalizer := true }, GoError.nil), r.2)

/-- Embeds `Close` (lines 200-210): the error returned, the driver afterwards, the trace. -/
def libzfsDriver.Close (d : libzfsDriver) (t : Trace) : (GoError × libzfsDriver) × Trace :=
  match d.h with
  | some h => ((GoError.nil, { h := none, finalizer := false }), go_libzfs_fini (some h) t)
  | none => ((GoError.nil, d), t)

/-- Embeds `finalize` (lines 196-198). -/
def libzfsDriver.finalize (d : libzfsDriver) (t : Trace) : libzfsDriver × Trace :=
  ((d.Close t).1.2, (d.Close t).2)

/-- Embeds `RuntimeInfo` (lines 212-223). -/
def libzfsDriver.RuntimeInfo (d : libzfsDriver) (t : Trace) :
    ((String × String × String) × GoError) × Trace :=
  match d.h with
  | none => ((("", "", ""), errorf "driver closed"), t)
  | some _ => ((("libzfs", "OpenZFS 2.x", "FreeBSD"), GoError.nil), t)

/-- Embeds `mapPoolState` (helpers, lines 159-180). -/
def mapPoolState (state : Int) : String :=
  if state = PoolStateActive then "ACTIVE"
  else if state = PoolStateExported then "EXPORTED"
  else if state = PoolStateDestroyed then "DESTROYED"
  else if state = PoolStateSpare then "SPARE"
  else if state = PoolStateL2Cache then "L2CACHE"
  else if state = PoolStateUninitialized then "UNINITIALIZED"
  else if state = PoolStateUnavail then "UNAVAIL"
  else if state = PoolStatePotentiallyActive then "POTENTIALLY_ACTIVE"
  else "UNKNOWN"

/-- Embeds `mapPoolHealth` (helpers, lines 183-198). -/
def mapPoolHealth (status : Int) : String :=
  if status = PoolStatusCorruptCache then "DEGRADED"
  else if status = PoolStatusMissingDevR then "DEGRADED"
  else if status = PoolStatusMissingDevNr then "DEGRADED"
  else if status = PoolStatusCorruptLabelR then "DEGRADED"
  else if status = PoolStatusCorruptLabelNr then "DEGRADED"
  else "ONLINE"

/-- The record `poolIterData`. -/
structure poolIterData where
  pools : List PoolInfo
  err : GoError

/-- Embeds `go_pool_iter_callback` (lines 231-251). -/
def go_pool_iter_callback (zhp : ZpoolObj) (iterData : poolIterData) : Int × poolIterData :=
  let name := go_zpool_get_name zhp
  let guid := go_zpool_get_guid zhp
  let state := mapPoolState (go_zpool_get_state zhp)
  let health := mapPoolHealth (go_zpool_get_status zhp)
  (0, { iterData with
        pools := iterData.pools ++ [{ Name := name, GUID := guid, Health := health, State := state }] })

/-- Embeds `ListPools` (lines 253-276). -/
def libzfsDriver.ListPools (B : Backend) (d : libzfsDriver) (t : Trace) :
    (List PoolInfo × GoError) × Trace :=
  match d.h with
  | none => (([], errorf "driver closed"), t)
  | some _ =>
    let r := go_iter_pools B go_pool_iter_callback { pools := [], err := GoError.nil } t
    if r.1.1 ≠ 0 then
      let f := libzfsFailure B "failed to iterate pools" r.2
      (([], f.1), f.2)
    else if r.1.2.err ≠ GoError.nil then (([], r.1.2.err), r.2)
    else ((r.1.2.pools, GoError.nil), r.2)

/-- The table `propMap` of `GetPoolProps` (lines 299-307). -/
def poolPropMap : GoMap zpool_prop_t :=
  [(PropNameSize, zpool_prop_t.ZPOOL_PROP_SIZE),
   (PropNameCapacity, zpool_prop_t.ZPOOL_PROP_CAPACITY),
   (PropNameHealth, zpool_prop_t.ZPOOL_PROP_HEALTH),
   (PropNameGuid, zpool_prop_t.ZPOOL_PROP_GUID),
   (PropNameVersion, zpool_prop_t.ZPOOL_PROP_VERSION),
   (PropNameFree, zpool_prop_t.ZPOOL_PROP_FREE),
   (PropNameAllocated, zpool_prop_t.ZPOOL_PROP_ALLOCATED)]

/-- The retrieval loop of `GetPoolProps` (lines 317-335). -/
def getPoolPropsLoop (B : Backend) (zhp : ZpoolObj) :
    List String → GoMap PropertyInfo → Trace → GoMap PropertyInfo × Trace
  | [], properties, t => (properties, t)
  | propName :: rest, properties, t =>
    match poolPropMap.get propName with
    | some propValue =>
      let r := go_get_zpool_property B zhp propValue t
      if r.1.1 = 0 then
        getPoolPropsLoop B zhp rest
          (properties.set propName
            { Name := propName, Value := r.1.2, Source := PropSource.PropSourceLocal,
              Received := false }) r.2
      else getPoolPropsLoop B zhp rest properties r.2
    | none => getPoolPropsLoop B zhp rest properties t

/-- Embeds `GetPoolProps` (lines 278-339). With no name requested the keys of the table are
taken, here in the order of the table. -/
def libzfsDriver.GetPoolProps (B : Backend) (d : libzfsDriver) (poolName : String)
    (propNames : List String) (t : Trace) : (GoMap PropertyInfo × GoError) × Trace :=
  match d.h with
  | none => (([], errorf "driver closed"), t)
  | some _ =>
    match B.zpool_open t poolName with
    | none =>
      let f := libzfsFailure B ("failed to open pool " ++ poolName) (t ++ [Call.zpool_open poolName])
      (([], f.1), f.2)
    | some zhp =>
      let propNames := if propNames.length = 0 then poolPropMap.map Prod.fst else propNames
      let r := getPoolPropsLoop B zhp propNames [] (t ++ [Call.zpool_open poolName])
      ((r.1, GoError.nil), callVoid (Call.zpool_close zhp.name) r.2)

/-- The record `datasetIterData`. -/
structure datasetIterData where
  datasets : List DatasetInfo
  err : GoError

/-- Embeds `mapDatasetType` (lines 366-381). -/
def mapDatasetType (zfsType : Nat) : DatasetType :=
  if zfsType = 1 then DatasetType.DatasetFilesystem
  else if zfsType = 2 then DatasetType.DatasetSnapshot
  else if zfsType = 4 then DatasetType.DatasetVolume
  else if zfsType = 8 then DatasetType.DatasetFilesystem
  else if zfsType = 16 then DatasetType.DatasetBookmark
  else DatasetType.DatasetFilesystem

/-- Embeds `go_dataset_iter_callback` (lines 347-363). -/
def go_dataset_iter_callback (zhp : ZfsNode) (iterData : datasetIterData) :
    Int × datasetIterData :=
  let name := go_zfs_get_name zhp
  let guid := go_zfs_get_guid zhp
  let dsType := mapDatasetType (go_zfs_get_type zhp)
  (0, { iterData with
        datasets := iterData.datasets ++ [{ Name := name, Type_ := dsType, GUID := guid }] })

/-- Embeds `ListDatasets` (lines 383-406). -/
def libzfsDriver.ListDatasets (B : Backend) (d : libzfsDriver) (_recursive : Bool) (t : Trace) :
    (List DatasetInfo × GoError) × Trace :=
  match d.h with
  | none => (([], errorf "driver closed"), t)
  | some _ =>
    let r := go_iter_datasets B go_dataset_iter_callback { datasets := [], err := GoError.nil } t
    if r.1.1 ≠ 0 then
      let f := libzfsFailure B "failed to iterate datasets" r.2
      (([], f.1), f.2)
    else if r.1.2.err ≠ GoError.nil then (([], r.1.2.err), r.2)
    else ((r.1.2.datasets, GoError.nil), r.2)

/-- Embeds `ListDatasetsInPool` (lines 408-424). -/
def libzfsDriver.ListDatasetsInPool (B : Backend) (d : libzfsDriver) (poolName : String)
    (recursive : Bool) (t : Trace) : (List DatasetInfo × GoError) × Trace :=
  let r := d.ListDatasets B recursive t
  if r.1.2 ≠ GoError.nil then (([], r.1.2), r.2)
  else
    ((r.1.1.filter (fun dataset =>
        HasPrefix dataset.Name (poolName ++ "/") || decide (dataset.Name = poolName)),
      GoError.nil), r.2)

/-- The de-duplication of `ListDatasetsByType` (lines 448-458): the map keyed by name,
then its entries, here in the order the map model keeps them. -/
def uniqueDatasets (datasets : List DatasetInfo) : List DatasetInfo :=
  (datasets.foldl (fun (datasetMap : GoMap DatasetInfo) dataset =>
      datasetMap.set dataset.Name dataset) []).map Prod.snd

/-- Embeds `ListDatasetsByType` (lines 426-473); `dsType` is `none` for a nil pointer. -/
def libzfsDriver.ListDatasetsByType (B : Backend) (d : libzfsDriver)
    (dsType : Option DatasetType) (_recursive : Bool) (t : Trace) :
    (List DatasetInfo × GoError) × Trace :=
  match d.h with
  | none => (([], errorf "driver closed"), t)
  | some _ =>
    let r := go_iter_all_datasets B go_dataset_iter_callback
      { datasets := [], err := GoError.nil } t
    if r.1.1 ≠ 0 then
      let f := libzfsFailure B "failed to iterate all datasets" r.2
      (([], f.1), f.2)
    else if r.1.2.err ≠ GoError.nil then (([], r.1.2.err), r.2)
    else
      match dsType with
      | none => ((uniqueDatasets r.1.2.datasets, GoError.nil), r.2)
      | some ty =>
        (((uniqueDatasets r.1.2.datasets).filter (fun dataset => dataset.Type_ = ty),
          GoError.nil), r.2)

/-- The table `propMap` of `GetDatasetProps` (lines 497-508). -/
def datasetPropMap : GoMap zfs_prop_t :=
  [(PropNameUsed, zfs_prop_t.ZFS_PROP_USED),
   (PropNameAvail, zfs_prop_t.ZFS_PROP_AVAILABLE),
   (PropNameRefer, zfs_prop_t.ZFS_PROP_REFERENCED),
   (PropNameCompressratio, zfs_prop_t.ZFS_PROP_COMPRESSRATIO),
   (PropNameQuota, zfs_prop_t.ZFS_PROP_QUOTA),
   (PropNameReservation, zfs_prop_t.ZFS_PROP_RESERVATION),
   (PropNameRecordsize, zfs_prop_t.ZFS_PROP_RECORDSIZE),
   (PropNameMountpoint, zfs_prop_t.ZFS_PROP_MOUNTPOINT),
   (PropNameCompression, zfs_prop_t.ZFS_PROP_COMPRESSION)]

/-- The retrieval loop of `GetDatasetProps` (lines 517-535). -/
def getDatasetPropsLoop (B : Backend) (zhp : ZfsNode) :
    List String → GoMap PropertyInfo → Trace → GoMap PropertyInfo × Trace
  | [], properties, t => (properties, t)
  | propName :: rest, properties, t =>
    match datasetPropMap.get propName with
    | some propValue =>
      let r := go_get_zfs_property B zhp propValue t
      if r.1.1 = 0 then
        getDatasetPropsLoop B zhp rest
          (properties.set propName
            { Name := propName, Value := r.1.2, Source := PropSource.PropSourceLocal,
              Received := false }) r.2
      else getDatasetPropsLoop B zhp rest properties r.2
    | none => getDatasetPropsLoop B zhp rest properties t

/-- Embeds `GetDatasetProps` (lines 475-538). With no name requested the keys of the table are
taken, here in the order of the table. -/
def libzfsDriver.GetDatasetProps (B : Backend) (d : libzfsDriver) (datasetName : String)
    (propNames : List String) (t : Trace) : (GoMap PropertyInfo × GoError) × Trace :=
  match d.h with
  | none => (([], errorf "driver closed"), t)
  | some _ =>
    match B.zfs_open t datasetName ZFS_TYPE_DATASET with
    | none =>
      let f := libzfsFailure B ("failed to open dataset " ++ datasetName)
        (t ++ [Call.zfs_open datasetName ZFS_TYPE_DATASET])
      (([], f.1), f.2)
    | some zhp =>
      let propNames := if propNames.length = 0 then datasetPropMap.map Prod.fst else propNames
      let r := getDatasetPropsLoop B zhp propNames []
        (t ++ [Call.zfs_open datasetName ZFS_TYPE_DATASET])
      ((r.1, GoError.nil), callVoid (Call.zfs_close zhp.name) r.2)

/-- Embeds `ImportPool` (lines 540-550). -/
def libzfsDriver.ImportPool (d : libzfsDriver) (_poolName : String) (_opts : ImportOptions)
    (t : Trace) : GoError × Trace :=
  match d.h with
  | none => (errorf "driver closed", t)
  | some _ => (errorf "ImportPool not fully implemented yet", t)

/-- Embeds `go_zpool_export` (C, lines 262-264). -/
def go_zpool_export (B : Backend) (zhp : ZpoolObj) (force : Bool) (message : String)
    (t : Trace) : Int × Trace :=
  callInt B (Call.zpool_export zhp.name force message) t

/-- Embeds `go_zpool_export_force` (C, lines 266-268). -/
def go_zpool_export_force (B : Backend) (zhp : ZpoolObj) (t : Trace) : Int × Trace :=
  callInt B (Call.zpool_export zhp.name true "Exported via Go ZFS library") t

/-- Embeds `ExportPool` (lines 552-589). -/
def libzfsDriver.ExportPool (B : Backend) (d : libzfsDriver) (poolName : String)
    (opts : ExportOptions) (t : Trace) : GoError × Trace :=
  match d.h with
  | none => (errorf "driver closed", t)
  | some _ =>
    match B.zpool_open t poolName with
    | none =>
      libzfsFailure B ("failed to open pool " ++ poolName ++ " for export")
        (t ++ [Call.zpool_open poolName])
    | some zhp =>
      let r :=
        if opts.Force then go_zpool_export_force B zhp (t ++ [Call.zpool_open poolName])
        else go_zpool_export B zhp false opts.Message (t ++ [Call.zpool_open poolName])
      if r.1 ≠ 0 then
        let f := libzfsFailure B ("failed to export pool " ++ poolName) r.2
        (f.1, callVoid (Call.zpool_close zhp.name) f.2)
      else (GoError.nil, callVoid (Call.zpool_close zhp.name) r.2)

/-- Embeds `freeNvlist` (helpers, lines 86-90). -/
def libzfsDriver.freeNvlist (nvl : Option NvList) (t : Trace) : Trace :=
  match nvl with
  | some l => go_nvlist_free (some l) t
  | none => t

/-- A loop `for _, vdev := range list { d.freeNvlist(vdev) }`. -/
def freeNvlists (l : List NvList) (t : Trace) : Trace :=
  l.foldl (fun t nvl => libzfsDriver.freeNvlist (some nvl) t) t

/-- The loop of `createPropsNvlist` (helpers, lines 67-80) over the entries of the map. -/
def createPropsNvlistLoop (B : Backend) :
    List (String × String) → NvList → Trace → (Option NvList × GoError) × Trace
  | [], nvl, t => ((some nvl, GoError.nil), t)
  | (key, value) :: rest, nvl, t =>
    let r := go_nvlist_add_string B nvl (CString key) (CString value) t
    if r.1.1 ≠ 0 then
      ((none, errorf ("failed to add property " ++ key ++ "=" ++ value ++ " to nvlist")),
        go_nvlist_free (some r.1.2) r.2)
    else createPropsNvlistLoop B rest r.1.2 r.2

/-- Embeds `createPropsNvlist` (helpers, lines 57-83). -/
def libzfsDriver.createPropsNvlist (B : Backend) (props : GoMap String) (t : Trace) :
    (Option NvList × GoError) × Trace :=
  if props.length = 0 then ((none, GoError.nil), t)
  else
    let a := go_nvlist_alloc B t
    match a.1 with
    | none => ((none, errorf "failed to allocate nvlist"), a.2)
    | some nvl => createPropsNvlistLoop B props nvl a.2

/-- Embeds `createVdevNvlist` (helpers, lines 93-105). -/
def libzfsDriver.createVdevNvlist (B : Backend) (vdevType path : String) (t : Trace) :
    (Option NvList × GoError) × Trace :=
  let r := go_create_vdev_nvlist B (CString vdevType) (some (CString path)) t
  match r.1 with
  | none => ((none, errorf ("failed to create vdev nvlist for " ++ vdevType ++ ":" ++ path)), r.2)
  | some vdev => ((some vdev, GoError.nil), r.2)

/-- The loop of `createVdevRoot` (helpers, lines 127-139): `vdevList` holds the trees built
so far; on a failure they are freed, then the root. -/
def createVdevRootLoop (B : Backend) (nvroot : NvList) :
    List String → List NvList → Trace → (Option (List NvList) × GoError) × Trace
  | [], vdevList, t => ((some vdevList, GoError.nil), t)
  | vdev :: rest, vdevList, t =>
    let r := libzfsDriver.createVdevNvlist B VdevTypeDisk vdev t
    match r.1.1 with
    | none =>
      ((none, r.1.2), libzfsDriver.freeNvlist (some nvroot) (freeNvlists vdevList r.2))
    | some vdevNvlist => createVdevRootLoop B nvroot rest (vdevList ++ [vdevNvlist]) r.2

/-- Embeds `createVdevRoot` (helpers, lines 107-156): the root tree, the child trees, the error;
`none` is the panic of `&vdevList[0]` on an empty list. -/
def libzfsDriver.createVdevRoot (B : Backend) (vdevs : List String) (t : Trace) :
    Option ((Option NvList × List NvList × GoError) × Trace) :=
  let a := go_nvlist_alloc B t
  match a.1 with
  | none => some ((none, [], errorf "failed to allocate vdev root nvlist"), a.2)
  | some nvroot =>
    let s := go_nvlist_add_string B nvroot "type" VdevTypeRoot a.2
    if s.1.1 ≠ 0 then
      some ((none, [], errorf "failed to set root vdev type"),
        libzfsDriver.freeNvlist (some s.1.2) s.2)
    else
      let l := createVdevRootLoop B s.1.2 vdevs [] s.2
      match l.1.1 with
      | none => some ((none, [], l.1.2), l.2)
      | some vdevList =>
        match vdevList with
        | [] => none
        | _ :: _ =>
          let r := go_nvlist_add_nvlist_array B s.1.2 "children" vdevList l.2
          if r.1.1 ≠ 0 then
            some ((none, [], errorf "failed to add children to vdev root"),
              libzfsDriver.freeNvlist (some r.1.2) (freeNvlists vdevList r.2))
          else some ((some r.1.2, vdevList, GoError.nil), r.2)

/-- Embeds `openDatasetHandle` (helpers, lines 201-217). -/
def libzfsDriver.openDatasetHandle (B : Backend) (datasetName : String) (t : Trace) :
    (Option ZfsNode × GoError) × Trace :=
  match B.zfs_open t datasetName go_get_zfs_type_filesystem with
  | some zhp => ((some zhp, GoError.nil), t ++ [Call.zfs_open datasetName go_get_zfs_type_filesystem])
  | none =>
    let t1 := t ++ [Call.zfs_open datasetName go_get_zfs_type_filesystem]
    match B.zfs_open t1 datasetName go_get_zfs_type_volume with
    | some zhp => ((some zhp, GoError.nil), t1 ++ [Call.zfs_open datasetName go_get_zfs_type_volume])
    | none =>
      let f := libzfsFailure B ("failed to open dataset " ++ datasetName)
        (t1 ++ [Call.zfs_open datasetName go_get_zfs_type_volume])
      ((none, f.1), f.2)

/-- Embeds `openPoolHandle` (helpers, lines 220-232). -/
def libzfsDriver.openPoolHandle (B : Backend) (poolName : String) (t : Trace) :
    (Option ZpoolObj × GoError) × Trace :=
  match B.zpool_open t poolName with
  | some zhp => ((some zhp, GoError.nil), t ++ [Call.zpool_open poolName])
  | none =>
    let f := libzfsFailure B ("failed to open pool " ++ poolName) (t ++ [Call.zpool_open poolName])
    ((none, f.1), f.2)

/-- Embeds `getLibzfsError` (helpers, lines 235-239). -/
def libzfsDriver.getLibzfsError (B : Backend) (t : Trace) : (Int × String) × Trace :=
  let e := go_libzfs_errno B t
  let ds := go_libzfs_error_description B e.2
  ((e.1, ds.1), ds.2)

/-- Embeds `CreatePool` (lines 591-651); `none` is a panic. -/
def libzfsDriver.CreatePool (B : Backend) (d : libzfsDriver) (poolName : String)
    (vdevs : List String) (opts : CreateOptions) (t : Trace) : Option (GoError × Trace) :=
  match d.h with
  | none => some (errorf "driver closed", t)
  | some _ =>
    if vdevs.length = 0 then
      some (errorf "at least one vdev is required to create a pool", t)
    else
      match libzfsDriver.createVdevRoot B vdevs t with
      | none => none
      | some v =>
        if v.1.2.2 ≠ GoError.nil then some (v.1.2.2, v.2)
        else
          let nvroot := v.1.1
          let vdevList := v.1.2.1
          let pp := libzfsDriver.createPropsNvlist B opts.Properties v.2
          if pp.1.2 ≠ GoError.nil then
            some (errorfW "failed to create pool properties: " pp.1.2,
              libzfsDriver.freeNvlist nvroot (freeNvlists vdevList pp.2))
          else
            let fp := libzfsDriver.createPropsNvlist B opts.FsProperties pp.2
            if fp.1.2 ≠ GoError.nil then
              some (errorfW "failed to create filesystem properties: " fp.1.2,
                libzfsDriver.freeNvlist nvroot
                  (libzfsDriver.freeNvlist pp.1.1 (freeNvlists vdevList fp.2)))
            else
              let c := callInt B (Call.zpool_create (CString poolName) nvroot pp.1.1 fp.1.1) fp.2
              let t1 := freeNvlists vdevList c.2
              if c.1 ≠ 0 then
                let f := libzfsFailure B ("failed to create pool " ++ poolName) t1
                some (f.1, libzfsDriver.freeNvlist nvroot
                  (libzfsDriver.freeNvlist pp.1.1 (libzfsDriver.freeNvlist fp.1.1 f.2)))
              else
                some (GoError.nil, libzfsDriver.freeNvlist nvroot
                  (libzfsDriver.freeNvlist pp.1.1 (libzfsDriver.freeNvlist fp.1.1 t1)))

/-- Embeds `go_zfs_destroy` (C, lines 297-299). -/
def go_zfs_destroy (B : Backend) (zhp : ZfsNode) (defer_destroy : Bool) (t : Trace) :
    Int × Trace :=
  callInt B (Call.zfs_destroy zhp.name defer_destroy) t

/-- Embeds `go_zfs_destroy_recursive` (C, lines 301-303); `snapname` is not used. -/
def go_zfs_destroy_recursive (B : Backend) (zhp : ZfsNode) (_snapname : Option String)
    (t : Trace) : Int × Trace :=
  callInt B (Call.zfs_destroy zhp.name false) t

/-- Embeds `DestroyPool` (lines 653-685). -/
def libzfsDriver.DestroyPool (B : Backend) (d : libzfsDriver) (poolName : String) (t : Trace) :
    GoError × Trace :=
  match d.h with
  | none => (errorf "driver closed", t)
  | some _ =>
    match B.zpool_open t poolName with
    | none =>
      libzfsFailure B ("failed to open pool " ++ poolName ++ " for destruction")
        (t ++ [Call.zpool_open poolName])
    | some zhp =>
      let r := callInt B (Call.zpool_destroy zhp.name "Destroyed via Go ZFS library")
        (t ++ [Call.zpool_open poolName])
      if r.1 ≠ 0 then
        let f := libzfsFailure B ("failed to destroy pool " ++ poolName) r.2
        (f.1, callVoid (Call.zpool_close zhp.name) f.2)
      else (GoError.nil, callVoid (Call.zpool_close zhp.name) r.2)

/-- The rendering of a `DatasetType` by `%v`, through its `String` method. -/
def DatasetType.String : DatasetType → String
  | DatasetType.DatasetFilesystem => "filesystem"
  | DatasetType.DatasetVolume => "volume"
  | DatasetType.DatasetSnapshot => "snapshot"
  | DatasetType.DatasetBookmark => "bookmark"

/-- Embeds `CreateDataset` (lines 687-725). -/
def libzfsDriver.CreateDataset (B : Backend) (d : libzfsDriver) (datasetName : String)
    (dsType : DatasetType) (props : GoMap String) (t : Trace) : GoError × Trace :=
  match d.h with
  | none => (errorf "driver closed", t)
  | some _ =>
    let zfsType : Option Nat :=
      match dsType with
      | DatasetType.DatasetFilesystem => some go_get_zfs_type_filesystem
      | DatasetType.DatasetVolume => some go_get_zfs_type_volume
      | _ => none
    match zfsType with
    | none => (errorf ("unsupported dataset type: " ++ dsType.String), t)
    | some ty =>
      let pn := libzfsDriver.createPropsNvlist B props t
      if pn.1.2 ≠ GoError.nil then
        (errorfW "failed to create properties nvlist: " pn.1.2, pn.2)
      else
        let r := callInt B (Call.zfs_create datasetName ty pn.1.1) pn.2
        if r.1 ≠ 0 then
          let e := libzfsDriver.getLibzfsError B r.2
          (errorf ("failed to create dataset " ++ datasetName ++ " (errno " ++ formatInt e.1.1
              ++ "): " ++ e.1.2),
            libzfsDriver.freeNvlist pn.1.1 e.2)
        else (GoError.nil, libzfsDriver.freeNvlist pn.1.1 r.2)

/-- Embeds `SetDatasetProp` (lines 727-756). -/
def libzfsDriver.SetDatasetProp (B : Backend) (d : libzfsDriver)
    (datasetName propName propValue : String) (t : Trace) : GoError × Trace :=
  match d.h with
  | none => (errorf "driver is closed", t)
  | some _ =>
    let o := libzfsDriver.openDatasetHandle B datasetName t
    match o.1.1 with
    | none => (o.1.2, o.2)
    | some zhp =>
      let r := callInt B (Call.zfs_prop_set zhp.name propName propValue) o.2
      if r.1 ≠ 0 then
        let e := libzfsDriver.getLibzfsError B r.2
        (errorf ("failed to set property " ++ propName ++ "=" ++ propValue ++ " on dataset "
            ++ datasetName ++ " (errno " ++ formatInt e.1.1 ++ "): " ++ e.1.2),
          callVoid (Call.zfs_close zhp.name) e.2)
      else (GoError.nil, callVoid (Call.zfs_close zhp.name) r.2)

/-- Embeds `DestroyDataset` (lines 758-794). -/
def libzfsDriver.DestroyDataset (B : Backend) (d : libzfsDriver) (datasetName : String)
    (recursive : Bool) (t : Trace) : GoError × Trace :=
  match d.h with
  | none => (errorf "driver closed", t)
  | some _ =>
    match B.zfs_open t datasetName ZFS_TYPE_DATASET with
    | none =>
      libzfsFailure B ("failed to open dataset " ++ datasetName ++ " for destruction")
        (t ++ [Call.zfs_open datasetName ZFS_TYPE_DATASET])
    | some zhp =>
      let r :=
        if recursive then
          go_zfs_destroy_recursive B zhp none (t ++ [Call.zfs_open datasetName ZFS_TYPE_DATASET])
        else go_zfs_destroy B zhp false (t ++ [Call.zfs_open datasetName ZFS_TYPE_DATASET])
      if r.1 ≠ 0 then
        let f := libzfsFailure B ("failed to destroy dataset " ++ datasetName) r.2
        (f.1, callVoid (Call.zfs_close zhp.name) f.2)
      else (GoError.nil, callVoid (Call.zfs_close zhp.name) r.2)

/-- Embeds `CreateSnapshot` (lines 796-829). -/
def libzfsDriver.CreateSnapshot (B : Backend) (d : libzfsDriver) (snapshotName : String)
    (recursive : Bool) (props : GoMap String) (t : Trace) : GoError × Trace :=
  match d.h with
  | none => (errorf "driver is closed", t)
  | some _ =>
    let pn := libzfsDriver.createPropsNvlist B props t
    if pn.1.2 ≠ GoError.nil then
      (errorfW "failed to create properties nvlist: " pn.1.2, pn.2)
    else
      let r := callInt B (Call.zfs_snapshot snapshotName recursive pn.1.1) pn.2
      if r.1 ≠ 0 then
        let f := libzfsFailure B ("failed to create snapshot " ++ snapshotName) r.2
        (f.1, libzfsDriver.freeNvlist pn.1.1 f.2)
      else (GoError.nil, libzfsDriver.freeNvlist pn.1.1 r.2)

/-- Embeds `DestroySnapshot` (lines 831-860). -/
def libzfsDriver.DestroySnapshot (B : Backend) (d : libzfsDriver) (snapshotName : String)
    (t : Trace) : GoError × Trace :=
  match d.h with
  | none => (errorf "driver is closed", t)
  | some _ =>
    match B.zfs_open t snapshotName go_get_zfs_type_snapshot with
    | none =>
      libzfsFailure B ("failed to open snapshot " ++ snapshotName)
        (t ++ [Call.zfs_open snapshotName go_get_zfs_type_snapshot])
    | some zhp =>
      let r := go_zfs_destroy B zhp false (t ++ [Call.zfs_open snapshotName go_get_zfs_type_snapshot])
      if r.1 ≠ 0 then
        let f := libzfsFailure B ("failed to destroy snapshot " ++ snapshotName) r.2
        (f.1, callVoid (Call.zfs_close zhp.name) f.2)
      else (GoError.nil, callVoid (Call.zfs_close zhp.name) r.2)

/-- The opening of a dataset as a filesystem, then as a volume, of `RollbackToSnapshot`
(lines 874-884) and `PromoteClone` (lines 978-988): the handle and the trace. -/
def openFilesystemOrVolume (B : Backend) (name : String) (t : Trace) : Option ZfsNode × Trace :=
  match B.zfs_open t name go_get_zfs_type_filesystem with
  | some zhp => (some zhp, t ++ [Call.zfs_open name go_get_zfs_type_filesystem])
  | none =>
    (B.zfs_open (t ++ [Call.zfs_open name go_get_zfs_type_filesystem]) name go_get_zfs_type_volume,
      t ++ [Call.zfs_open name go_get_zfs_type_filesystem] ++ [Call.zfs_open name go_get_zfs_type_volume])

/-- Embeds `RollbackToSnapshot` (lines 862-915). -/
def libzfsDriver.RollbackToSnapshot (B : Backend) (d : libzfsDriver)
    (datasetName snapshotName : String) (force : Bool) (t : Trace) : GoError × Trace :=
  match d.h with
  | none => (errorf "driver is closed", t)
  | some _ =>
    let o := openFilesystemOrVolume B datasetName t
    match o.1 with
    | none => libzfsFailure B ("failed to open dataset " ++ datasetName) o.2
    | some zhp =>
      match B.zfs_open o.2 snapshotName go_get_zfs_type_snapshot with
      | none =>
        let f := libzfsFailure B ("failed to open snapshot " ++ snapshotName)
          (o.2 ++ [Call.zfs_open snapshotName go_get_zfs_type_snapshot])
        (f.1, callVoid (Call.zfs_close zhp.name) f.2)
      | some snapzhp =>
        let r := callInt B (Call.zfs_rollback zhp.name snapzhp.name force)
          (o.2 ++ [Call.zfs_open snapshotName go_get_zfs_type_snapshot])
        if r.1 ≠ 0 then
          let f := libzfsFailure B
            ("failed to rollback " ++ datasetName ++ " to snapshot " ++ snapshotName) r.2
          (f.1, callVoid (Call.zfs_close zhp.name) (callVoid (Call.zfs_close snapzhp.name) f.2))
        else
          (GoError.nil,
            callVoid (Call.zfs_close zhp.name) (callVoid (Call.zfs_close snapzhp.name) r.2))

/-- The loop of `CreateClone` (lines 940-950) over the entries of the map: the tree
afterwards and the error. -/
def createCloneLoop (B : Backend) :
    List (String × String) → NvList → Trace → (NvList × GoError) × Trace
  | [], nvl, t => ((nvl, GoError.nil), t)
  | (key, value) :: rest, nvl, t =>
    let r := go_nvlist_add_string B nvl key value t
    if r.1.1 ≠ 0 then ((r.1.2, errorf ("failed to add property " ++ key ++ " to nvlist")), r.2)
    else createCloneLoop B rest r.1.2 r.2

/-- The end of `CreateClone` (lines 953-961): the clone call and its error. -/
def createCloneCall (B : Backend) (snapshotName cloneName : String) (propsNvlist : Option NvList)
    (t : Trace) : GoError × Trace :=
  let r := go_zfs_clone B snapshotName cloneName propsNvlist t
  if r.1 ≠ 0 then
    libzfsFailure B ("failed to create clone " ++ cloneName ++ " from snapshot " ++ snapshotName)
      r.2
  else (GoError.nil, r.2)

/-- Embeds `CreateClone` (lines 919-964). -/
def libzfsDriver.CreateClone (B : Backend) (d : libzfsDriver) (snapshotName cloneName : String)
    (props : GoMap String) (t : Trace) : GoError × Trace :=
  match d.h with
  | none => (errorf "driver is closed", t)
  | some _ =>
    if props.length > 0 then
      let a := go_nvlist_alloc B t
      match a.1 with
      | none => (errorf "failed to allocate properties nvlist", a.2)
      | some nvl =>
        let l := createCloneLoop B props nvl a.2
        if l.1.2 ≠ GoError.nil then (l.1.2, go_nvlist_free (some l.1.1) l.2)
        else
          let c := createCloneCall B snapshotName cloneName (some l.1.1) l.2
          (c.1, go_nvlist_free (some l.1.1) c.2)
    else createCloneCall B snapshotName cloneName none t

/-- Embeds `PromoteClone` (lines 966-1005). -/
def libzfsDriver.PromoteClone (B : Backend) (d : libzfsDriver) (cloneName : String) (t : Trace) :
    GoError × Trace :=
  match d.h with
  | none => (errorf "driver is closed", t)
  | some _ =>
    let o := openFilesystemOrVolume B cloneName t
    match o.1 with
    | none => libzfsFailure B ("failed to open clone " ++ cloneName) o.2
    | some zhp =>
      let ic := go_zfs_is_clone B zhp o.2
      if ic.1 = false then
        (errorf ("dataset " ++ cloneName ++ " is not a clone"), callVoid (Call.zfs_close zhp.name) ic.2)
      else
        let r := callInt B (Call.zfs_promote zhp.name) ic.2
        if r.1 ≠ 0 then
          let f := libzfsFailure B ("failed to promote clone " ++ cloneName) r.2
          (f.1, callVoid (Call.zfs_close zhp.name) f.2)
        else (GoError.nil, callVoid (Call.zfs_close zhp.name) r.2)

/-- Embeds `getCloneList` (lines 1130-1148). -/
def libzfsDriver.getCloneList (B : Backend) (zhp : ZfsNode) (t : Trace) :
    (List String × GoError) × Trace :=
  let c := go_zfs_get_clones_nvlist B zhp t
  match c.1 with
  | none => (([], GoError.nil), c.2)
  | some clonesNvlist =>
    let clones : List String := []
    ((clones, GoError.nil), go_nvlist_free (some clonesNvlist) c.2)

/-- Embeds `GetCloneInfo` (lines 1007-1059). -/
def libzfsDriver.GetCloneInfo (B : Backend) (d : libzfsDriver) (datasetName : String)
    (t : Trace) : (Option CloneInfo × GoError) × Trace :=
  match d.h with
  | none => ((none, errorf "driver is closed"), t)
  | some _ =>
    let types := go_get_zfs_type_filesystem ||| go_get_zfs_type_volume ||| go_get_zfs_type_snapshot
    match B.zfs_open t datasetName types with
    | none =>
      let f := libzfsFailure B ("failed to open dataset " ++ datasetName)
        (t ++ [Call.zfs_open datasetName types])
      ((none, f.1), f.2)
    | some zhp =>
      let info : CloneInfo :=
        { Name := datasetName, Origin := "", IsClone := false, CloneCount := 0, Dependents := [] }
      let ic := go_zfs_is_clone B zhp (t ++ [Call.zfs_open datasetName types])
      let info := { info with IsClone := ic.1 }
      let og : Option String × Trace :=
        if info.IsClone then go_zfs_get_origin B zhp ic.2 else (none, ic.2)
      let info := match og.1 with
        | some origin => { info with Origin := origin }
        | none => info
      let dsType := go_zfs_get_type zhp
      let cc : Int × Trace :=
        if dsType = go_get_zfs_type_snapshot then go_zfs_get_clone_count B zhp og.2
        else (info.CloneCount, og.2)
      let info := { info with CloneCount := cc.1 }
      let cl : (List String × GoError) × Trace :=
        if dsType = go_get_zfs_type_snapshot then libzfsDriver.getCloneList B zhp cc.2
        else ((info.Dependents, GoError.nil), cc.2)
      let info := if cl.1.2 = GoError.nil then { info with Dependents := cl.1.1 } else info
      ((some info, GoError.nil), callVoid (Call.zfs_close zhp.name) cl.2)

/-- Embeds `ListClones` (lines 1061-1082). -/
def libzfsDriver.ListClones (B : Backend) (d : libzfsDriver) (snapshotName : String)
    (t : Trace) : (List String × GoError) × Trace :=
  match d.h with
  | none => (([], errorf "driver is closed"), t)
  | some _ =>
    match B.zfs_open t snapshotName go_get_zfs_type_snapshot with
    | none =>
      let f := libzfsFailure B ("failed to open snapshot " ++ snapshotName)
        (t ++ [Call.zfs_open snapshotName go_get_zfs_type_snapshot])
      (([], f.1), f.2)
    | some zhp =>
      let r := libzfsDriver.getCloneList B zhp
        (t ++ [Call.zfs_open snapshotName go_get_zfs_type_snapshot])
      (r.1, callVoid (Call.zfs_close zhp.name) r.2)

/-- Embeds `DestroyClone` (lines 1084-1128). -/
def libzfsDriver.DestroyClone (B : Backend) (d : libzfsDriver) (cloneName : String)
    (force : Bool) (t : Trace) : GoError × Trace :=
  match d.h with
  | none => (errorf "driver is closed", t)
  | some _ =>
    let types := go_get_zfs_type_filesystem ||| go_get_zfs_type_volume
    match B.zfs_open t cloneName types with
    | none =>
      libzfsFailure B ("failed to open clone " ++ cloneName) (t ++ [Call.zfs_open cloneName types])
    | some zhp =>
      let ic : Bool × Trace :=
        if !force then go_zfs_is_clone B zhp (t ++ [Call.zfs_open cloneName types])
        else (true, t ++ [Call.zfs_open cloneName types])
      if !force && ic.1 = false then
        (errorf ("dataset " ++ cloneName ++ " is not a clone"),
          callVoid (Call.zfs_close zhp.name) ic.2)
      else
        let forceFlag : Bool := force
        let r := go_zfs_destroy B zhp forceFlag ic.2
        if r.1 ≠ 0 then
          let f := libzfsFailure B ("failed to destroy clone " ++ cloneName) r.2
          (f.1, callVoid (Call.zfs_close zhp.name) f.2)
        else (GoError.nil, callVoid (Call.zfs_close zhp.name) r.2)

/-- Embeds `go_zpool_open` (C, lines 544-546). -/
def go_zpool_open (B : Backend) (name : String) (t : Trace) : Option ZpoolObj × Trace :=
  (B.zpool_open t name, t ++ [Call.zpool_open name])

/-- Embeds `go_zpool_close` (C, lines 548-552). -/
def go_zpool_close (zhp : Option ZpoolObj) (t : Trace) : Trace :=
  match zhp with
  | some p => callVoid (Call.zpool_close p.name) t
  | none => t

/-- The loop that builds one leaf tree per device in `createMirrorVdev` (lines 1509-1523)
and `createRaidzVdev` (lines 1538-1552); on a failure the trees built so far are freed. -/
def createDeviceNvlists (B : Backend) :
    List String → List NvList → Trace → (Option (List NvList) × GoError) × Trace
  | [], deviceNvlists, t => ((some deviceNvlists, GoError.nil), t)
  | device :: rest, deviceNvlists, t =>
    let r := go_create_vdev_nvlist B (CString "disk") (some (CString device)) t
    match r.1 with
    | none =>
      ((none, errorf ("failed to create nvlist for device " ++ device)),
        deviceNvlists.foldl (fun t nvl => go_nvlist_free (some nvl) t) r.2)
    | some nvl => createDeviceNvlists B rest (deviceNvlists ++ [nvl]) r.2

/-- Embeds `createMirrorVdev` (lines 1507-1534); `none` is the panic of `&deviceNvlists[0]` on an
empty list. -/
def libzfsDriver.createMirrorVdev (B : Backend) (devices : List String) (t : Trace) :
    Option ((Option NvList × GoError) × Trace) :=
  let l := createDeviceNvlists B devices [] t
  match l.1.1 with
  | none => some ((none, l.1.2), l.2)
  | some deviceNvlists =>
    match deviceNvlists with
    | [] => none
    | _ :: _ =>
      let m := go_create_mirror_vdev B deviceNvlists l.2
      some ((m.1, GoError.nil),
        deviceNvlists.foldl (fun t nvl => go_nvlist_free (some nvl) t) m.2)

/-- Embeds `createRaidzVdev` (lines 1536-1563); `none` is the panic of `&deviceNvlists[0]` on an
empty list. -/
def libzfsDriver.createRaidzVdev (B : Backend) (devices : List String) (parity : Int)
    (t : Trace) : Option ((Option NvList × GoError) × Trace) :=
  let l := createDeviceNvlists B devices [] t
  match l.1.1 with
  | none => some ((none, l.1.2), l.2)
  | some deviceNvlists =>
    match deviceNvlists with
    | [] => none
    | _ :: _ =>
      let m := go_create_raidz_vdev B deviceNvlists parity l.2
      some ((m.1, GoError.nil),
        deviceNvlists.foldl (fun t nvl => go_nvlist_free (some nvl) t) m.2)

/-- Embeds `createComplexVdevNvlist` (lines 1465-1505): the tree, nil when none is returned, and the
error; `none` is a panic. -/
def libzfsDriver.createComplexVdevNvlist (B : Backend) (spec : VdevSpec) (t : Trace) :
    Option ((Option NvList × GoError) × Trace) :=
  if spec.Type_ = VdevTypeDisk then
    if spec.Devices.length ≠ 1 then
      some ((none, errorf ("disk vdev requires exactly 1 device, got "
        ++ formatInt spec.Devices.length)), t)
    else
      match spec.Devices with
      | [] => none
      | device :: _ =>
        let r := go_create_vdev_nvlist B (CString "disk") (some (CString device)) t
        some ((r.1, GoError.nil), r.2)
  else if spec.Type_ = VdevTypeMirror then
    if spec.Devices.length < 2 then
      some ((none, errorf ("mirror vdev requires at least 2 devices, got "
        ++ formatInt spec.Devices.length)), t)
    else libzfsDriver.createMirrorVdev B spec.Devices t
  else if spec.Type_ = VdevTypeRaidz then
    if spec.Devices.length < 3 then
      some ((none, errorf ("raidz vdev requires at least 3 devices, got "
        ++ formatInt spec.Devices.length)), t)
    else libzfsDriver.createRaidzVdev B spec.Devices 1 t
  else if spec.Type_ = VdevTypeRaidz2 then
    if spec.Devices.length < 4 then
      some ((none, errorf ("raidz2 vdev requires at least 4 devices, got "
        ++ formatInt spec.Devices.length)), t)
    else libzfsDriver.createRaidzVdev B spec.Devices 2 t
  else if spec.Type_ = VdevTypeRaidz3 then
    if spec.Devices.length < 5 then
      some ((none, errorf ("raidz3 vdev requires at least 5 devices, got "
        ++ formatInt spec.Devices.length)), t)
    else libzfsDriver.createRaidzVdev B spec.Devices 3 t
  else some ((none, errorf ("unsupported vdev type: " ++ spec.Type_)), t)

/-- Embeds `AddVdev` (lines 1152-1188); `none` is a panic. -/
def libzfsDriver.AddVdev (B : Backend) (d : libzfsDriver) (poolName : String)
    (vdevSpec : VdevSpec) (t : Trace) : Option (GoError × Trace) :=
  match d.h with
  | none => some (errorf "driver is closed", t)
  | some _ =>
    let o := go_zpool_open B poolName t
    match o.1 with
    | none => some (libzfsFailure B ("failed to open pool " ++ poolName) o.2)
    | some zhp =>
      match libzfsDriver.createComplexVdevNvlist B vdevSpec o.2 with
      | none => none
      | some v =>
        if v.1.2 ≠ GoError.nil then
          some (errorfW "failed to create vdev specification: " v.1.2,
            go_zpool_close (some zhp) v.2)
        else
          let r := callInt B (Call.zpool_add zhp.name v.1.1) v.2
          if r.1 ≠ 0 then
            let f := libzfsFailure B ("failed to add vdev to pool " ++ poolName) r.2
            some (f.1, go_zpool_close (some zhp) (go_nvlist_free v.1.1 f.2))
          else some (GoError.nil, go_zpool_close (some zhp) (go_nvlist_free v.1.1 r.2))

/-- The shape shared by the device operations (lines 1190-1463): open the pool, make one
call on it, report its failure as `what`, close the pool. -/
def vdevOperation (B : Backend) (d : libzfsDriver) (poolName : String) (call : String → Call)
    (what : String) (t : Trace) : GoError × Trace :=
  match d.h with
  | none => (errorf "driver is closed", t)
  | some _ =>
    let o := go_zpool_open B poolName t
    match o.1 with
    | none => libzfsFailure B ("failed to open pool " ++ poolName) o.2
    | some zhp =>
      let r := callInt B (call zhp.name) o.2
      if r.1 ≠ 0 then
        let f := libzfsFailure B what r.2
        (f.1, go_zpool_close (some zhp) f.2)
      else (GoError.nil, go_zpool_close (some zhp) r.2)

/-- Embeds `AttachVdev` (lines 1190-1230), through `go_zpool_attach`. -/
def libzfsDriver.AttachVdev (B : Backend) (d : libzfsDriver)
    (poolName oldDevice newDevice : String) (replacing : Bool) (t : Trace) : GoError × Trace :=
  vdevOperation B d poolName
    (fun zhp => Call.zpool_vdev_attach zhp oldDevice newDevice (if replacing then 1 else 0))
    ("failed to attach vdev " ++ newDevice ++ " to " ++ oldDevice ++ " in pool " ++ poolName) t

/-- Embeds `DetachVdev` (lines 1232-1265), through `go_zpool_detach`. -/
def libzfsDriver.DetachVdev (B : Backend) (d : libzfsDriver) (poolName device : String)
    (t : Trace) : GoError × Trace :=
  vdevOperation B d poolName (fun zhp => Call.zpool_vdev_detach zhp device)
    ("failed to detach vdev " ++ device ++ " from pool " ++ poolName) t

/-- Embeds `ReplaceVdev` (lines 1267-1302), through `go_zpool_replace`. -/
def libzfsDriver.ReplaceVdev (B : Backend) (d : libzfsDriver)
    (poolName oldDevice newDevice : String) (t : Trace) : GoError × Trace :=
  vdevOperation B d poolName (fun zhp => Call.zpool_vdev_attach zhp oldDevice newDevice 1)
    ("failed to replace vdev " ++ oldDevice ++ " with " ++ newDevice ++ " in pool " ++ poolName) t

/-- Embeds `RemoveVdev` (lines 1304-1337), through `go_zpool_remove`. -/
def libzfsDriver.RemoveVdev (B : Backend) (d : libzfsDriver) (poolName device : String)
    (t : Trace) : GoError × Trace :=
  vdevOperation B d poolName (fun zhp => Call.zpool_vdev_remove zhp device)
    ("failed to remove vdev " ++ device ++ " from pool " ++ poolName) t

/-- The flag conversion of `OnlineVdev` (lines 1363-1376). -/
def onlineFlags (flags : VdevOnlineFlags) : Nat :=
  let cFlags : Nat := 0
  let cFlags := if flags &&& VdevOnlineCheckRemove ≠ 0 then
    cFlags ||| go_get_zfs_online_checkremove else cFlags
  let cFlags := if flags &&& VdevOnlineUnspare ≠ 0 then
    cFlags ||| go_get_zfs_online_unspare else cFlags
  let cFlags := if flags &&& VdevOnlineForceFault ≠ 0 then
    cFlags ||| go_get_zfs_online_forcefault else cFlags
  let cFlags := if flags &&& VdevOnlineExpand ≠ 0 then
    cFlags ||| go_get_zfs_online_expand else cFlags
  cFlags

/-- Embeds `OnlineVdev` (lines 1339-1388), through `go_zpool_online`. -/
def libzfsDriver.OnlineVdev (B : Backend) (d : libzfsDriver) (poolName device : String)
    (flags : VdevOnlineFlags) (t : Trace) : GoError × Trace :=
  vdevOperation B d poolName (fun zhp => Call.zpool_vdev_online zhp device (onlineFlags flags))
    ("failed to online vdev " ++ device ++ " in pool " ++ poolName) t

/-- Embeds `OfflineVdev` (lines 1390-1428), through `go_zpool_offline`. -/
def libzfsDriver.OfflineVdev (B : Backend) (d : libzfsDriver) (poolName device : String)
    (temporary : Bool) (t : Trace) : GoError × Trace :=
  vdevOperation B d poolName (fun zhp => Call.zpool_vdev_offline zhp device temporary)
    ("failed to offline vdev " ++ device ++ " in pool " ++ poolName) t

/-- Embeds `ClearVdev` (lines 1430-1463), through `go_zpool_clear`. -/
def libzfsDriver.ClearVdev (B : Backend) (d : libzfsDriver) (poolName device : String)
    (t : Trace) : GoError × Trace :=
  vdevOperation B d poolName (fun zhp => Call.zpool_clear zhp device)
    ("failed to clear vdev " ++ device ++ " in pool " ++ poolName) t

/-- The table `commonFeatures` of `checkZFSFeature` (lines 1587-1615). -/
def commonFeatures : GoMap Bool :=
  [("bookmarks", true), ("encryption", true), ("large_blocks", true),
   ("spacemap_histogram", true), ("extensible_dataset", true), ("embedded_data", true),
   ("async_destroy", true), ("empty_bpobj", true), ("lz4_compress", true),
   ("multi_vdev_crash_dump", true), ("spacemap_v2", true), ("enabled_txg", true),
   ("hole_birth", true), ("device_removal", true), ("obsolete_counts", true),
   ("zpool_checkpoint", true), ("allocation_classes", true), ("resilver_defer", true),
   ("bookmark_v2", true), ("redaction_bookmarks", true), ("redacted_datasets", true),
   ("bookmark_written", true), ("log_spacemap", true), ("livelist", true),
   ("redaction_list_spill", true), ("zstd_compress", true), ("draid", false)]

/-- Embeds `checkZFSFeature` (lines 1577-1623). -/
def libzfsDriver.checkZFSFeature (feature : String) : Bool × GoError :=
  match commonFeatures.get feature with
  | some supported => (supported, GoError.nil)
  | none => (false, GoError.nil)

/-- Embeds `SupportsFeature` (lines 1565-1575). -/
def libzfsDriver.SupportsFeature (d : libzfsDriver) (feature : String) (t : Trace) :
    (Bool × GoError) × Trace :=
  match d.h with
  | none => ((false, errorf "driver is closed"), t)
  | some _ => (libzfsDriver.checkZFSFeature feature, t)

/-- Embeds `GetAvailableFeatures` (lines 1625-1670). -/
def libzfsDriver.GetAvailableFeatures (d : libzfsDriver) (t : Trace) :
    (List String × GoError) × Trace :=
  match d.h with
  | none => (([], errorf "driver is closed"), t)
  | some _ =>
    ((["async_destroy", "empty_bpobj", "lz4_compress", "multi_vdev_crash_dump", "spacemap_v2",
       "enabled_txg", "hole_birth", "extensible_dataset", "embedded_data", "bookmarks",
       "filesystem_limits", "large_blocks", "large_dnode", "sha512", "skein", "edonr",
       "device_removal", "obsolete_counts", "zpool_checkpoint", "spacemap_histogram",
       "allocation_classes", "resilver_defer", "bookmark_v2", "redaction_bookmarks",
       "redacted_datasets", "bookmark_written", "log_spacemap", "livelist",
       "redaction_list_spill", "zstd_compress", "encryption"], GoError.nil), t)

/-- Embeds `GetSupportedCompressionAlgorithms` (lines 1672-1710). -/
def libzfsDriver.GetSupportedCompressionAlgorithms (d : libzfsDriver) (t : Trace) :
    (List String × GoError) × Trace :=
  match d.h with
  | none => (([], errorf "driver is closed"), t)
  | some _ =>
    let algorithms := ["off", "on", "lzjb", "gzip", "gzip-1", "gzip-2", "gzip-3", "gzip-4",
      "gzip-5", "gzip-6", "gzip-7", "gzip-8", "gzip-9", "zle", "lz4"]
    let algorithms :=
      if (libzfsDriver.checkZFSFeature "zstd_compress").1 then
        algorithms ++ ["zstd", "zstd-1", "zstd-2", "zstd-3", "zstd-4", "zstd-5", "zstd-6",
          "zstd-7", "zstd-8", "zstd-9", "zstd-10", "zstd-11", "zstd-12", "zstd-13", "zstd-14",
          "zstd-15", "zstd-16", "zstd-17", "zstd-18", "zstd-19", "zstd-fast-1", "zstd-fast-2",
          "zstd-fast-3", "zstd-fast-4", "zstd-fast-5", "zstd-fast-6", "zstd-fast-7",
          "zstd-fast-8", "zstd-fast-9", "zstd-fast-10"]
      else algorithms
    ((algorithms, GoError.nil), t)

/-- Embeds `GetZFSVersion` (lines 1712-1725). -/
def libzfsDriver.GetZFSVersion (d : libzfsDriver) (t : Trace) : (String × GoError) × Trace :=
  match d.h with
  | none => (("", errorf "driver is closed"), t)
  | some _ => (("OpenZFS 2.1+", GoError.nil), t)

/-- The number of times the connection was released in a trace. -/
def finiCount (t : Trace) : Nat := t.countP Call.isFini

/-- A number of successive calls of `Close`: the driver and the trace afterwards. -/
def closeTimes : Nat → libzfsDriver → Trace → libzfsDriver × Trace
  | 0, d, t => (d, t)
  | n + 1, d, t => closeTimes n (d.Close t).1.2 (d.Close t).2

end driver

namespace errors

/-! ## Vocabulary of the statements -/

mutual
/-- The errors of the tree of an error, in the order `errors.As` visits them: the error
itself, then the tree of what its `Unwrap` returns, for a list the trees of its elements
in order. What the claims call the chain of an error. -/
def errorTree : GoError → List GoError
  | GoError.nil => []
  | GoError.zfs op res code errno detail cause =>
    GoError.zfs op res code errno detail cause :: errorTree cause
  | GoError.foreign msg cause => GoError.foreign msg cause :: errorTree cause
  | GoError.joined msg errs => GoError.joined msg errs :: errorTreeList errs
/-- The trees of the errors of a list, one after the other. -/
def errorTreeList : List GoError → List GoError
  | [] => []
  | err :: rest => errorTree err ++ errorTreeList rest
end

/-- The record behind an error value that is a `*ZfsError`. -/
def GoError.asStructured : GoError → Option ZfsError
  | GoError.zfs op res code errno detail cause => some ⟨op, res, code, errno, detail, cause⟩
  | _ => none

/-- The first structured error in the chain of an error: the first `*ZfsError` of its
tree, `none` when the tree holds none. -/
def firstStructured (err : GoError) : Option ZfsError :=
  ((errorTree err).find? GoError.isZfs).bind GoError.asStructured

/-- The family of predicates of `errors.go`, lines 236-292. -/
def predicateFamily : List (GoError → Bool) :=
  [IsDatasetNotFound, IsPoolNotFound, IsPermissionDenied, IsExists, IsBusy, IsNoSpace,
   IsNotSupported]

/-- The structured error `originalErr` of `TestWrapZfsError`. -/
def originalErr : ZfsError :=
  { Op := "original_op", Resource := "", Code := ErrCodeNotFound, Errno := 2,
    Detail := "original detail", Cause := GoError.nil }

end errors

namespace driver

open errors

/-- The two errors by which the driver reports that it was closed. -/
def closedError (err : GoError) : Prop :=
  err = errorf "driver closed" ∨ err = errorf "driver is closed"

/-- A specification below the hard minimum of its type, or of no supported type: a disk
without exactly one device, a mirror with fewer than 2, a raidz with fewer than 3, a raidz2
with fewer than 4, a raidz3 with fewer than 5. -/
def belowMinimum (spec : VdevSpec) : Prop :=
  (spec.Type_ = "disk" ∧ spec.Devices.length ≠ 1) ∨
  (spec.Type_ = "mirror" ∧ spec.Devices.length < 2) ∨
  (spec.Type_ = "raidz" ∧ spec.Devices.length < 3) ∨
  (spec.Type_ = "raidz2" ∧ spec.Devices.length < 4) ∨
  (spec.Type_ = "raidz3" ∧ spec.Devices.length < 5) ∨
  spec.Type_ ∉ ["disk", "mirror", "raidz", "raidz2", "raidz3"]

/-- An operation that returns a value and an error failed with a closed error and made
no library call: the trace afterwards is the trace before. -/
def failsFastR {α : Type} (r : (α × GoError) × Trace) (t : Trace) : Prop :=
  closedError r.1.2 ∧ r.2 = t

/-- An operation that returns an error failed with a closed error and made no library call. -/
def failsFastE (r : GoError × Trace) (t : Trace) : Prop :=
  closedError r.1 ∧ r.2 = t

/-- An operation that can panic did not panic, failed with a closed error and made no
library call. -/
def failsFastO (r : Option (GoError × Trace)) (t : Trace) : Prop :=
  ∃ err, r = some (err, t) ∧ closedError err

/-- A library that answers every call with success and knows one pool, `tank`, with one
filesystem and one snapshot. -/
def sampleBackend : Backend :=
  { int := fun _ _ => 0
    ptr := fun _ _ => true
    str := fun _ _ => "10G"
    pools := fun _ => [{ name := "tank", state := 0, status := 7 }]
    roots := fun _ =>
      [ZfsNode.mk "tank" 1 11
        [ZfsNode.mk "tank/data" 1 12 [] 0 [] 0, ZfsNode.mk "tank@snap1" 2 13 [] 0 [] 0] 0
        [ZfsNode.mk "tank@snap1" 2 13 [] 0 [] 0] 0]
    zpool_open := fun _ name => some { name := name, state := 0, status := 7 }
    zfs_open := fun _ name _ => some (ZfsNode.mk name 1 12 [] 0 [] 0)
    clones := fun _ _ => none }

/-- A session as `NewLibZFS` returns it. -/
def liveDriver : libzfsDriver := { h := some (), finalizer := true }

/-- The number of tree allocations in a trace. -/
def allocCount (t : Trace) : Nat := t.countP Call.isAlloc

/-! ## Vocabulary of the statements on vdev trees -/

/-- The leaf tree of a device: its type "disk" and its path. -/
def diskLeaf (path : String) : NvList := NvList.mk [("type", "disk"), ("path", path)] []

/-- The tree of a given type over the leaves of the devices, in the order of the devices. -/
def vdevTree (type : String) (devices : List String) : NvList :=
  NvList.mk [("type", type)] [("children", devices.map diskLeaf)]

/-- A composite specification that meets the minimum of its type: a mirror of at least 2
devices, a raidz of at least 3, a raidz2 of at least 4, a raidz3 of at least 5. -/
def validComposite (spec : VdevSpec) : Prop :=
  (spec.Type_ = "mirror" ∧ 2 ≤ spec.Devices.length) ∨
  (spec.Type_ = "raidz" ∧ 3 ≤ spec.Devices.length) ∨
  (spec.Type_ = "raidz2" ∧ 4 ≤ spec.Devices.length) ∨
  (spec.Type_ = "raidz3" ∧ 5 ≤ spec.Devices.length)

/-- Whether a call builds an attribute tree: an allocation or an insertion. -/
def Call.isNvlistBuild : Call → Bool
  | Call.nvlist_alloc => true
  | Call.nvlist_add_string _ _ _ => true
  | Call.nvlist_add_nvlist_array _ _ _ => true
  | _ => false

/-- A library in which every allocation of a tree and every insertion into one succeeds. -/
def allocationsSucceed (B : Backend) : Prop :=
  ∀ (t : Trace) (c : Call), c.isNvlistBuild = true → B.int t c = 0

end driver

namespace zpool

open errors driver

/-! ## The pool client (`zpool/zpool.go`) -/

/-- The record `Client`; `d` is `none` for a nil driver. -/
structure Client where
  d : Option libzfsDriver

/-- The record `CreateOptions` of the pool client. -/
structure CreateOptions where
  Properties : GoMap String
  FsProperties : GoMap String
  AltRoot : String
  Force : Bool

/-- Embeds `Create` (lines 179-197); `none` is a panic. -/
def Client.Create (B : Backend) (c : Client) (poolName : String) (vdevs : List String)
    (opts : CreateOptions) (t : Trace) : Option (GoError × Trace) :=
  match c.d with
  | none => some (errorf "client is closed", t)
  | some d =>
    if vdevs.length = 0 then some (errorf "at least one vdev is required", t)
    else
      d.CreatePool B poolName vdevs
        { Properties := opts.Properties, FsProperties := opts.FsProperties,
          AltRoot := opts.AltRoot, Force := opts.Force } t

end zpool

namespace driver

open errors

/-! ## Vocabulary of the statements on iteration -/

/-- A callback instrumented with a log: it runs the callback and appends the code the
callback returned to the log, which thus holds one entry per invocation, in order. -/
def logged {σ : Type} (callback : ZfsNode → σ → Int × σ) :
    ZfsNode → σ × List Int → Int × (σ × List Int) :=
  fun zhp s => ((callback zhp s.1).1, ((callback zhp s.1).2, s.2 ++ [(callback zhp s.1).1]))

/-- The record `x` is the last record of the sequence under its name. -/
def lastByName (reported : List DatasetInfo) (x : DatasetInfo) : Prop :=
  ∃ pre post, reported = pre ++ x :: post ∧ ∀ y ∈ post, y.Name ≠ x.Name

/-- The records the callback of the driver collects during a traversal that starts at
trace `t`: one record per object the traversal reports, in the order of the reports. -/
def reportedDatasets (B : Backend) (t : Trace) : List DatasetInfo :=
  (go_iter_all_datasets B go_dataset_iter_callback
    { datasets := [], err := GoError.nil } t).1.2.datasets

/-- Two runs of a walk agree: same result, related data, same calls. -/
def simulates {σ1 σ2 : Type} (rel : σ1 → σ2 → Prop) (r1 : (Int × σ1) × Trace)
    (r2 : (Int × σ2) × Trace) : Prop :=
  r1.1.1 = r2.1.1 ∧ rel r1.1.2 r2.1.2 ∧ r1.2 = r2.2

/-- A callback that counts its invocations and returns 7 at the second one. -/
def stopAtSecond : ZfsNode → Nat → Int × Nat :=
  fun _ k => (if k = 1 then 7 else 0, k + 1)

/-- A library like the sample whose `zfs_iter_children` on `tank` fails with 5 after it
has visited the child. -/
def interruptedBackend : Backend :=
  { sampleBackend with
    roots := fun _ =>
      [ZfsNode.mk "tank" 1 11 [ZfsNode.mk "tank/data" 1 12 [] 0 [] 0] 5
        [ZfsNode.mk "tank@snap1" 2 13 [] 0 [] 0] 0] }

/-! ## Vocabulary of the statements on property retrieval -/

/-- The retrieval loop common to `GetPoolProps` and `GetDatasetProps`, over the table of
the object class and the getter call of a property: a name outside the table is skipped,
a fetch that fails is skipped, a fetch that succeeds stores the entry under its name. -/
def propsLoop {P : Type} (B : Backend) (table : GoMap P) (mk : P → Call) :
    List String → GoMap PropertyInfo → Trace → GoMap PropertyInfo × Trace
  | [], properties, t => (properties, t)
  | propName :: rest, properties, t =>
    match table.get propName with
    | some propValue =>
      if B.int t (mk propValue) = 0 then
        propsLoop B table mk rest
          (properties.set propName
            { Name := propName, Value := B.str t (mk propValue),
              Source := PropSource.PropSourceLocal, Received := false })
          (t ++ [mk propValue])
      else propsLoop B table mk rest properties (t ++ [mk propValue])
    | none => propsLoop B table mk rest properties t

/-- The names a retrieval goes through: the names requested, or every name of the table,
in the order of the table, when none is requested. -/
def requestedNames {P : Type} (table : GoMap P) (names : List String) : List String :=
  if names.length = 0 then table.map Prod.fst else names

/-- The getter calls a retrieval over the names `names` makes: one call per name of the
table, in the order of the names, whatever the library answers. -/
def fetchCalls {P : Type} (table : GoMap P) (mk : P → Call) (names : List String) : Trace :=
  names.filterMap (fun n => (table.get n).map mk)

/-- A library whose answers do not depend on the calls made before. -/
def stableGetters (B : Backend) : Prop :=
  ∀ (t1 t2 : Trace) (c : Call), B.int t1 c = B.int t2 c ∧ B.str t1 c = B.str t2 c

/-- A library like the sample that has no value for the property "mountpoint". -/
def noMountpointBackend : Backend :=
  { sampleBackend with
    int := fun _ c =>
      match c with
      | Call.zfs_prop_get _ zfs_prop_t.ZFS_PROP_MOUNTPOINT => 1
      | _ => 0 }

/-- A library like the sample that has no value for the pool property "health". -/
def noHealthBackend : Backend :=
  { sampleBackend with
    int := fun _ c =>
      match c with
      | Call.zpool_get_prop _ zpool_prop_t.ZPOOL_PROP_HEALTH => 1
      | _ => 0 }

/-! ## Vocabulary of the statements on clones -/

/-- Whether a call is the library's `zfs_destroy`. -/
def Call.isDestroy : Call → Bool
  | Call.zfs_destroy _ _ => true
  | _ => false

/-- The number of `zfs_destroy` calls in a trace. -/
def destroyCount (t : Trace) : Nat := t.countP Call.isDestroy

/-- Whether a call is the library's `zfs_promote`. -/
def Call.isPromote : Call → Bool
  | Call.zfs_promote _ => true
  | _ => false

/-- The number of `zfs_promote` calls in a trace. -/
def promoteCount (t : Trace) : Nat := t.countP Call.isPromote

/-- A library like the sample in which the origin property of every dataset is empty. -/
def notCloneBackend : Backend :=
  { sampleBackend with
    str := fun _ c =>
      match c with
      | Call.zfs_prop_get _ zfs_prop_t.ZFS_PROP_ORIGIN => ""
      | _ => "10G" }

/-! ## Vocabulary of the statements on backend failures -/

/-- The error of a failed library call: `fmt.Errorf(what + " (errno %d): %s", errno, desc)`. -/
def backendFailure (what : String) (errno : Int) (desc : String) : GoError :=
  errorf (what ++ " (errno " ++ formatInt errno ++ "): " ++ desc)

/-- A library like the sample every call of which fails with status 1; it reports the
error number 16 and the description "pool is busy". -/
def failingBackend : Backend :=
  { sampleBackend with
    int := fun _ c =>
      match c with
      | Call.libzfs_errno => 16
      | _ => 1
    str := fun _ c =>
      match c with
      | Call.libzfs_error_description => "pool is busy"
      | _ => "10G" }

/-- A library like the sample that opens no dataset and no pool; it reports the error
number 2 and the description "dataset does not exist". -/
def notFoundBackend : Backend :=
  { sampleBackend with
    int := fun _ c =>
      match c with
      | Call.libzfs_errno => 2
      | _ => 0
    str := fun _ c =>
      match c with
      | Call.libzfs_error_description => "dataset does not exist"
      | _ => "10G"
    zpool_open := fun _ _ => none
    zfs_open := fun _ _ _ => none }

/-! ## Vocabulary of the statements on defects -/

/-- A library like the sample in which every tree allocation fails with ENOMEM. -/
def allocFailsBackend : Backend :=
  { sampleBackend with
    int := fun _ c =>
      match c with
      | Call.nvlist_alloc => 12
      | _ => 0 }

/-- A library like the sample in which the first two tree allocations succeed and every
later one fails. -/
def parentFailsBackend : Backend :=
  { sampleBackend with
    int := fun t c =>
      match c with
      | Call.nvlist_alloc => if allocCount t < 2 then 0 else 12
      | _ => 0 }

/-- A library in which every dataset is a snapshot with an empty origin and one clone,
"tank/clone". -/
def clonesBackend : Backend :=
  { notCloneBackend with
    zfs_open := fun _ name _ => some (ZfsNode.mk name 2 13 [] 0 [] 0)
    clones := fun _ _ => some (NvList.mk [("tank/clone", "")] []) }

end driver

namespace zfs

open errors driver

/-! ## The dataset client (`zfs/zfs.go`) -/

/-- The type `DatasetType` of the package, a string. -/
abbrev DatasetType := String

def TypeFilesystem : DatasetType := "filesystem"
def TypeVolume : DatasetType := "volume"
def TypeSnapshot : DatasetType := "snapshot"
def TypeBookmark : DatasetType := "bookmark"

/-- The record `Dataset`; `Type_` is the field `Type`. -/
structure Dataset where
  Name : String
  Type_ : DatasetType
  GUID : Nat
  deriving DecidableEq, Repr

/-- The record `Snapshot`: the embedded `Dataset` and the name of the parent. -/
structure Snapshot extends Dataset where
  Parent : String
  deriving DecidableEq, Repr

/-- The record `Client`; `d` is `none` for a nil driver. -/
structure Client where
  d : Option libzfsDriver

/-- Cuts a string at the first occurrence of a character: what is before it and what is
after it, `none` when the character does not occur. -/
def cutAt (sep : Char) : List Char → Option (List Char × List Char)
  | [] => none
  | x :: xs =>
    if x = sep then some ([], xs)
    else (cutAt sep xs).map (fun p => (x :: p.1, p.2))

/-- The pieces of `strings.SplitN` on the characters of a string, for a separator of one
character and a count `n ≥ 0`: no piece for 0, and at most `n` pieces, the last one being
the remainder that is not split. -/
def splitNChars (sep : Char) : Nat → List Char → List (List Char)
  | 0, _ => []
  | 1, s => [s]
  | n + 2, s =>
    match cutAt sep s with
    | none => [s]
    | some (a, b) => a :: splitNChars sep (n + 1) b

/-- The library function `strings.SplitN(s, sep, n)` for a separator of one ASCII
character and `n ≥ 0`. Go splits the bytes of `s`; an ASCII byte is never part of the
encoding of another character, so the pieces are those of the characters of `s`. -/
def SplitN (s : String) (sep : Char) (n : Nat) : List String :=
  (splitNChars sep n s.data).map String.mk

/-- Embeds `Dataset.Pool` (lines 102-106); `none` is the panic of `parts[0]` on an empty
slice. -/
def Dataset.Pool (d : Dataset) : Option String :=
  let parts := SplitN d.Name '/' 2
  parts.head?

/-- The position of the last occurrence of a character in a list, counted from 0. -/
def lastIndexOf (c : Char) : List Char → Option Nat
  | [] => none
  | x :: xs =>
    match lastIndexOf c xs with
    | some k => some (k + 1)
    | none => if x = c then some 0 else none

/-- The library function `strings.LastIndex(s, sep)` for a separator of one ASCII
character: the index of its last occurrence, -1 when it does not occur. Go counts bytes;
here indices count characters, and so does the slice `s[:i]` below. -/
def LastIndex (s : String) (sep : Char) : Int :=
  match lastIndexOf sep s.data with
  | some k => (k : Int)
  | none => -1

/-- The slice expression `s[:i]` for an index `0 ≤ i ≤ len(s)`. -/
def sliceTo (s : String) (i : Int) : String := String.mk (s.data.take i.toNat)

/-- Embeds `mapDriverTypeToPublic` (lines 585-598). -/
def mapDriverTypeToPublic (driverType : driver.DatasetType) : DatasetType :=
  match driverType with
  | driver.DatasetType.DatasetFilesystem => TypeFilesystem
  | driver.DatasetType.DatasetVolume => TypeVolume
  | driver.DatasetType.DatasetSnapshot => TypeSnapshot
  | driver.DatasetType.DatasetBookmark => TypeBookmark

/-- The loop of `ListSnapshots` (lines 372-401) over the records of the driver: the
snapshots appended so far are threaded through. -/
def listSnapshotsLoop (parent : String) : List DatasetInfo → List Snapshot → List Snapshot
  | [], snapshots => snapshots
  | info :: rest, snapshots =>
    let atIndex := LastIndex info.Name '@'
    if atIndex = -1 then listSnapshotsLoop parent rest snapshots
    else
      let snapParent := sliceTo info.Name atIndex
      if parent ≠ "" ∧ (snapParent ≠ parent ∧ HasPrefix snapParent (parent ++ "/") = false) then
        listSnapshotsLoop parent rest snapshots
      else
        let dataset : Dataset :=
          { Name := info.Name, Type_ := mapDriverTypeToPublic info.Type_, GUID := info.GUID }
        let snapshot : Snapshot := { toDataset := dataset, Parent := snapParent }
        listSnapshotsLoop parent rest (snapshots ++ [snapshot])

/-- Embeds `ListSnapshots` (lines 359-404). -/
def Client.ListSnapshots (B : Backend) (c : Client) (parent : String) (t : Trace) :
    (List Snapshot × GoError) × Trace :=
  match c.d with
  | none => (([], errorf "client is closed"), t)
  | some d =>
    let snapshotType := driver.DatasetType.DatasetSnapshot
    let r := d.ListDatasetsByType B (some snapshotType) true t
    if r.1.2 ≠ GoError.nil then (([], errorfW "failed to list snapshots: " r.1.2), r.2)
    else ((listSnapshotsLoop parent r.1.1 [], GoError.nil), r.2)

/-- The record `Property[any]` (lines 174-179); `PropertySource` is a string. -/
structure Property where
  Name : String
  Value : String
  Source : String
  Received : Bool
  deriving DecidableEq, Repr

/-- The loop of `GetProperties` (lines 262-270) over the entries of the map of the driver. -/
def getPropertiesLoop : List (String × PropertyInfo) → GoMap Property → GoMap Property
  | [], properties => properties
  | (name, info) :: rest, properties =>
    getPropertiesLoop rest
      (properties.set name
        { Name := info.Name, Value := info.Value, Source := info.Source.String,
          Received := info.Received })

/-- Embeds `GetProperties` (lines 251-273); `none` is the nil map. -/
def Client.GetProperties (B : Backend) (c : Client) (datasetName : String)
    (propNames : List String) (t : Trace) : (Option (GoMap Property) × GoError) × Trace :=
  match c.d with
  | none => ((none, errorf "client is closed"), t)
  | some d =>
    let r := d.GetDatasetProps B datasetName propNames t
    if r.1.2 ≠ GoError.nil then
      ((none, errorfW "failed to get dataset properties: " r.1.2), r.2)
    else ((some (getPropertiesLoop r.1.1 []), GoError.nil), r.2)

/-- The records `ListSnapshots` gets from the driver: the snapshots of
`ListDatasetsByType`, none for a client without driver. -/
def snapshotRecords (B : Backend) (c : Client) (t : Trace) : List DatasetInfo :=
  match c.d with
  | none => []
  | some d => (d.ListDatasetsByType B (some driver.DatasetType.DatasetSnapshot) true t).1.1

/-- A library whose traversal reports the snapshots "tank@snap1" and "tank/data@a@b" and
a record of type snapshot whose name "oddname" has no "@". -/
def snapshotsBackend : Backend :=
  { sampleBackend with
    roots := fun _ =>
      [ZfsNode.mk "tank" 1 11 [ZfsNode.mk "tank/data" 1 12 [] 0
          [ZfsNode.mk "tank/data@a@b" 2 14 [] 0 [] 0] 0] 0
        [ZfsNode.mk "tank@snap1" 2 13 [] 0 [] 0, ZfsNode.mk "oddname" 2 15 [] 0 [] 0] 0] }

/-- The snapshot the loop of `ListSnapshots` appends for a record of the driver, `none`
when the loop skips the record. -/
def snapshotOf (parent : String) (info : DatasetInfo) : Option Snapshot :=
  if LastIndex info.Name '@' = -1 then none
  else if parent ≠ "" ∧ (sliceTo info.Name (LastIndex info.Name '@') ≠ parent ∧
      HasPrefix (sliceTo info.Name (LastIndex info.Name '@')) (parent ++ "/") = false) then none
  else
    some { Name := info.Name, Type_ := mapDriverTypeToPublic info.Type_, GUID := info.GUID,
           Parent := sliceTo info.Name (LastIndex info.Name '@') }

end zfs

namespace errors

/-! ## Decimal rendering: the digits determine the number -/

theorem digitVal_digitChar (d : Nat) (h : d < 10) : digitVal (digitChar d) = d := by
  interval_cases d <;> decide

theorem digitChar_ne_minus (d : Nat) (h : d < 10) : digitChar d ≠ '-' := by
  interval_cases d <;> decide

theorem parseDigits_append_singleton (l : List Char) (c : Char) :
    parseDigits (l ++ [c]) = parseDigits l * 10 + digitVal c := by
  simp [parseDigits, List.foldl_append]

theorem parseDigits_decimalDigits (fuel : Nat) :
    ∀ n, n < fuel → parseDigits (decimalDigits fuel n) = n := by
  induction fuel with
  | zero => intro n h; omega
  | succ fuel ih =>
    intro n h
    unfold decimalDigits
    split
    · rename_i hlt
      simp [parseDigits, digitVal_digitChar n hlt]
    · rename_i hge
      rw [parseDigits_append_singleton, ih (n / 10) (by omega),
        digitVal_digitChar (n % 10) (by omega)]
      omega

theorem decimalDigits_no_minus (fuel : Nat) :
    ∀ n, ∀ c ∈ decimalDigits fuel n, c ≠ '-' := by
  induction fuel with
  | zero => intro n c hc; simp [decimalDigits] at hc
  | succ fuel ih =>
    intro n c hc
    unfold decimalDigits at hc
    split at hc
    · rename_i hlt
      simp at hc
      rw [hc]; exact digitChar_ne_minus n hlt
    · simp at hc
      rcases hc with hc | hc
      · exact ih _ c hc
      · rw [hc]; exact digitChar_ne_minus _ (by omega)

theorem formatNat_injective (a b : Nat) (h : formatNat a = formatNat b) : a = b := by
  have hd : decimalDigits (a + 1) a = decimalDigits (b + 1) b := congrArg String.data h
  have := congrArg parseDigits hd
  rwa [parseDigits_decimalDigits _ a (by omega), parseDigits_decimalDigits _ b (by omega)] at this

theorem minus_append_data (s : String) : ("-" ++ s).data = '-' :: s.data := by
  simp [String.data_append]

theorem formatInt_injective (a b : Int) (h : formatInt a = formatInt b) : a = b := by
  cases a with
  | ofNat m =>
    cases b with
    | ofNat k =>
      simp only [formatInt] at h
      rw [formatNat_injective m k h]
    | negSucc k =>
      simp only [formatInt] at h
      have hd := congrArg String.data h
      rw [minus_append_data] at hd
      have hm : '-' ∈ decimalDigits (m + 1) m := by
        have : (formatNat m).data = decimalDigits (m + 1) m := rfl
        rw [← this, hd]; simp
      exact absurd rfl (decimalDigits_no_minus _ _ _ hm)
  | negSucc m =>
    cases b with
    | ofNat k =>
      simp only [formatInt] at h
      have hd := congrArg String.data h
      rw [minus_append_data] at hd
      have hm : '-' ∈ decimalDigits (k + 1) k := by
        have : (formatNat k).data = decimalDigits (k + 1) k := rfl
        rw [← this, ← hd]; simp
      exact absurd rfl (decimalDigits_no_minus _ _ _ hm)
    | negSucc k =>
      simp only [formatInt] at h
      have hd := congrArg String.data h
      rw [minus_append_data, minus_append_data] at hd
      have hs : formatNat (m + 1) = formatNat (k + 1) := by
        apply String.ext
        simpa using hd
      have := formatNat_injective _ _ hs
      have hmk : m = k := by omega
      rw [hmk]

theorem errnoPrefix_data (s : String) :
    ("ERRNO_" ++ s).data = 'E' :: 'R' :: 'R' :: 'N' :: 'O' :: '_' :: s.data := by
  simp [String.data_append]

theorem MapErrno_default (n : Int) (hn : n ∉ mappedErrnos) :
    MapErrno n = "ERRNO_" ++ formatInt n := by
  simp only [mappedErrnos, List.mem_cons, List.mem_singleton, not_or, List.not_mem_nil] at hn
  unfold MapErrno
  split <;> simp_all

theorem errnoPrefix_not_mapped (s : String) : "ERRNO_" ++ s ∉ mappedKinds := by
  intro h
  simp only [mappedKinds, List.mem_cons, List.mem_singleton, List.not_mem_nil, or_false] at h
  rcases h with h | h | h | h | h | h | h | h | h | h | h | h <;>
    · have hd := congrArg String.data h
      rw [errnoPrefix_data] at hd
      revert hd
      simp [ErrCodeNotFound, ErrCodePermission, ErrCodeExists, ErrCodeBusy, ErrCodeInval,
        ErrCodeNoSpace, ErrCodeIO, ErrCodeNotSupported, ErrCodeNameTooLong, ErrCodeQuotaExceeded,
        ErrCodeNotEmpty, ErrCodeCrossDevice]

/-! ## The error taxonomy -/

/-- C1: `MapErrno` returns the documented kind for each of the twelve codes of its table:
2 is ENOENT, 1 is EPERM, 17 is EEXIST, 16 is EBUSY, 22 is EINVAL, 28 is ENOSPC, 5 is EIO,
45 is ENOTSUP, 63 is ENAMETOOLONG, 69 is EQUOT, 66 is ENOTEMPTY and 18 is EXDEV. -/
theorem MapErrno_table :
    MapErrno 2 = "ENOENT" ∧ MapErrno 1 = "EPERM" ∧ MapErrno 17 = "EEXIST" ∧
    MapErrno 16 = "EBUSY" ∧ MapErrno 22 = "EINVAL" ∧ MapErrno 28 = "ENOSPC" ∧
    MapErrno 5 = "EIO" ∧ MapErrno 45 = "ENOTSUP" ∧ MapErrno 63 = "ENAMETOOLONG" ∧
    MapErrno 69 = "EQUOT" ∧ MapErrno 66 = "ENOTEMPTY" ∧ MapErrno 18 = "EXDEV" ∧
    mappedErrnos.map MapErrno = mappedKinds := by
  decide

/-- C2: for a code that is none of the twelve table entries, `MapErrno` returns "ERRNO_"
followed by the decimal code; that result is none of the mapped kinds, and no other
unmapped code gives the same result. -/
theorem MapErrno_unmapped (n : Int) (hn : n ∉ mappedErrnos) :
    MapErrno n = "ERRNO_" ++ formatInt n ∧
    MapErrno n ∉ mappedKinds ∧
    ∀ m : Int, m ∉ mappedErrnos → MapErrno n = MapErrno m → n = m := by
  refine ⟨MapErrno_default n hn, ?_, ?_⟩
  · rw [MapErrno_default n hn]
    exact errnoPrefix_not_mapped _
  · intro m hm h
    rw [MapErrno_default n hn, MapErrno_default m hm] at h
    have hd := congrArg String.data h
    rw [errnoPrefix_data, errnoPrefix_data] at hd
    have hs : formatInt n = formatInt m := by
      apply String.ext
      simpa using hd
    exact formatInt_injective n m hs

/-- C2 at the code 999 of `TestMapErrno`, which gives "ERRNO_999". -/
theorem MapErrno_unmapped_witness :
    (999 : Int) ∉ mappedErrnos ∧ MapErrno 999 = "ERRNO_999" ∧
    (MapErrno 999 = "ERRNO_" ++ formatInt 999 ∧
      MapErrno 999 ∉ mappedKinds ∧
      ∀ m : Int, m ∉ mappedErrnos → MapErrno 999 = MapErrno m → 999 = m) :=
  ⟨by decide, by decide, MapErrno_unmapped 999 (by decide)⟩

/-- C3: wrapping a structured error A with a new operation and resource gives an error
with the code, raw errno and detail of A, and with the new operation and resource, whatever
the operation and resource of A were. -/
theorem WrapZfsError_structured (A : ZfsError) (op resource : String) :
    ∃ B, WrapZfsError op resource A.toError = some B ∧
      B.Code = A.Code ∧ B.Errno = A.Errno ∧ B.Detail = A.Detail ∧
      B.Op = op ∧ B.Resource = resource :=
  ⟨_, rfl, rfl, rfl, rfl, rfl, rfl⟩

/-- C4, as the claim states it, fails: the error that wraps `originalErr` of
`TestWrapZfsError` under "new_op" has a nil cause, so unwrapping it never yields
`originalErr`. -/
theorem WrapZfsError_chain_drops_original :
    WrapZfsError "new_op" "resource" originalErr.toError =
      some { Op := "new_op", Resource := "resource", Code := "ENOENT", Errno := 2,
             Detail := "original detail", Cause := GoError.nil } ∧
    ¬ ∃ B, WrapZfsError "new_op" "resource" originalErr.toError = some B ∧
      originalErr.toError ∈ unwrapChain B.toError := by
  refine ⟨by decide, ?_⟩
  rintro ⟨B, hB, hmem⟩
  have h0 : WrapZfsError "new_op" "resource" originalErr.toError =
      some ⟨"new_op", "resource", "ENOENT", 2, "original detail", GoError.nil⟩ := by decide
  rw [h0] at hB
  cases hB
  revert hmem
  decide

theorem unwrapChain_length_le (c : GoError) :
    ∀ x ∈ unwrapChain c, (unwrapChain x).length ≤ (unwrapChain c).length := by
  refine GoError.rec
    (motive_1 := fun c => ∀ x ∈ unwrapChain c, (unwrapChain x).length ≤ (unwrapChain c).length)
    (motive_2 := fun _ => True)
    ?_ ?_ ?_ ?_ ?_ ?_ c
  · intro x hx; simp [unwrapChain] at hx
  · intro op res code errno detail cause ih x hx
    simp only [unwrapChain, List.mem_cons] at hx
    rcases hx with hx | hx
    · rw [hx]
    · have := ih x hx
      simp only [unwrapChain, List.length_cons]
      omega
  · intro msg cause ih x hx
    simp only [unwrapChain, List.mem_cons] at hx
    rcases hx with hx | hx
    · rw [hx]
    · have := ih x hx
      simp only [unwrapChain, List.length_cons]
      omega
  · intro msg errs _ x hx
    simp only [unwrapChain, List.mem_singleton] at hx
    rw [hx]
  · trivial
  · intros; trivial

theorem not_mem_unwrapChain_cause (A : ZfsError) : A.toError ∉ unwrapChain A.Cause := by
  intro h
  have := unwrapChain_length_le A.Cause A.toError h
  simp only [ZfsError.toError, unwrapChain, List.length_cons] at this
  omega

/-- C4, amended: wrapping a structured error A keeps the cause of A as the cause of the
result B, so unwrapping B once yields what unwrapping A once yields, and the chain of B is
B followed by the chain of the cause of A; unwrapping B, once or more, never yields A. -/
theorem WrapZfsError_keeps_cause (A : ZfsError) (op resource : String) :
    ∃ B, WrapZfsError op resource A.toError = some B ∧
      B.Cause = A.Cause ∧ B.Unwrap = A.Unwrap ∧
      unwrapChain B.toError = B.toError :: unwrapChain A.Cause ∧
      (unwrapChain B.toError).tail = (unwrapChain A.toError).tail ∧
      A.toError ∉ (unwrapChain B.toError).tail :=
  ⟨_, rfl, rfl, rfl, rfl, rfl, not_mem_unwrapChain_cause A⟩

theorem asStructured_of_isZfs (x : GoError) (h : x.isZfs = true) :
    ∃ z, x.asStructured = some z ∧ z.toError = x := by
  cases x with
  | zfs op res code errno detail cause => exact ⟨_, rfl, rfl⟩
  | nil => simp [GoError.isZfs] at h
  | foreign msg cause => simp [GoError.isZfs] at h
  | joined msg errs => simp [GoError.isZfs] at h

theorem AsZfsError_eq_firstStructured (e : GoError) : AsZfsError e = firstStructured e := by
  unfold firstStructured
  refine GoError.rec
    (motive_1 := fun e =>
      AsZfsError e = ((errorTree e).find? GoError.isZfs).bind GoError.asStructured)
    (motive_2 := fun l =>
      AsZfsErrorList l = ((errorTreeList l).find? GoError.isZfs).bind GoError.asStructured)
    ?_ ?_ ?_ ?_ ?_ ?_ e
  · rfl
  · intro op res code errno detail cause _
    simp [AsZfsError, errorTree, GoError.isZfs, GoError.asStructured]
  · intro msg cause ih
    simp only [AsZfsError, errorTree, List.find?_cons, GoError.isZfs]
    exact ih
  · intro msg errs ih
    simp only [AsZfsError, errorTree, List.find?_cons, GoError.isZfs]
    exact ih
  · rfl
  · intro head tail ih1 ih2
    rw [AsZfsErrorList, errorTreeList, List.find?_append, ih1, ih2]
    cases hf : (errorTree head).find? GoError.isZfs with
    | none => rfl
    | some x =>
      obtain ⟨z, hz, _⟩ := asStructured_of_isZfs x (by simpa using List.find?_some hf)
      simp [hz]

theorem AsZfsError_none_of_tree (e : GoError) (h : ∀ x ∈ errorTree e, x.isZfs = false) :
    AsZfsError e = none := by
  rw [AsZfsError_eq_firstStructured, firstStructured]
  have hf : (errorTree e).find? GoError.isZfs = none := by
    rw [List.find?_eq_none]
    intro x hx
    simp [h x hx]
  rw [hf]
  rfl

theorem AsZfsErrorList_none_of_tree (l : List GoError)
    (h : ∀ x ∈ errorTreeList l, x.isZfs = false) : AsZfsErrorList l = none := by
  induction l with
  | nil => rfl
  | cons head tail ih =>
    have h1 : AsZfsError head = none :=
      AsZfsError_none_of_tree head (fun x hx => h x (by simp [errorTreeList, hx]))
    rw [AsZfsErrorList, h1]
    exact ih (fun x hx => h x (by simp [errorTreeList, hx]))

/-- C5: wrapping a non-nil error whose chain holds no structured error (no `*ZfsError`
in the tree `errors.As` searches, joined errors included) gives a structured error of
code "UNKNOWN", with the message of the error as detail, the error as cause, and the
given operation and resource. -/
theorem WrapZfsError_foreign (op resource : String) (e : GoError) (hne : e ≠ GoError.nil)
    (hchain : ∀ x ∈ errorTree e, x.isZfs = false) :
    ∃ msg, e.Error = some msg ∧
      WrapZfsError op resource e =
        some { Op := op, Resource := resource, Code := "UNKNOWN", Errno := -1,
               Detail := msg, Cause := e } := by
  have hnone := AsZfsError_none_of_tree e hchain
  cases e with
  | nil => exact absurd rfl hne
  | zfs op2 res code errno detail cause => simp [AsZfsError] at hnone
  | foreign msg cause =>
    refine ⟨msg, rfl, ?_⟩
    simp only [WrapZfsError, hnone, GoError.Error]
  | joined msg errs =>
    refine ⟨msg, rfl, ?_⟩
    simp only [WrapZfsError, hnone, GoError.Error]

/-- C5 at the error `errors.New("test error")` of `TestWrapZfsError` and at the join of
two such errors; a join that holds a structured error is not in the scope of the claim
and keeps the code of that error. -/
theorem WrapZfsError_foreign_witness :
    GoError.foreign "test error" GoError.nil ≠ GoError.nil ∧
    (∀ x ∈ errorTree (GoError.foreign "test error" GoError.nil), x.isZfs = false) ∧
    (WrapZfsError "op" "res" (GoError.joined "a\nb"
        [GoError.foreign "a" GoError.nil, GoError.foreign "b" GoError.nil])).map
      (fun B => (B.Code, B.Detail)) = some ("UNKNOWN", "a\nb") ∧
    (WrapZfsError "op" "res" (GoError.joined "zfs get_dataset:  (ENOENT)"
        [GoError.zfs "get_dataset" "" "ENOENT" 0 "" GoError.nil])).map
      (fun B => B.Code) = some "ENOENT" ∧
    ∃ msg, (GoError.foreign "test error" GoError.nil).Error = some msg ∧
      WrapZfsError "op" "res" (GoError.foreign "test error" GoError.nil) =
        some { Op := "op", Resource := "res", Code := "UNKNOWN", Errno := -1,
               Detail := msg, Cause := GoError.foreign "test error" GoError.nil } :=
  ⟨by decide, by decide, by decide, by decide,
    WrapZfsError_foreign "op" "res" (GoError.foreign "test error" GoError.nil) (by decide)
      (by decide)⟩

/-- C6: `Is` on two structured errors holds exactly when their codes and operations are
equal, whatever their resource, errno, detail and cause; it is false for a target that is not
a structured error; on structured errors it is reflexive, symmetric and transitive. -/
theorem ZfsError_Is_kind_and_op (e t u : ZfsError) :
    (e.Is t.toError = true ↔ (e.Code = t.Code ∧ e.Op = t.Op)) ∧
    (∀ (r1 r2 : String) (n1 n2 : Int) (d1 d2 : String) (c1 c2 : GoError),
      ZfsError.Is { e with Resource := r1, Errno := n1, Detail := d1, Cause := c1 }
        (ZfsError.toError { t with Resource := r2, Errno := n2, Detail := d2, Cause := c2 }) =
      e.Is t.toError) ∧
    e.Is GoError.nil = false ∧
    (∀ (msg : String) (cause : GoError), e.Is (GoError.foreign msg cause) = false) ∧
    e.Is e.toError = true ∧
    e.Is t.toError = t.Is e.toError ∧
    (e.Is t.toError = true → t.Is u.toError = true → e.Is u.toError = true) := by
  refine ⟨?_, ?_, rfl, fun _ _ => rfl, ?_, ?_, ?_⟩
  · simp [ZfsError.Is, ZfsError.toError]
  · intros; rfl
  · simp [ZfsError.Is, ZfsError.toError]
  · simp only [ZfsError.Is, ZfsError.toError]
    rw [Bool.eq_iff_iff]
    simp only [Bool.and_eq_true, beq_iff_eq]
    constructor <;> rintro ⟨h1, h2⟩ <;> exact ⟨h1.symm, h2.symm⟩
  · simp only [ZfsError.Is, ZfsError.toError, Bool.and_eq_true, beq_iff_eq]
    rintro ⟨h1, h2⟩ ⟨h3, h4⟩
    exact ⟨h1.trans h3, h2.trans h4⟩

/-- C6 on the three errors of `TestZfsError_Is`, and on a chain of three equal pairs. -/
theorem ZfsError_Is_kind_and_op_witness :
    ZfsError.Is ⟨"get_dataset", "", "ENOENT", 0, "", GoError.nil⟩
      (ZfsError.toError ⟨"get_dataset", "tank/data", "ENOENT", 2, "gone", GoError.nil⟩) = true ∧
    ZfsError.Is ⟨"get_dataset", "", "ENOENT", 0, "", GoError.nil⟩
      (ZfsError.toError ⟨"get_pool", "", "ENOENT", 0, "", GoError.nil⟩) = false ∧
    ZfsError.Is ⟨"get_dataset", "", "ENOENT", 0, "", GoError.nil⟩
      (ZfsError.toError ⟨"get_dataset", "x", "ENOENT", 5, "y", GoError.nil⟩) = true :=
  ⟨by decide, by decide,
    (ZfsError_Is_kind_and_op ⟨"get_dataset", "", "ENOENT", 0, "", GoError.nil⟩
      ⟨"get_dataset", "tank/data", "ENOENT", 2, "gone", GoError.nil⟩
      ⟨"get_dataset", "x", "ENOENT", 5, "y", GoError.nil⟩).2.2.2.2.2.2 (by decide) (by decide)⟩

theorem AsZfsError_wrapForeign (msgs : List String) (e : GoError) :
    AsZfsError (wrapForeign msgs e) = AsZfsError e := by
  induction msgs with
  | nil => rfl
  | cons m ms ih => simpa [wrapForeign, AsZfsError] using ih

theorem AsZfsError_joined_first (msg : String) (pre rest : List GoError) (e : GoError)
    (z : ZfsError) (hpre : ∀ x ∈ errorTreeList pre, x.isZfs = false)
    (he : AsZfsError e = some z) :
    AsZfsError (GoError.joined msg (pre ++ e :: rest)) = some z := by
  rw [AsZfsError]
  induction pre with
  | nil => simp [AsZfsErrorList, he]
  | cons head tail ih =>
    have h1 : AsZfsError head = none :=
      AsZfsError_none_of_tree head (fun x hx => hpre x (by simp [errorTreeList, hx]))
    rw [List.cons_append, AsZfsErrorList, h1]
    exact ih (fun x hx => hpre x (by simp [errorTreeList, hx]))

theorem AsZfsError_toError (z : ZfsError) : AsZfsError z.toError = some z := by
  cases z
  rfl

/-- C7: each predicate of the family gives, on a structured error under any number of
foreign wrappers, the verdict it gives on the bare structured error, and so it does on a
joined error in which that wrapped error is the first element to hold a structured error;
on nil, and on an error whose chain (the tree `errors.As` searches) holds no structured
error, it gives false. The predicates are total functions. -/
theorem predicates_chain_aware (P : GoError → Bool) (hP : P ∈ predicateFamily)
    (msgs : List String) (z : ZfsError) (e : GoError)
    (hchain : ∀ x ∈ errorTree e, x.isZfs = false) :
    P (wrapForeign msgs z.toError) = P z.toError ∧ P GoError.nil = false ∧ P e = false ∧
    (∀ (msg : String) (pre rest : List GoError),
      (∀ x ∈ errorTreeList pre, x.isZfs = false) →
      P (GoError.joined msg (pre ++ wrapForeign msgs z.toError :: rest)) = P z.toError) := by
  have hw := AsZfsError_wrapForeign msgs z.toError
  have hn := AsZfsError_none_of_tree e hchain
  have hz := AsZfsError_toError z
  have hj : ∀ (msg : String) (pre rest : List GoError),
      (∀ x ∈ errorTreeList pre, x.isZfs = false) →
      AsZfsError (GoError.joined msg (pre ++ wrapForeign msgs z.toError :: rest)) =
        AsZfsError z.toError := by
    intro msg pre rest hpre
    rw [hz]
    exact AsZfsError_joined_first msg pre rest _ z hpre (by rw [hw, hz])
  simp only [predicateFamily, List.mem_cons, List.mem_singleton, List.not_mem_nil,
    or_false] at hP
  rcases hP with h | h | h | h | h | h | h <;> subst h <;>
    refine ⟨?_, ?_, ?_, ?_⟩ <;>
    first
      | (intro msg pre rest hpre
         simp only [IsDatasetNotFound, IsPoolNotFound, IsPermissionDenied, IsExists, IsBusy,
           IsNoSpace, IsNotSupported, hj msg pre rest hpre])
      | simp [IsDatasetNotFound, IsPoolNotFound, IsPermissionDenied, IsExists, IsBusy,
          IsNoSpace, IsNotSupported, hw, hn, AsZfsError]

/-- C7 for `IsDatasetNotFound`, on a not-found error under two wrappers, on the join
`errors.Join` makes of that error alone, and on the error `errors.New("regular error")`
of `TestAsZfsError`. -/
theorem predicates_chain_aware_witness :
    IsDatasetNotFound ∈ predicateFamily ∧
    (∀ x ∈ errorTree (GoError.foreign "regular error" GoError.nil), x.isZfs = false) ∧
    IsDatasetNotFound (wrapForeign ["list failed", "retry"]
      (ZfsError.toError ⟨"get_dataset", "tank/data", "ENOENT", 2, "gone", GoError.nil⟩)) = true ∧
    IsDatasetNotFound (GoError.joined "zfs get_dataset:  (ENOENT)"
      [GoError.zfs "get_dataset" "" "ENOENT" 0 "" GoError.nil]) = true ∧
    IsDatasetNotFound (GoError.joined "a\nb"
      [GoError.foreign "a" GoError.nil, GoError.foreign "b" GoError.nil]) = false ∧
    (IsDatasetNotFound (wrapForeign ["list failed", "retry"]
        (ZfsError.toError ⟨"get_dataset", "tank/data", "ENOENT", 2, "gone", GoError.nil⟩)) =
      IsDatasetNotFound
        (ZfsError.toError ⟨"get_dataset", "tank/data", "ENOENT", 2, "gone", GoError.nil⟩) ∧
      IsDatasetNotFound GoError.nil = false ∧
      IsDatasetNotFound (GoError.foreign "regular error" GoError.nil) = false ∧
      (∀ (msg : String) (pre rest : List GoError),
        (∀ x ∈ errorTreeList pre, x.isZfs = false) →
        IsDatasetNotFound (GoError.joined msg (pre ++ wrapForeign ["list failed", "retry"]
          (ZfsError.toError ⟨"get_dataset", "tank/data", "ENOENT", 2, "gone", GoError.nil⟩)
            :: rest)) =
        IsDatasetNotFound
          (ZfsError.toError ⟨"get_dataset", "tank/data", "ENOENT", 2, "gone", GoError.nil⟩))) :=
  ⟨by simp [predicateFamily], by decide, by decide, by decide, by decide,
    predicates_chain_aware IsDatasetNotFound (by simp [predicateFamily])
      ["list failed", "retry"] ⟨"get_dataset", "tank/data", "ENOENT", 2, "gone", GoError.nil⟩
      (GoError.foreign "regular error" GoError.nil) (by decide)⟩

/-! ## The not-found predicates -/

theorem firstStructured_mem (err : GoError) (z : ZfsError) (h : firstStructured err = some z) :
    z.toError ∈ errorTree err := by
  unfold firstStructured at h
  cases hf : (errorTree err).find? GoError.isZfs with
  | none => rw [hf] at h; exact Option.noConfusion h
  | some x =>
    rw [hf] at h
    obtain ⟨z2, hz2, hx⟩ := asStructured_of_isZfs x (by simpa using List.find?_some hf)
    have h2 : x.asStructured = some z := h
    rw [hz2] at h2
    rw [← Option.some.inj h2, hx]
    exact List.mem_of_find?_eq_some hf

/-- C24: with the first structured error of the chain of `err` being the first
`*ZfsError` of the tree `errors.As` searches, `IsDatasetNotFound err` holds iff that
error has kind ENOENT and Op "get_dataset" or "list_datasets", and `IsPoolNotFound err`
iff it has kind ENOENT and Op "get_pool" or "list_pools"; no error satisfies both; an
error whose first structured error has another kind satisfies neither;
`IsPermissionDenied err` holds iff that error has kind EPERM, whatever its Op. A first
structured error is an error of the chain, and the one a foreign wrapper wraps. -/
theorem notFound_predicates (err : GoError) :
    (IsDatasetNotFound err = true ↔
      ∃ z : ZfsError, firstStructured err = some z ∧ z.Code = "ENOENT" ∧
        (z.Op = "get_dataset" ∨ z.Op = "list_datasets")) ∧
    (IsPoolNotFound err = true ↔
      ∃ z : ZfsError, firstStructured err = some z ∧ z.Code = "ENOENT" ∧
        (z.Op = "get_pool" ∨ z.Op = "list_pools")) ∧
    ¬ (IsDatasetNotFound err = true ∧ IsPoolNotFound err = true) ∧
    (∀ z : ZfsError, firstStructured err = some z → z.Code ≠ "ENOENT" →
      IsDatasetNotFound err = false ∧ IsPoolNotFound err = false) ∧
    (IsPermissionDenied err = true ↔
      ∃ z : ZfsError, firstStructured err = some z ∧ z.Code = "EPERM") ∧
    (∀ z : ZfsError, firstStructured err = some z → z.toError ∈ errorTree err) ∧
    (∀ (msgs : List String) (z : ZfsError),
      firstStructured (wrapForeign msgs z.toError) = some z) := by
  have key : ∀ z, firstStructured err = some z ↔ AsZfsError err = some z :=
    fun z => by rw [AsZfsError_eq_firstStructured]
  refine ⟨?_, ?_, ?_, ?_, ?_, fun z h => firstStructured_mem err z h, ?_⟩
  · constructor
    · intro h
      cases ha : AsZfsError err with
      | none => simp [IsDatasetNotFound, ha] at h
      | some z =>
        simp only [IsDatasetNotFound, ha, ErrCodeNotFound, Bool.and_eq_true, beq_iff_eq,
          Bool.or_eq_true] at h
        exact ⟨z, (key z).mpr ha, h.1, h.2⟩
    · rintro ⟨z, hm, hc, ho⟩
      have ha := (key z).mp hm
      simp only [IsDatasetNotFound, ha, ErrCodeNotFound, Bool.and_eq_true, beq_iff_eq,
        Bool.or_eq_true]
      exact ⟨hc, ho⟩
  · constructor
    · intro h
      cases ha : AsZfsError err with
      | none => simp [IsPoolNotFound, ha] at h
      | some z =>
        simp only [IsPoolNotFound, ha, ErrCodeNotFound, Bool.and_eq_true, beq_iff_eq,
          Bool.or_eq_true] at h
        exact ⟨z, (key z).mpr ha, h.1, h.2⟩
    · rintro ⟨z, hm, hc, ho⟩
      have ha := (key z).mp hm
      simp only [IsPoolNotFound, ha, ErrCodeNotFound, Bool.and_eq_true, beq_iff_eq,
        Bool.or_eq_true]
      exact ⟨hc, ho⟩
  · rintro ⟨h1, h2⟩
    cases ha : AsZfsError err with
    | none => simp [IsDatasetNotFound, ha] at h1
    | some z =>
      simp only [IsDatasetNotFound, ha, Bool.and_eq_true, beq_iff_eq, Bool.or_eq_true] at h1
      simp only [IsPoolNotFound, ha, Bool.and_eq_true, beq_iff_eq, Bool.or_eq_true] at h2
      rcases h1.2 with h | h <;> rcases h2.2 with h3 | h3 <;> rw [h] at h3 <;>
        exact absurd h3 (by decide)
  · intro z hm hc
    have ha := (key z).mp hm
    simp [IsDatasetNotFound, IsPoolNotFound, ha, ErrCodeNotFound, hc]
  · constructor
    · intro h
      cases ha : AsZfsError err with
      | none => simp [IsPermissionDenied, ha] at h
      | some z =>
        simp only [IsPermissionDenied, ha, ErrCodePermission, beq_iff_eq] at h
        exact ⟨z, (key z).mpr ha, h⟩
    · rintro ⟨z, hm, hc⟩
      have ha := (key z).mp hm
      simp only [IsPermissionDenied, ha, ErrCodePermission, beq_iff_eq]
      exact hc
  · intro msgs z
    rw [← AsZfsError_eq_firstStructured, AsZfsError_wrapForeign, AsZfsError_toError]

theorem notFound_predicates_witness :
    IsDatasetNotFound (ZfsError.toError
      ⟨"get_dataset", "", "ENOENT", 0, "", GoError.nil⟩) = true ∧
    IsPoolNotFound (ZfsError.toError
      ⟨"get_dataset", "", "ENOENT", 0, "", GoError.nil⟩) = false ∧
    IsPermissionDenied (ZfsError.toError
      ⟨"create_dataset", "", "EPERM", 0, "", GoError.nil⟩) = true ∧
    firstStructured (GoError.joined "a\nzfs get_pool:  (ENOENT)"
        [GoError.foreign "a" GoError.nil,
          GoError.zfs "get_pool" "" "ENOENT" 0 "" GoError.nil]) =
      some ⟨"get_pool", "", "ENOENT", 0, "", GoError.nil⟩ ∧
    IsPoolNotFound (GoError.joined "a\nzfs get_pool:  (ENOENT)"
        [GoError.foreign "a" GoError.nil,
          GoError.zfs "get_pool" "" "ENOENT" 0 "" GoError.nil]) = true ∧
    firstStructured (ZfsError.toError ⟨"create_dataset", "", "EPERM", 0, "", GoError.nil⟩) =
      some ⟨"create_dataset", "", "EPERM", 0, "", GoError.nil⟩ ∧
    (IsDatasetNotFound (ZfsError.toError
        ⟨"create_dataset", "", "EPERM", 0, "", GoError.nil⟩) = false ∧
      IsPoolNotFound (ZfsError.toError
        ⟨"create_dataset", "", "EPERM", 0, "", GoError.nil⟩) = false) :=
  ⟨by decide, by decide, by decide, by decide, by decide, by decide,
    (notFound_predicates (ZfsError.toError
      ⟨"create_dataset", "", "EPERM", 0, "", GoError.nil⟩)).2.2.2.1
      ⟨"create_dataset", "", "EPERM", 0, "", GoError.nil⟩ (by decide) (by decide)⟩

end errors

namespace driver

open errors

/-! ## The session -/

theorem Close_of_live (d : libzfsDriver) (t : Trace) (hd : d.h ≠ none) :
    d.Close t = ((GoError.nil, { h := none, finalizer := false }), t ++ [Call.libzfs_fini]) := by
  cases d with
  | mk h f =>
    cases h with
    | none => exact absurd rfl hd
    | some u => rfl

theorem Close_of_closed (d : libzfsDriver) (t : Trace) (hd : d.h = none) :
    d.Close t = ((GoError.nil, d), t) := by
  cases d with
  | mk h f =>
    cases hd
    rfl

theorem closeTimes_of_closed (n : Nat) (d : libzfsDriver) (t : Trace) (hd : d.h = none) :
    closeTimes n d t = (d, t) := by
  induction n with
  | zero => rfl
  | succ n ih => simp only [closeTimes, Close_of_closed d t hd, ih]

theorem closeTimes_of_live (n : Nat) (d : libzfsDriver) (t : Trace) (hd : d.h ≠ none) :
    closeTimes (n + 1) d t = ({ h := none, finalizer := false }, t ++ [Call.libzfs_fini]) := by
  simp only [closeTimes, Close_of_live d t hd]
  exact closeTimes_of_closed n _ _ rfl

/-- C8: `Close` always returns nil. On a live session the first `Close` makes the one call
`libzfs_fini` and clears the handle; every later `Close` makes no call and changes nothing;
so after any number of calls of `Close`, at least one, the connection was released exactly
once. -/
theorem Close_idempotent (d : libzfsDriver) (t : Trace) (n : Nat) (hd : d.h ≠ none) :
    (∀ (d1 : libzfsDriver) (t1 : Trace), (d1.Close t1).1.1 = GoError.nil) ∧
    (d.Close t).1.2.h = none ∧
    (d.Close t).2 = t ++ [Call.libzfs_fini] ∧
    (closeTimes (n + 1) d t).1.h = none ∧
    (closeTimes (n + 1) d t).2 = t ++ [Call.libzfs_fini] ∧
    ((closeTimes (n + 1) d t).1.Close (closeTimes (n + 1) d t).2 =
      ((GoError.nil, (closeTimes (n + 1) d t).1), (closeTimes (n + 1) d t).2)) ∧
    closeTimes (n + 2) d t = closeTimes 1 d t ∧
    finiCount (closeTimes (n + 1) d t).2 = finiCount t + 1 := by
  refine ⟨?_, ?_, ?_, ?_, ?_, ?_, ?_, ?_⟩
  · intro d1 t1
    cases d1 with
    | mk h f => cases h <;> rfl
  · rw [Close_of_live d t hd]
  · rw [Close_of_live d t hd]
  · rw [closeTimes_of_live n d t hd]
  · rw [closeTimes_of_live n d t hd]
  · rw [closeTimes_of_live n d t hd]
    rfl
  · rw [closeTimes_of_live (n + 1) d t hd, closeTimes_of_live 0 d t hd]
  · rw [closeTimes_of_live n d t hd]
    simp [finiCount, List.countP_append, Call.isFini]

/-- C8 on a fresh live session closed three times: one release. -/
theorem Close_idempotent_witness :
    ({ h := some (), finalizer := true } : libzfsDriver).h ≠ none ∧
    (closeTimes 3 { h := some (), finalizer := true } []).2 = [Call.libzfs_fini] ∧
    finiCount (closeTimes 3 { h := some (), finalizer := true } []).2 = 1 :=
  ⟨by decide,
    (Close_idempotent { h := some (), finalizer := true } [] 2 (by decide)).2.2.2.2.1,
    (Close_idempotent { h := some (), finalizer := true } [] 2 (by decide)).2.2.2.2.2.2.2⟩

theorem closedError_ne_nil (err : GoError) (h : closedError err) : err ≠ GoError.nil := by
  rcases h with h | h <;> simp [h, errorf]

/-- C9: on a closed driver, as `Close` leaves it, every operation returns a closed error,
which is not nil, and makes no library call: the trace is unchanged, so the nil handle is
passed to no library function. -/
theorem closed_driver_fails_fast (B : Backend) (d : libzfsDriver) (t : Trace)
    (hd : d.h = none) :
    (∀ (d0 : libzfsDriver) (t0 : Trace), (d0.Close t0).1.2.h = none) ∧
    (∀ err, closedError err → err ≠ GoError.nil) ∧
    failsFastR (d.RuntimeInfo t) t ∧
    failsFastR (d.ListPools B t) t ∧
    (∀ poolName propNames, failsFastR (d.GetPoolProps B poolName propNames t) t) ∧
    (∀ poolName opts, failsFastE (d.ImportPool poolName opts t) t) ∧
    (∀ poolName opts, failsFastE (d.ExportPool B poolName opts t) t) ∧
    (∀ poolName vdevs opts, failsFastO (d.CreatePool B poolName vdevs opts t) t) ∧
    (∀ poolName, failsFastE (d.DestroyPool B poolName t) t) ∧
    (∀ recursive, failsFastR (d.ListDatasets B recursive t) t) ∧
    (∀ poolName recursive, failsFastR (d.ListDatasetsInPool B poolName recursive t) t) ∧
    (∀ dsType recursive, failsFastR (d.ListDatasetsByType B dsType recursive t) t) ∧
    (∀ datasetName propNames, failsFastR (d.GetDatasetProps B datasetName propNames t) t) ∧
    (∀ datasetName propName propValue,
      failsFastE (d.SetDatasetProp B datasetName propName propValue t) t) ∧
    (∀ datasetName dsType props, failsFastE (d.CreateDataset B datasetName dsType props t) t) ∧
    (∀ datasetName recursive, failsFastE (d.DestroyDataset B datasetName recursive t) t) ∧
    (∀ snapshotName recursive props,
      failsFastE (d.CreateSnapshot B snapshotName recursive props t) t) ∧
    (∀ snapshotName, failsFastE (d.DestroySnapshot B snapshotName t) t) ∧
    (∀ datasetName snapshotName force,
      failsFastE (d.RollbackToSnapshot B datasetName snapshotName force t) t) ∧
    (∀ snapshotName cloneName props,
      failsFastE (d.CreateClone B snapshotName cloneName props t) t) ∧
    (∀ cloneName, failsFastE (d.PromoteClone B cloneName t) t) ∧
    (∀ datasetName, failsFastR (d.GetCloneInfo B datasetName t) t) ∧
    (∀ snapshotName, failsFastR (d.ListClones B snapshotName t) t) ∧
    (∀ cloneName force, failsFastE (d.DestroyClone B cloneName force t) t) ∧
    (∀ poolName vdevSpec, failsFastO (d.AddVdev B poolName vdevSpec t) t) ∧
    (∀ poolName oldDevice newDevice replacing,
      failsFastE (d.AttachVdev B poolName oldDevice newDevice replacing t) t) ∧
    (∀ poolName device, failsFastE (d.DetachVdev B poolName device t) t) ∧
    (∀ poolName oldDevice newDevice,
      failsFastE (d.ReplaceVdev B poolName oldDevice newDevice t) t) ∧
    (∀ poolName device, failsFastE (d.RemoveVdev B poolName device t) t) ∧
    (∀ poolName device flags, failsFastE (d.OnlineVdev B poolName device flags t) t) ∧
    (∀ poolName device temporary,
      failsFastE (d.OfflineVdev B poolName device temporary t) t) ∧
    (∀ poolName device, failsFastE (d.ClearVdev B poolName device t) t) ∧
    (∀ feature, failsFastR (d.SupportsFeature feature t) t) ∧
    failsFastR (d.GetAvailableFeatures t) t ∧
    failsFastR (d.GetSupportedCompressionAlgorithms t) t ∧
    failsFastR (d.GetZFSVersion t) t := by
  refine ⟨?_, closedError_ne_nil, ?_⟩
  · intro d0 t0
    cases d0 with
    | mk h f => cases h <;> rfl
  · simp [failsFastR, failsFastE, failsFastO, closedError, hd, errorf,
      libzfsDriver.RuntimeInfo, libzfsDriver.ListPools, libzfsDriver.GetPoolProps,
      libzfsDriver.ImportPool, libzfsDriver.ExportPool, libzfsDriver.CreatePool,
      libzfsDriver.DestroyPool, libzfsDriver.ListDatasets, libzfsDriver.ListDatasetsInPool,
      libzfsDriver.ListDatasetsByType, libzfsDriver.GetDatasetProps,
      libzfsDriver.SetDatasetProp, libzfsDriver.CreateDataset, libzfsDriver.DestroyDataset,
      libzfsDriver.CreateSnapshot, libzfsDriver.DestroySnapshot,
      libzfsDriver.RollbackToSnapshot, libzfsDriver.CreateClone, libzfsDriver.PromoteClone,
      libzfsDriver.GetCloneInfo, libzfsDriver.ListClones, libzfsDriver.DestroyClone,
      libzfsDriver.AddVdev, libzfsDriver.AttachVdev, libzfsDriver.DetachVdev,
      libzfsDriver.ReplaceVdev, libzfsDriver.RemoveVdev, libzfsDriver.OnlineVdev,
      libzfsDriver.OfflineVdev, libzfsDriver.ClearVdev, vdevOperation,
      libzfsDriver.SupportsFeature, libzfsDriver.GetAvailableFeatures,
      libzfsDriver.GetSupportedCompressionAlgorithms, libzfsDriver.GetZFSVersion]

/-- C9 on the session closed once: listing pools, destroying a dataset and adding a mirror
each return the closed error and leave the trace at the single release. -/
theorem closed_driver_fails_fast_witness :
    (liveDriver.Close []).1.2.h = none ∧
    (liveDriver.Close []).2 = [Call.libzfs_fini] ∧
    failsFastR ((liveDriver.Close []).1.2.ListPools sampleBackend [Call.libzfs_fini])
      [Call.libzfs_fini] ∧
    failsFastE ((liveDriver.Close []).1.2.DestroyDataset sampleBackend "tank/data" true
      [Call.libzfs_fini]) [Call.libzfs_fini] ∧
    failsFastO ((liveDriver.Close []).1.2.AddVdev sampleBackend "tank"
      { Type_ := "mirror", Devices := ["/dev/da0", "/dev/da1"] } [Call.libzfs_fini])
      [Call.libzfs_fini] ∧
    (liveDriver.ListPools sampleBackend []).2 = [Call.zpool_iter] :=
  have h := closed_driver_fails_fast sampleBackend (liveDriver.Close []).1.2 [Call.libzfs_fini]
    (by decide)
  ⟨by decide, rfl, h.2.2.2.1, h.2.2.2.2.2.2.2.2.2.2.2.2.2.2.2.1 "tank/data" true,
    h.2.2.2.2.2.2.2.2.2.2.2.2.2.2.2.2.2.2.2.2.2.2.2.2.1 "tank" _, rfl⟩

/-! ## The vdev tree builder -/

/-- C10: for a specification below the hard minimum of its type (a disk without exactly one
device, a mirror with fewer than 2, a raidz with fewer than 3, a raidz2 with fewer than 4, a
raidz3 with fewer than 5) or of no supported type, the builder returns no tree and an error,
and makes no library call: no attribute tree is allocated. -/
theorem createComplexVdevNvlist_minimums (B : Backend) (spec : VdevSpec) (t : Trace)
    (hspec : belowMinimum spec) :
    ∃ err, libzfsDriver.createComplexVdevNvlist B spec t = some ((none, err), t) ∧
      err ≠ GoError.nil ∧
      ∀ r, libzfsDriver.createComplexVdevNvlist B spec t = some r →
        allocCount r.2 = allocCount t := by
  have key : ∃ err, libzfsDriver.createComplexVdevNvlist B spec t = some ((none, err), t) ∧
      err ≠ GoError.nil := by
    unfold belowMinimum at hspec
    unfold libzfsDriver.createComplexVdevNvlist
    simp only [VdevTypeDisk, VdevTypeMirror, VdevTypeRaidz, VdevTypeRaidz2, VdevTypeRaidz3]
    rcases hspec with ⟨h1, h2⟩ | ⟨h1, h2⟩ | ⟨h1, h2⟩ | ⟨h1, h2⟩ | ⟨h1, h2⟩ | h
    · simp [h1, h2, errorf]
    · simp [h1, h2, errorf]
    · simp [h1, h2, errorf]
    · simp [h1, h2, errorf]
    · simp [h1, h2, errorf]
    · simp only [List.mem_cons, List.mem_singleton, List.not_mem_nil, or_false, not_or] at h
      simp [h.1, h.2.1, h.2.2.1, h.2.2.2.1, h.2.2.2.2, errorf]
  obtain ⟨err, h1, h2⟩ := key
  refine ⟨err, h1, h2, ?_⟩
  intro r hr
  rw [h1] at hr
  cases hr
  rfl

/-- C10 on a mirror of one device, and on a raidz2 of three devices: no tree, an error,
an unchanged trace; a mirror of two devices does allocate. -/
theorem createComplexVdevNvlist_minimums_witness :
    belowMinimum { Type_ := "mirror", Devices := ["/dev/da0"] } ∧
    libzfsDriver.createComplexVdevNvlist sampleBackend
        { Type_ := "mirror", Devices := ["/dev/da0"] } [Call.zpool_open "tank"] =
      some ((none, errorf "mirror vdev requires at least 2 devices, got 1"),
        [Call.zpool_open "tank"]) ∧
    (∃ err, libzfsDriver.createComplexVdevNvlist sampleBackend
        { Type_ := "mirror", Devices := ["/dev/da0"] } [Call.zpool_open "tank"] =
          some ((none, err), [Call.zpool_open "tank"]) ∧
      err ≠ GoError.nil ∧
      ∀ r, libzfsDriver.createComplexVdevNvlist sampleBackend
          { Type_ := "mirror", Devices := ["/dev/da0"] } [Call.zpool_open "tank"] = some r →
        allocCount r.2 = allocCount [Call.zpool_open "tank"]) ∧
    (libzfsDriver.createComplexVdevNvlist sampleBackend
        { Type_ := "mirror", Devices := ["/dev/da0", "/dev/da1"] } []).map
      (fun r => allocCount r.2) = some 3 :=
  ⟨Or.inr (Or.inl ⟨rfl, by decide⟩), rfl,
    createComplexVdevNvlist_minimums sampleBackend { Type_ := "mirror", Devices := ["/dev/da0"] }
      [Call.zpool_open "tank"] (Or.inr (Or.inl ⟨rfl, by decide⟩)),
    by decide⟩

/-- C11, as the claim states it, fails: the error the builder returns for a mirror of one
device is the plain error of `fmt.Errorf`; no structured error is in its chain, so it has no
kind, and `EINVAL` in particular is not its kind. -/
theorem createComplexVdevNvlist_error_not_structured :
    libzfsDriver.createComplexVdevNvlist sampleBackend
        { Type_ := "mirror", Devices := ["/dev/da0"] } [] =
      some ((none, GoError.foreign "mirror vdev requires at least 2 devices, got 1" GoError.nil),
        []) ∧
    AsZfsError (GoError.foreign "mirror vdev requires at least 2 devices, got 1" GoError.nil) =
      none ∧
    ¬ ∃ z, AsZfsError
        (GoError.foreign "mirror vdev requires at least 2 devices, got 1" GoError.nil) = some z ∧
      z.Code = ErrCodeInval := by
  refine ⟨rfl, rfl, ?_⟩
  rintro ⟨z, hz, _⟩
  simp [AsZfsError] at hz

theorem predicateFamily_errorf (msg : String) (P : GoError → Bool) (hP : P ∈ predicateFamily) :
    P (errorf msg) = false := by
  simp only [predicateFamily, List.mem_cons, List.mem_singleton, List.not_mem_nil,
    or_false] at hP
  rcases hP with h | h | h | h | h | h | h <;> subst h <;>
    simp [IsDatasetNotFound, IsPoolNotFound, IsPermissionDenied, IsExists, IsBusy, IsNoSpace,
      IsNotSupported, AsZfsError, errorf]

/-- C11, amended: for a specification below the minimum of its type the builder fails
with the plain error of `fmt.Errorf` whose message states the requirement of that type
and the number of devices given, and for a specification of no supported type with the
plain error whose message names the type; that error is not nil, unwraps to nil and is
not a structured error: `IsZfsError` and every predicate of the family are false on it. -/
theorem createComplexVdevNvlist_plain_error (B : Backend) (spec : VdevSpec) (t : Trace)
    (hspec : belowMinimum spec) :
    (spec.Type_ = "disk" →
      libzfsDriver.createComplexVdevNvlist B spec t = some ((none,
        errorf ("disk vdev requires exactly 1 device, got " ++
          formatInt spec.Devices.length)), t)) ∧
    (spec.Type_ = "mirror" →
      libzfsDriver.createComplexVdevNvlist B spec t = some ((none,
        errorf ("mirror vdev requires at least 2 devices, got " ++
          formatInt spec.Devices.length)), t)) ∧
    (spec.Type_ = "raidz" →
      libzfsDriver.createComplexVdevNvlist B spec t = some ((none,
        errorf ("raidz vdev requires at least 3 devices, got " ++
          formatInt spec.Devices.length)), t)) ∧
    (spec.Type_ = "raidz2" →
      libzfsDriver.createComplexVdevNvlist B spec t = some ((none,
        errorf ("raidz2 vdev requires at least 4 devices, got " ++
          formatInt spec.Devices.length)), t)) ∧
    (spec.Type_ = "raidz3" →
      libzfsDriver.createComplexVdevNvlist B spec t = some ((none,
        errorf ("raidz3 vdev requires at least 5 devices, got " ++
          formatInt spec.Devices.length)), t)) ∧
    (spec.Type_ ∉ ["disk", "mirror", "raidz", "raidz2", "raidz3"] →
      libzfsDriver.createComplexVdevNvlist B spec t = some ((none,
        errorf ("unsupported vdev type: " ++ spec.Type_)), t)) ∧
    (∃ msg, libzfsDriver.createComplexVdevNvlist B spec t = some ((none, errorf msg), t) ∧
      errorf msg ≠ GoError.nil ∧
      (errorf msg).Unwrap = GoError.nil ∧
      IsZfsError (errorf msg) = false ∧
      ∀ P ∈ predicateFamily, P (errorf msg) = false) := by
  have hplain : ∀ msg,
      libzfsDriver.createComplexVdevNvlist B spec t = some ((none, errorf msg), t) →
      ∃ msg, libzfsDriver.createComplexVdevNvlist B spec t = some ((none, errorf msg), t) ∧
        errorf msg ≠ GoError.nil ∧
        (errorf msg).Unwrap = GoError.nil ∧
        IsZfsError (errorf msg) = false ∧
        ∀ P ∈ predicateFamily, P (errorf msg) = false :=
    fun msg h => ⟨msg, h, by simp [errorf], rfl, rfl, predicateFamily_errorf msg⟩
  unfold belowMinimum at hspec
  unfold libzfsDriver.createComplexVdevNvlist
  simp only [VdevTypeDisk, VdevTypeMirror, VdevTypeRaidz, VdevTypeRaidz2, VdevTypeRaidz3]
  rcases hspec with ⟨h1, h2⟩ | ⟨h1, h2⟩ | ⟨h1, h2⟩ | ⟨h1, h2⟩ | ⟨h1, h2⟩ | h
  · refine ⟨?_, ?_, ?_, ?_, ?_, ?_, ?_⟩ <;> simp [h1, h2, errorf]
    exact ⟨rfl, rfl, fun P hP => predicateFamily_errorf _ P hP⟩
  · refine ⟨?_, ?_, ?_, ?_, ?_, ?_, ?_⟩ <;> simp [h1, h2, errorf]
    exact ⟨rfl, rfl, fun P hP => predicateFamily_errorf _ P hP⟩
  · refine ⟨?_, ?_, ?_, ?_, ?_, ?_, ?_⟩ <;> simp [h1, h2, errorf]
    exact ⟨rfl, rfl, fun P hP => predicateFamily_errorf _ P hP⟩
  · refine ⟨?_, ?_, ?_, ?_, ?_, ?_, ?_⟩ <;> simp [h1, h2, errorf]
    exact ⟨rfl, rfl, fun P hP => predicateFamily_errorf _ P hP⟩
  · refine ⟨?_, ?_, ?_, ?_, ?_, ?_, ?_⟩ <;> simp [h1, h2, errorf]
    exact ⟨rfl, rfl, fun P hP => predicateFamily_errorf _ P hP⟩
  · simp only [List.mem_cons, List.mem_singleton, List.not_mem_nil, or_false, not_or] at h
    refine ⟨?_, ?_, ?_, ?_, ?_, ?_, ?_⟩ <;>
      simp [h.1, h.2.1, h.2.2.1, h.2.2.2.1, h.2.2.2.2, errorf]
    exact ⟨rfl, rfl, fun P hP => predicateFamily_errorf _ P hP⟩

/-- C11, amended, on a raidz2 of three devices and on the type "stripe". -/
theorem createComplexVdevNvlist_plain_error_witness :
    belowMinimum { Type_ := "raidz2", Devices := ["/dev/da0", "/dev/da1", "/dev/da2"] } ∧
    libzfsDriver.createComplexVdevNvlist sampleBackend
        { Type_ := "raidz2", Devices := ["/dev/da0", "/dev/da1", "/dev/da2"] } [] =
      some ((none, errorf "raidz2 vdev requires at least 4 devices, got 3"), []) ∧
    libzfsDriver.createComplexVdevNvlist sampleBackend
        { Type_ := "stripe", Devices := ["/dev/da0", "/dev/da1"] } [] =
      some ((none, errorf "unsupported vdev type: stripe"), []) ∧
    libzfsDriver.createComplexVdevNvlist sampleBackend
        { Type_ := "raidz2", Devices := ["/dev/da0", "/dev/da1", "/dev/da2"] } [] =
      some ((none, errorf ("raidz2 vdev requires at least 4 devices, got " ++
        formatInt ([("/dev/da0" : String), "/dev/da1", "/dev/da2"]).length)), []) :=
  ⟨Or.inr (Or.inr (Or.inr (Or.inl ⟨rfl, by decide⟩))), rfl, rfl,
    (createComplexVdevNvlist_plain_error sampleBackend
      { Type_ := "raidz2", Devices := ["/dev/da0", "/dev/da1", "/dev/da2"] } []
      (Or.inr (Or.inr (Or.inr (Or.inl ⟨rfl, by decide⟩))))).2.2.2.1 rfl⟩

/-! ## The trees the builder returns -/

theorem go_create_vdev_nvlist_shape (B : Backend) (type path : String) (t : Trace) (v : NvList)
    (h : (go_create_vdev_nvlist B type (some path) t).1 = some v) :
    v = NvList.mk [("type", type), ("path", path)] [] := by
  unfold go_create_vdev_nvlist nvlist_alloc nvlist_add_string callInt callVoid at h
  simp only [] at h
  by_cases h0 : B.int t Call.nvlist_alloc = 0
  · simp only [h0, if_true] at h
    by_cases h1 : B.int (t ++ [Call.nvlist_alloc])
        (Call.nvlist_add_string (NvList.mk [] []) "type" type) = 0
    · simp only [h1, if_true, ne_eq, not_true_eq_false, if_false] at h
      simp only [NvList.strings, NvList.arrays, List.filter_nil, List.nil_append,
        List.filter_cons, List.append_assoc, List.cons_append] at h
      split at h
      · simp at h
      · rename_i hc
        have hc2 := not_not.mp hc
        simp [hc2] at h
        exact h.symm
    · simp [h1] at h
  · simp [h0] at h

theorem go_create_vdev_nvlist_ok (B : Backend) (hB : allocationsSucceed B) (type path : String)
    (t : Trace) :
    (go_create_vdev_nvlist B type (some path) t).1 =
      some (NvList.mk [("type", type), ("path", path)] []) := by
  unfold go_create_vdev_nvlist nvlist_alloc nvlist_add_string callInt callVoid
  simp [hB _ _, Call.isNvlistBuild, NvList.strings, NvList.arrays]

theorem go_create_mirror_vdev_shape (B : Backend) (children : List NvList) (t : Trace)
    (m : NvList) (h : (go_create_mirror_vdev B children t).1 = some m) :
    m = NvList.mk [("type", "mirror")] [("children", children)] := by
  unfold go_create_mirror_vdev nvlist_alloc nvlist_add_string nvlist_add_nvlist_array callInt
    callVoid at h
  simp only [] at h
  by_cases h0 : B.int t Call.nvlist_alloc = 0
  · simp only [h0, if_true] at h
    by_cases h1 : B.int (t ++ [Call.nvlist_alloc])
        (Call.nvlist_add_string (NvList.mk [] []) "type" "mirror") = 0
    · simp only [h1, if_true, ne_eq, not_true_eq_false, if_false] at h
      simp only [NvList.strings, NvList.arrays, List.filter_nil, List.nil_append,
        List.filter_cons, List.append_assoc, List.cons_append] at h
      split at h
      · simp at h
      · rename_i hc
        have hc2 := not_not.mp hc
        simp [hc2] at h
        exact h.symm
    · simp [h1] at h
  · simp [h0] at h

theorem go_create_mirror_vdev_ok (B : Backend) (hB : allocationsSucceed B)
    (children : List NvList) (t : Trace) :
    (go_create_mirror_vdev B children t).1 =
      some (NvList.mk [("type", "mirror")] [("children", children)]) := by
  unfold go_create_mirror_vdev nvlist_alloc nvlist_add_string nvlist_add_nvlist_array callInt
    callVoid
  simp [hB _ _, Call.isNvlistBuild, NvList.strings, NvList.arrays]

/-- The type name `go_create_raidz_vdev` writes for a parity. -/
theorem go_create_raidz_vdev_shape (B : Backend) (children : List NvList) (parity : Int)
    (type : String) (t : Trace) (m : NvList)
    (hp : (parity = 1 ∧ type = "raidz") ∨ (parity = 2 ∧ type = "raidz2") ∨
      (parity = 3 ∧ type = "raidz3"))
    (h : (go_create_raidz_vdev B children parity t).1 = some m) :
    m = NvList.mk [("type", type)] [("children", children)] := by
  have hty : (if parity = 1 then some "raidz" else if parity = 2 then some "raidz2"
      else if parity = 3 then some "raidz3" else none) = some type := by
    rcases hp with ⟨h1, h2⟩ | ⟨h1, h2⟩ | ⟨h1, h2⟩ <;> subst h1 <;> subst h2 <;> simp
  unfold go_create_raidz_vdev at h
  simp only [hty] at h
  unfold nvlist_alloc nvlist_add_string nvlist_add_nvlist_array callInt callVoid at h
  simp only [] at h
  by_cases h0 : B.int t Call.nvlist_alloc = 0
  · simp only [h0, if_true] at h
    by_cases h1 : B.int (t ++ [Call.nvlist_alloc])
        (Call.nvlist_add_string (NvList.mk [] []) "type" type) = 0
    · simp only [h1, if_true, ne_eq, not_true_eq_false, if_false] at h
      simp only [NvList.strings, NvList.arrays, List.filter_nil, List.nil_append,
        List.filter_cons, List.append_assoc, List.cons_append] at h
      split at h
      · simp at h
      · rename_i hc
        have hc2 := not_not.mp hc
        simp [hc2] at h
        exact h.symm
    · simp [h1] at h
  · simp [h0] at h

theorem go_create_raidz_vdev_ok (B : Backend) (hB : allocationsSucceed B)
    (children : List NvList) (parity : Int) (type : String) (t : Trace)
    (hp : (parity = 1 ∧ type = "raidz") ∨ (parity = 2 ∧ type = "raidz2") ∨
      (parity = 3 ∧ type = "raidz3")) :
    (go_create_raidz_vdev B children parity t).1 =
      some (NvList.mk [("type", type)] [("children", children)]) := by
  have hty : (if parity = 1 then some "raidz" else if parity = 2 then some "raidz2"
      else if parity = 3 then some "raidz3" else none) = some type := by
    rcases hp with ⟨h1, h2⟩ | ⟨h1, h2⟩ | ⟨h1, h2⟩ <;> subst h1 <;> subst h2 <;> simp
  unfold go_create_raidz_vdev
  simp only [hty]
  unfold nvlist_alloc nvlist_add_string nvlist_add_nvlist_array callInt callVoid
  simp [hB _ _, Call.isNvlistBuild, NvList.strings, NvList.arrays]

theorem CString_disk : CString "disk" = "disk" := by decide

theorem CString_of_noNul (s : String) (h : Char.ofNat 0 ∉ s.data) : CString s = s := by
  unfold CString
  have : s.data.takeWhile (fun c => decide (c ≠ Char.ofNat 0)) = s.data := by
    rw [List.takeWhile_eq_self_iff]
    intro c hc
    simp only [ne_eq, decide_not, Bool.not_eq_true', decide_eq_false_iff_not]
    intro h0
    exact h (h0 ▸ hc)
  rw [this]

theorem takeWhile_notNul (l : List Char) :
    Char.ofNat 0 ∉ l.takeWhile (fun c => decide (c ≠ Char.ofNat 0)) ∧
    ((Char.ofNat 0 ∉ l ∧ l.takeWhile (fun c => decide (c ≠ Char.ofNat 0)) = l) ∨
      ∃ rest, l = l.takeWhile (fun c => decide (c ≠ Char.ofNat 0)) ++ Char.ofNat 0 :: rest) := by
  induction l with
  | nil => simp
  | cons c cs ih =>
    by_cases hc : c = Char.ofNat 0
    · subst hc
      refine ⟨by simp [List.takeWhile], Or.inr ⟨cs, by simp [List.takeWhile]⟩⟩
    · have hc2 : decide (c ≠ Char.ofNat 0) = true := by simp [hc]
      simp only [List.takeWhile, hc2]
      refine ⟨?_, ?_⟩
      · intro hmem
        rcases List.mem_cons.mp hmem with h | h
        · exact hc h.symm
        · exact ih.1 h
      · rcases ih.2 with ⟨h1, h2⟩ | ⟨rest, h⟩
        · refine Or.inl ⟨?_, by rw [h2]⟩
          intro hmem
          rcases List.mem_cons.mp hmem with h | h
          · exact hc h.symm
          · exact h1 h
        · exact Or.inr ⟨rest, by rw [List.cons_append, ← h]⟩

theorem CString_spec (s : String) :
    Char.ofNat 0 ∉ (CString s).data ∧
    ((Char.ofNat 0 ∉ s.data ∧ CString s = s) ∨
      ∃ rest, s.data = (CString s).data ++ Char.ofNat 0 :: rest) := by
  have h := takeWhile_notNul s.data
  unfold CString
  refine ⟨h.1, ?_⟩
  rcases h.2 with ⟨h1, h2⟩ | ⟨rest, h3⟩
  · exact Or.inl ⟨h1, by rw [h2]⟩
  · exact Or.inr ⟨rest, h3⟩

theorem map_CString_of_noNul (l : List String) (h : ∀ s ∈ l, Char.ofNat 0 ∉ s.data) :
    l.map CString = l := by
  induction l with
  | nil => rfl
  | cons x xs ih =>
    simp only [List.map_cons]
    rw [CString_of_noNul x (h x (List.mem_cons_self _ _)),
      ih (fun s hs => h s (List.mem_cons_of_mem _ hs))]

theorem createDeviceNvlists_shape (B : Backend) (devices : List String) :
    ∀ (acc : List NvList) (t : Trace) (l : List NvList),
      (createDeviceNvlists B devices acc t).1.1 = some l →
      l = acc ++ (devices.map CString).map diskLeaf ∧
        (createDeviceNvlists B devices acc t).1.2 = GoError.nil := by
  induction devices with
  | nil =>
    intro acc t l h
    simp only [createDeviceNvlists] at h
    simp only [createDeviceNvlists, List.map_nil, List.append_nil]
    exact ⟨(Option.some.inj h).symm, trivial⟩
  | cons device rest ih =>
    intro acc t l h
    simp only [createDeviceNvlists] at h ⊢
    cases hv : (go_create_vdev_nvlist B (CString "disk") (some (CString device)) t).1 with
    | none => simp [hv] at h
    | some nvl =>
      simp only [hv] at h ⊢
      have hs := go_create_vdev_nvlist_shape B (CString "disk") (CString device) t nvl hv
      rw [CString_disk] at hs
      obtain ⟨h1, h2⟩ := ih _ _ l h
      refine ⟨?_, h2⟩
      rw [h1, hs]
      simp [diskLeaf]

theorem createDeviceNvlists_ok (B : Backend) (hB : allocationsSucceed B)
    (devices : List String) :
    ∀ (acc : List NvList) (t : Trace),
      (createDeviceNvlists B devices acc t).1 =
        (some (acc ++ (devices.map CString).map diskLeaf), GoError.nil) := by
  induction devices with
  | nil => intro acc t; simp [createDeviceNvlists]
  | cons device rest ih =>
    intro acc t
    simp only [createDeviceNvlists]
    rw [go_create_vdev_nvlist_ok B hB]
    simp only []
    rw [ih]
    simp [diskLeaf, CString_disk]

theorem createMirrorVdev_shape (B : Backend) (devices : List String) (t t1 : Trace)
    (tree : NvList) (err : GoError)
    (h : libzfsDriver.createMirrorVdev B devices t = some ((some tree, err), t1)) :
    tree = vdevTree "mirror" (devices.map CString) ∧ err = GoError.nil := by
  unfold libzfsDriver.createMirrorVdev at h
  simp only [] at h
  cases hl : (createDeviceNvlists B devices [] t).1.1 with
  | none => simp [hl] at h
  | some l =>
    have hs := (createDeviceNvlists_shape B devices [] t l hl).1
    simp only [hl] at h
    cases l with
    | nil => simp at h
    | cons x xs =>
      simp only [Option.some.injEq, Prod.mk.injEq] at h
      obtain ⟨⟨h1, h2⟩, _⟩ := h
      have := go_create_mirror_vdev_shape B _ _ tree h1
      rw [this, hs]
      exact ⟨by simp [vdevTree], h2.symm⟩

theorem createRaidzVdev_shape (B : Backend) (devices : List String) (parity : Int)
    (type : String) (t t1 : Trace) (tree : NvList) (err : GoError)
    (hp : (parity = 1 ∧ type = "raidz") ∨ (parity = 2 ∧ type = "raidz2") ∨
      (parity = 3 ∧ type = "raidz3"))
    (h : libzfsDriver.createRaidzVdev B devices parity t = some ((some tree, err), t1)) :
    tree = vdevTree type (devices.map CString) ∧ err = GoError.nil := by
  unfold libzfsDriver.createRaidzVdev at h
  simp only [] at h
  cases hl : (createDeviceNvlists B devices [] t).1.1 with
  | none => simp [hl] at h
  | some l =>
    have hs := (createDeviceNvlists_shape B devices [] t l hl).1
    simp only [hl] at h
    cases l with
    | nil => simp at h
    | cons x xs =>
      simp only [Option.some.injEq, Prod.mk.injEq] at h
      obtain ⟨⟨h1, h2⟩, _⟩ := h
      have := go_create_raidz_vdev_shape B _ parity type _ tree hp h1
      rw [this, hs]
      exact ⟨by simp [vdevTree], h2.symm⟩

theorem createMirrorVdev_ok (B : Backend) (hB : allocationsSucceed B) (devices : List String)
    (hne : devices ≠ []) (t : Trace) :
    ∃ t1, libzfsDriver.createMirrorVdev B devices t =
      some ((some (vdevTree "mirror" (devices.map CString)), GoError.nil), t1) := by
  unfold libzfsDriver.createMirrorVdev
  simp only [createDeviceNvlists_ok B hB, List.nil_append]
  cases hd : (devices.map CString).map diskLeaf with
  | nil => simp at hd; exact absurd hd hne
  | cons x xs =>
    simp only [go_create_mirror_vdev_ok B hB]
    exact ⟨_, by rw [← hd]; rfl⟩

theorem createRaidzVdev_ok (B : Backend) (hB : allocationsSucceed B) (devices : List String)
    (parity : Int) (type : String)
    (hp : (parity = 1 ∧ type = "raidz") ∨ (parity = 2 ∧ type = "raidz2") ∨
      (parity = 3 ∧ type = "raidz3"))
    (hne : devices ≠ []) (t : Trace) :
    ∃ t1, libzfsDriver.createRaidzVdev B devices parity t =
      some ((some (vdevTree type (devices.map CString)), GoError.nil), t1) := by
  unfold libzfsDriver.createRaidzVdev
  simp only [createDeviceNvlists_ok B hB, List.nil_append]
  cases hd : (devices.map CString).map diskLeaf with
  | nil => simp at hd; exact absurd hd hne
  | cons x xs =>
    simp only [go_create_raidz_vdev_ok B hB _ parity type _ hp]
    exact ⟨_, by rw [← hd]; rfl⟩

/-- C12, amended: for a mirror of at least 2 devices, a raidz of at least 3, a raidz2 of at
least 4 or a raidz3 of at least 5, a tree the builder returns has the type of the
specification and a "children" array with one leaf of type "disk" per device, in the order of
the devices, whose path is the device as the C library reads it, that is cut at its first NUL
(the device itself when it holds none), and it comes with a nil error; when every allocation
and insertion succeeds the builder does return that tree. -/
theorem createComplexVdevNvlist_tree (B : Backend) (spec : VdevSpec) (t : Trace)
    (hvalid : validComposite spec) :
    (∀ (tree : NvList) (err : GoError) (t1 : Trace),
      libzfsDriver.createComplexVdevNvlist B spec t = some ((some tree, err), t1) →
        tree = vdevTree spec.Type_ (spec.Devices.map CString) ∧ err = GoError.nil) ∧
    (allocationsSucceed B → ∃ t1, libzfsDriver.createComplexVdevNvlist B spec t =
      some ((some (vdevTree spec.Type_ (spec.Devices.map CString)), GoError.nil), t1)) ∧
    (vdevTree spec.Type_ (spec.Devices.map CString)).strings = [("type", spec.Type_)] ∧
    (vdevTree spec.Type_ (spec.Devices.map CString)).arrays =
      [("children", (spec.Devices.map CString).map diskLeaf)] ∧
    ((spec.Devices.map CString).map diskLeaf).length = spec.Devices.length ∧
    (∀ i : Nat, ((spec.Devices.map CString).map diskLeaf)[i]? =
      (spec.Devices[i]?).map
        (fun device => NvList.mk [("type", "disk"), ("path", CString device)] [])) ∧
    (∀ device : String, Char.ofNat 0 ∉ (CString device).data ∧
      ((Char.ofNat 0 ∉ device.data ∧ CString device = device) ∨
        ∃ rest, device.data = (CString device).data ++ Char.ofNat 0 :: rest)) ∧
    ((∀ device ∈ spec.Devices, Char.ofNat 0 ∉ device.data) →
      vdevTree spec.Type_ (spec.Devices.map CString) = vdevTree spec.Type_ spec.Devices) := by
  refine ⟨?_, ?_, rfl, rfl, by simp,
    fun i => by rw [List.getElem?_map, List.getElem?_map]; cases spec.Devices[i]? <;> rfl,
    CString_spec, fun h => by rw [map_CString_of_noNul _ h]⟩
  · intro tree err t1 h
    unfold validComposite at hvalid
    unfold libzfsDriver.createComplexVdevNvlist at h
    simp only [VdevTypeDisk, VdevTypeMirror, VdevTypeRaidz, VdevTypeRaidz2, VdevTypeRaidz3] at h
    rcases hvalid with ⟨h1, h2⟩ | ⟨h1, h2⟩ | ⟨h1, h2⟩ | ⟨h1, h2⟩
    · simp only [h1] at h ⊢
      simp [show ¬ spec.Devices.length < 2 by omega] at h
      exact createMirrorVdev_shape B _ t t1 tree err h
    · simp only [h1] at h ⊢
      simp [show ¬ spec.Devices.length < 3 by omega] at h
      exact createRaidzVdev_shape B _ 1 "raidz" t t1 tree err (Or.inl ⟨rfl, rfl⟩) h
    · simp only [h1] at h ⊢
      simp [show ¬ spec.Devices.length < 4 by omega] at h
      exact createRaidzVdev_shape B _ 2 "raidz2" t t1 tree err (Or.inr (Or.inl ⟨rfl, rfl⟩)) h
    · simp only [h1] at h ⊢
      simp [show ¬ spec.Devices.length < 5 by omega] at h
      exact createRaidzVdev_shape B _ 3 "raidz3" t t1 tree err (Or.inr (Or.inr ⟨rfl, rfl⟩)) h
  · intro hB
    unfold validComposite at hvalid
    unfold libzfsDriver.createComplexVdevNvlist
    simp only [VdevTypeDisk, VdevTypeMirror, VdevTypeRaidz, VdevTypeRaidz2, VdevTypeRaidz3]
    rcases hvalid with ⟨h1, h2⟩ | ⟨h1, h2⟩ | ⟨h1, h2⟩ | ⟨h1, h2⟩
    · have hne : spec.Devices ≠ [] := by intro h0; simp [h0] at h2
      simp only [h1]
      simp [show ¬ spec.Devices.length < 2 by omega]
      exact createMirrorVdev_ok B hB _ hne t
    · have hne : spec.Devices ≠ [] := by intro h0; simp [h0] at h2
      simp only [h1]
      simp [show ¬ spec.Devices.length < 3 by omega]
      exact createRaidzVdev_ok B hB _ 1 "raidz" (Or.inl ⟨rfl, rfl⟩) hne t
    · have hne : spec.Devices ≠ [] := by intro h0; simp [h0] at h2
      simp only [h1]
      simp [show ¬ spec.Devices.length < 4 by omega]
      exact createRaidzVdev_ok B hB _ 2 "raidz2" (Or.inr (Or.inl ⟨rfl, rfl⟩)) hne t
    · have hne : spec.Devices ≠ [] := by intro h0; simp [h0] at h2
      simp only [h1]
      simp [show ¬ spec.Devices.length < 5 by omega]
      exact createRaidzVdev_ok B hB _ 3 "raidz3" (Or.inr (Or.inr ⟨rfl, rfl⟩)) hne t

/-! ## Pool creation -/

theorem createVdevRootLoop_shape (B : Backend) (nvroot : NvList) (vdevs : List String) :
    ∀ (acc : List NvList) (t : Trace) (l : List NvList),
      (createVdevRootLoop B nvroot vdevs acc t).1.1 = some l →
      l = acc ++ (vdevs.map CString).map diskLeaf ∧
        (createVdevRootLoop B nvroot vdevs acc t).1.2 = GoError.nil := by
  induction vdevs with
  | nil =>
    intro acc t l h
    simp only [createVdevRootLoop] at h
    simp only [createVdevRootLoop, List.map_nil, List.append_nil]
    exact ⟨(Option.some.inj h).symm, trivial⟩
  | cons vdev rest ih =>
    intro acc t l h
    simp only [createVdevRootLoop, libzfsDriver.createVdevNvlist, VdevTypeDisk] at h ⊢
    cases hv : (go_create_vdev_nvlist B (CString "disk") (some (CString vdev)) t).1 with
    | none => simp [hv] at h
    | some nvl =>
      simp only [hv] at h ⊢
      have hs := go_create_vdev_nvlist_shape B (CString "disk") (CString vdev) t nvl hv
      rw [CString_disk] at hs
      obtain ⟨h1, h2⟩ := ih _ _ l h
      refine ⟨?_, h2⟩
      rw [h1, hs]
      simp [diskLeaf]

theorem createVdevRootLoop_ok (B : Backend) (hB : allocationsSucceed B) (nvroot : NvList)
    (vdevs : List String) :
    ∀ (acc : List NvList) (t : Trace),
      (createVdevRootLoop B nvroot vdevs acc t).1 =
        (some (acc ++ (vdevs.map CString).map diskLeaf), GoError.nil) := by
  induction vdevs with
  | nil => intro acc t; simp [createVdevRootLoop]
  | cons vdev rest ih =>
    intro acc t
    simp only [createVdevRootLoop, libzfsDriver.createVdevNvlist, VdevTypeDisk]
    rw [go_create_vdev_nvlist_ok B hB]
    simp only []
    rw [ih]
    simp [diskLeaf, CString_disk]

theorem go_nvlist_alloc_shape (B : Backend) (t : Trace) (v : NvList)
    (h : (go_nvlist_alloc B t).1 = some v) : v = NvList.mk [] [] := by
  unfold go_nvlist_alloc nvlist_alloc callInt at h
  simp only [] at h
  by_cases h0 : B.int t Call.nvlist_alloc = 0
  · simp [h0] at h
    exact h.symm
  · simp [h0] at h

theorem go_nvlist_alloc_ok (B : Backend) (hB : allocationsSucceed B) (t : Trace) :
    (go_nvlist_alloc B t).1 = some (NvList.mk [] []) := by
  unfold go_nvlist_alloc nvlist_alloc callInt
  simp [hB _ _, Call.isNvlistBuild]

theorem go_nvlist_add_string_tree (B : Backend) (nvl : NvList) (name val : String) (t : Trace)
    (h : (go_nvlist_add_string B nvl name val t).1.1 = 0) :
    (go_nvlist_add_string B nvl name val t).1.2 =
      NvList.mk (nvl.strings.filter (fun kv => kv.1 ≠ name) ++ [(name, val)])
        (nvl.arrays.filter (fun kv => kv.1 ≠ name)) := by
  unfold go_nvlist_add_string nvlist_add_string callInt at h ⊢
  simp only [] at h ⊢
  simp [h]

theorem go_nvlist_add_nvlist_array_tree (B : Backend) (nvl : NvList) (name : String)
    (val : List NvList) (t : Trace)
    (h : (go_nvlist_add_nvlist_array B nvl name val t).1.1 = 0) :
    (go_nvlist_add_nvlist_array B nvl name val t).1.2 =
      NvList.mk (nvl.strings.filter (fun kv => kv.1 ≠ name))
        (nvl.arrays.filter (fun kv => kv.1 ≠ name) ++ [(name, val)]) := by
  unfold go_nvlist_add_nvlist_array nvlist_add_nvlist_array callInt at h ⊢
  simp only [] at h ⊢
  simp [h]

theorem go_nvlist_add_string_ok (B : Backend) (hB : allocationsSucceed B) (nvl : NvList)
    (name val : String) (t : Trace) : (go_nvlist_add_string B nvl name val t).1.1 = 0 := by
  unfold go_nvlist_add_string nvlist_add_string callInt
  simp [hB _ _, Call.isNvlistBuild]

theorem go_nvlist_add_nvlist_array_ok (B : Backend) (hB : allocationsSucceed B) (nvl : NvList)
    (name : String) (val : List NvList) (t : Trace) :
    (go_nvlist_add_nvlist_array B nvl name val t).1.1 = 0 := by
  unfold go_nvlist_add_nvlist_array nvlist_add_nvlist_array callInt
  simp [hB _ _, Call.isNvlistBuild]

theorem createVdevRoot_shape (B : Backend) (vdevs : List String) (t t1 : Trace)
    (root : NvList) (vdevList : List NvList) (err : GoError)
    (h : libzfsDriver.createVdevRoot B vdevs t = some ((some root, vdevList, err), t1)) :
    root = vdevTree "root" (vdevs.map CString) ∧
      vdevList = (vdevs.map CString).map diskLeaf ∧ err = GoError.nil := by
  unfold libzfsDriver.createVdevRoot at h
  simp only [] at h
  cases ha : (go_nvlist_alloc B t).1 with
  | none => simp [ha] at h
  | some nvroot =>
    have hroot := go_nvlist_alloc_shape B t nvroot ha
    subst hroot
    simp only [ha, VdevTypeRoot] at h
    by_cases hs : (go_nvlist_add_string B (NvList.mk [] []) "type" "root"
        (go_nvlist_alloc B t).2).1.1 = 0
    · have hst := go_nvlist_add_string_tree B _ _ _ _ hs
      simp only [hs, ne_eq, not_true_eq_false, if_false] at h
      cases hl : (createVdevRootLoop B
          (go_nvlist_add_string B (NvList.mk [] []) "type" "root" (go_nvlist_alloc B t).2).1.2
          vdevs [] (go_nvlist_add_string B (NvList.mk [] []) "type" "root"
            (go_nvlist_alloc B t).2).2).1.1 with
      | none => simp [hl] at h
      | some l =>
        have hshape := (createVdevRootLoop_shape B _ vdevs [] _ l hl).1
        simp only [List.nil_append] at hshape
        simp only [hl] at h
        cases l with
        | nil => simp at h
        | cons x xs =>
          simp only [] at h
          split at h
          · simp at h
          · rename_i hr
            have hr2 := not_not.mp hr
            have hrt := go_nvlist_add_nvlist_array_tree B _ _ _ _ hr2
            simp only [Option.some.injEq, Prod.mk.injEq] at h
            obtain ⟨⟨h1, h2, h3⟩, _⟩ := h
            refine ⟨?_, ?_, h3.symm⟩
            · rw [← h1, hrt, hst, hshape]
              simp [vdevTree, NvList.strings, NvList.arrays]
            · rw [← h2, hshape]
    · simp [hs] at h

theorem createVdevRoot_isSome (B : Backend) (vdevs : List String) (t : Trace)
    (hne : vdevs ≠ []) : (libzfsDriver.createVdevRoot B vdevs t).isSome = true := by
  unfold libzfsDriver.createVdevRoot
  simp only []
  cases ha : (go_nvlist_alloc B t).1 with
  | none => simp
  | some nvroot =>
    simp only []
    split
    · simp
    · cases hl : (createVdevRootLoop B
          (go_nvlist_add_string B nvroot "type" VdevTypeRoot (go_nvlist_alloc B t).2).1.2
          vdevs [] (go_nvlist_add_string B nvroot "type" VdevTypeRoot
            (go_nvlist_alloc B t).2).2).1.1 with
      | none => simp
      | some l =>
        have hshape := (createVdevRootLoop_shape B _ vdevs [] _ l hl).1
        simp only [List.nil_append] at hshape
        cases l with
        | nil =>
          simp at hshape
          exact absurd hshape hne
        | cons x xs =>
          simp only []
          split <;> simp

theorem createVdevRoot_ok (B : Backend) (hB : allocationsSucceed B) (vdevs : List String)
    (hne : vdevs ≠ []) (t : Trace) :
    ∃ t1, libzfsDriver.createVdevRoot B vdevs t =
      some ((some (vdevTree "root" (vdevs.map CString)), (vdevs.map CString).map diskLeaf,
        GoError.nil), t1) := by
  have hsome := createVdevRoot_isSome B vdevs t hne
  unfold libzfsDriver.createVdevRoot at hsome ⊢
  simp only [go_nvlist_alloc_ok B hB, go_nvlist_add_string_ok B hB, ne_eq, not_true_eq_false,
    if_false, createVdevRootLoop_ok B hB, List.nil_append,
    go_nvlist_add_nvlist_array_ok B hB] at hsome ⊢
  cases hd : (vdevs.map CString).map diskLeaf with
  | nil => simp at hd; exact absurd hd hne
  | cons x xs =>
    simp only []
    rw [go_nvlist_add_nvlist_array_tree B _ _ _ _ (go_nvlist_add_nvlist_array_ok B hB _ _ _ _),
      go_nvlist_add_string_tree B _ _ _ _ (go_nvlist_add_string_ok B hB _ _ _ _)]
    simp [vdevTree, NvList.strings, NvList.arrays, VdevTypeRoot]
    rw [← List.map_map]
    exact hd.symm

theorem createVdevRoot_nil_panics (B : Backend) (hB : allocationsSucceed B) (t : Trace) :
    libzfsDriver.createVdevRoot B [] t = none := by
  unfold libzfsDriver.createVdevRoot
  simp [go_nvlist_alloc_ok B hB, go_nvlist_add_string_ok B hB, createVdevRootLoop]

theorem CreatePool_isSome (B : Backend) (d : libzfsDriver) (poolName : String)
    (vdevs : List String) (opts : driver.CreateOptions) (t : Trace) :
    (d.CreatePool B poolName vdevs opts t).isSome = true := by
  unfold libzfsDriver.CreatePool
  cases d.h with
  | none => simp
  | some h =>
    simp only []
    by_cases hv : vdevs.length = 0
    · simp [hv]
    · have hne : vdevs ≠ [] := by intro h0; simp [h0] at hv
      have hsome := createVdevRoot_isSome B vdevs t hne
      simp only [hv, if_false]
      cases hr : libzfsDriver.createVdevRoot B vdevs t with
      | none => simp [hr] at hsome
      | some v =>
        simp only []
        split
        · simp
        · split
          · simp
          · split
            · simp
            · split <;> simp

theorem mem_freeNvlist (c : Call) (nvl : Option NvList) (t : Trace) (h : c ∈ t) :
    c ∈ libzfsDriver.freeNvlist nvl t := by
  cases nvl with
  | none => exact h
  | some l => simp [libzfsDriver.freeNvlist, go_nvlist_free, callVoid, h]

theorem mem_freeNvlists (c : Call) (l : List NvList) :
    ∀ t : Trace, c ∈ t → c ∈ freeNvlists l t := by
  induction l with
  | nil => intro t h; exact h
  | cons x xs ih =>
    intro t h
    simp only [freeNvlists, List.foldl_cons]
    exact ih _ (mem_freeNvlist c (some x) t h)

theorem mem_libzfsFailure (B : Backend) (c : Call) (what : String) (t : Trace) (h : c ∈ t) :
    c ∈ (libzfsFailure B what t).2 := by
  simp [libzfsFailure, go_libzfs_errno, go_libzfs_error_description, callInt, callStr, h]

theorem createPropsNvlistLoop_ok (B : Backend) (hB : allocationsSucceed B)
    (props : List (String × String)) :
    ∀ (nvl : NvList) (t : Trace), (createPropsNvlistLoop B props nvl t).1.2 = GoError.nil := by
  induction props with
  | nil => intro nvl t; rfl
  | cons kv rest ih =>
    intro nvl t
    obtain ⟨key, value⟩ := kv
    simp only [createPropsNvlistLoop, go_nvlist_add_string_ok B hB, ne_eq, not_true_eq_false,
      if_false]
    exact ih _ _

theorem createPropsNvlist_ok (B : Backend) (hB : allocationsSucceed B) (props : GoMap String)
    (t : Trace) : (libzfsDriver.createPropsNvlist B props t).1.2 = GoError.nil := by
  unfold libzfsDriver.createPropsNvlist
  split
  · rfl
  · simp only [go_nvlist_alloc_ok B hB]
    exact createPropsNvlistLoop_ok B hB _ _ _

/-- C13, amended: with an empty device list the pool client and the driver both return an
error and make no library call, and pool creation never panics, so the root builder, whose
access to the first child would be out of bounds on an empty list, never sees one; for a
non-empty list a root tree the builder returns has type "root" and one leaf of type "disk"
per path, in order, whose path is the given path as the C library reads it, that is cut at
its first NUL (the path itself when it holds none), and when every allocation succeeds it is
built and passed to `zpool_create` with the pool name read the same way. -/
theorem CreatePool_requires_device (B : Backend) (d : libzfsDriver) (c : zpool.Client)
    (poolName : String) (vdevs : List String) (opts : driver.CreateOptions)
    (copts : zpool.CreateOptions) (t : Trace) (hne : vdevs ≠ []) :
    (∃ err, c.Create B poolName [] copts t = some (err, t) ∧ err ≠ GoError.nil) ∧
    (∃ err, d.CreatePool B poolName [] opts t = some (err, t) ∧ err ≠ GoError.nil) ∧
    (∀ devices, (d.CreatePool B poolName devices opts t).isSome = true ∧
      (c.Create B poolName devices copts t).isSome = true) ∧
    (allocationsSucceed B → libzfsDriver.createVdevRoot B [] t = none) ∧
    (∀ (root : NvList) (vdevList : List NvList) (err : GoError) (t1 : Trace),
      libzfsDriver.createVdevRoot B vdevs t = some ((some root, vdevList, err), t1) →
        root = vdevTree "root" (vdevs.map CString) ∧
        vdevList = (vdevs.map CString).map diskLeaf ∧ err = GoError.nil) ∧
    (allocationsSucceed B → ∃ t1, libzfsDriver.createVdevRoot B vdevs t =
      some ((some (vdevTree "root" (vdevs.map CString)), (vdevs.map CString).map diskLeaf,
        GoError.nil), t1)) ∧
    (allocationsSucceed B → d.h ≠ none → ∃ err t1 props fsprops,
      d.CreatePool B poolName vdevs opts t = some (err, t1) ∧
      Call.zpool_create (CString poolName) (some (vdevTree "root" (vdevs.map CString))) props
        fsprops ∈ t1) ∧
    (vdevTree "root" (vdevs.map CString)).strings = [("type", "root")] ∧
    (vdevTree "root" (vdevs.map CString)).arrays =
      [("children", (vdevs.map CString).map diskLeaf)] ∧
    (∀ i : Nat, ((vdevs.map CString).map diskLeaf)[i]? =
      (vdevs[i]?).map (fun path => NvList.mk [("type", "disk"), ("path", CString path)] [])) ∧
    (∀ path : String, Char.ofNat 0 ∉ (CString path).data ∧
      ((Char.ofNat 0 ∉ path.data ∧ CString path = path) ∨
        ∃ rest, path.data = (CString path).data ++ Char.ofNat 0 :: rest)) ∧
    ((∀ path ∈ vdevs, Char.ofNat 0 ∉ path.data) →
      vdevTree "root" (vdevs.map CString) = vdevTree "root" vdevs) := by
  refine ⟨?_, ?_, ?_, fun hB => createVdevRoot_nil_panics B hB t, ?_, ?_, ?_, rfl, rfl,
    fun i => by rw [List.getElem?_map, List.getElem?_map]; cases vdevs[i]? <;> rfl,
    CString_spec, fun h => by rw [map_CString_of_noNul _ h]⟩
  · cases hc : c.d with
    | none =>
      exact ⟨errorf "client is closed", by simp [zpool.Client.Create, hc], by simp [errorf]⟩
    | some d0 =>
      exact ⟨errorf "at least one vdev is required", by simp [zpool.Client.Create, hc],
        by simp [errorf]⟩
  · cases hd : d.h with
    | none =>
      exact ⟨errorf "driver closed", by simp [libzfsDriver.CreatePool, hd], by simp [errorf]⟩
    | some h0 =>
      exact ⟨errorf "at least one vdev is required to create a pool",
        by simp [libzfsDriver.CreatePool, hd], by simp [errorf]⟩
  · intro devices
    refine ⟨CreatePool_isSome B d poolName devices opts t, ?_⟩
    unfold zpool.Client.Create
    cases c.d with
    | none => simp
    | some d0 =>
      simp only []
      split
      · simp
      · exact CreatePool_isSome B d0 poolName devices _ t
  · intro root vdevList err t1 h
    exact createVdevRoot_shape B vdevs t t1 root vdevList err h
  · intro hB
    exact createVdevRoot_ok B hB vdevs hne t
  · intro hB hlive
    obtain ⟨t1, h1⟩ := createVdevRoot_ok B hB vdevs hne t
    have hlen : vdevs.length ≠ 0 := by
      intro h0
      exact hne (List.length_eq_zero.mp h0)
    cases hh : d.h with
    | none => exact absurd hh hlive
    | some h0 =>
      unfold libzfsDriver.CreatePool
      simp only [hh, hlen, if_false, h1, ne_eq, not_true_eq_false, createPropsNvlist_ok B hB]
      split
      · refine ⟨_, _, (libzfsDriver.createPropsNvlist B opts.Properties t1).1.1,
          (libzfsDriver.createPropsNvlist B opts.FsProperties
            (libzfsDriver.createPropsNvlist B opts.Properties t1).2).1.1, rfl, ?_⟩
        apply mem_freeNvlist
        apply mem_freeNvlist
        apply mem_freeNvlist
        apply mem_libzfsFailure
        apply mem_freeNvlists
        simp [callInt]
      · refine ⟨_, _, (libzfsDriver.createPropsNvlist B opts.Properties t1).1.1,
          (libzfsDriver.createPropsNvlist B opts.FsProperties
            (libzfsDriver.createPropsNvlist B opts.Properties t1).2).1.1, rfl, ?_⟩
        apply mem_freeNvlist
        apply mem_freeNvlist
        apply mem_freeNvlist
        apply mem_freeNvlists
        simp [callInt]

/-- C12, as the claim states it, fails: the mirror of the devices "/dev/da0\x00x" and
"/dev/da1" is a valid composite and every allocation succeeds, yet the first leaf of the tree
built has the path "/dev/da0", which is not the first device: the C library reads the device
up to its first NUL. -/
theorem createComplexVdevNvlist_path_cut :
    validComposite { Type_ := "mirror", Devices := ["/dev/da0\x00x", "/dev/da1"] } ∧
    allocationsSucceed sampleBackend ∧
    (libzfsDriver.createComplexVdevNvlist sampleBackend
        { Type_ := "mirror", Devices := ["/dev/da0\x00x", "/dev/da1"] } []).map (fun r => r.1) =
      some (some (NvList.mk [("type", "mirror")]
        [("children", [NvList.mk [("type", "disk"), ("path", "/dev/da0")] [],
          NvList.mk [("type", "disk"), ("path", "/dev/da1")] []])]), GoError.nil) ∧
    "/dev/da0" ≠ "/dev/da0\x00x" ∧
    (libzfsDriver.createComplexVdevNvlist sampleBackend
        { Type_ := "mirror", Devices := ["/dev/da0\x00x", "/dev/da1"] } []).map (fun r => r.1) ≠
      some (some (vdevTree "mirror" ["/dev/da0\x00x", "/dev/da1"]), GoError.nil) :=
  ⟨Or.inl ⟨rfl, by decide⟩, fun _ _ _ => rfl, rfl, by decide, by
    intro h
    have h2 : (NvList.mk [("type", "mirror")]
        [("children", [NvList.mk [("type", "disk"), ("path", "/dev/da0")] [],
          NvList.mk [("type", "disk"), ("path", "/dev/da1")] []])]) =
        vdevTree "mirror" ["/dev/da0\x00x", "/dev/da1"] :=
      Option.some.inj (congrArg Prod.fst (Option.some.inj h))
    simp [vdevTree, diskLeaf] at h2⟩

/-- C12, amended, on a mirror of two devices and on a mirror whose first device holds a NUL,
with a library whose allocations succeed. -/
theorem createComplexVdevNvlist_tree_witness :
    validComposite { Type_ := "mirror", Devices := ["/dev/da0", "/dev/da1"] } ∧
    allocationsSucceed sampleBackend ∧
    (libzfsDriver.createComplexVdevNvlist sampleBackend
        { Type_ := "mirror", Devices := ["/dev/da0", "/dev/da1"] } []).map (fun r => r.1) =
      some (some (NvList.mk [("type", "mirror")]
        [("children", [NvList.mk [("type", "disk"), ("path", "/dev/da0")] [],
          NvList.mk [("type", "disk"), ("path", "/dev/da1")] []])]), GoError.nil) ∧
    (∃ t1, libzfsDriver.createComplexVdevNvlist sampleBackend
        { Type_ := "mirror", Devices := ["/dev/da0", "/dev/da1"] } [] =
      some ((some (vdevTree "mirror" ["/dev/da0", "/dev/da1"]), GoError.nil), t1)) ∧
    ["/dev/da0\x00x", "/dev/da1"].map CString = ["/dev/da0", "/dev/da1"] ∧
    ∃ t1, libzfsDriver.createComplexVdevNvlist sampleBackend
        { Type_ := "mirror", Devices := ["/dev/da0\x00x", "/dev/da1"] } [] =
      some ((some (vdevTree "mirror" ["/dev/da0", "/dev/da1"]), GoError.nil), t1) :=
  ⟨Or.inl ⟨rfl, by decide⟩, fun _ _ _ => rfl, rfl,
    (createComplexVdevNvlist_tree sampleBackend
      { Type_ := "mirror", Devices := ["/dev/da0", "/dev/da1"] } []
      (Or.inl ⟨rfl, by decide⟩)).2.1 (fun _ _ _ => rfl), by decide,
    (createComplexVdevNvlist_tree sampleBackend
      { Type_ := "mirror", Devices := ["/dev/da0\x00x", "/dev/da1"] } []
      (Or.inl ⟨rfl, by decide⟩)).2.1 (fun _ _ _ => rfl)⟩

/-- C13, as the claim states it, fails: for the one path "/dev/da0\x00x" every allocation
succeeds and the root tree is built, yet its child has the path "/dev/da0", which is not the
path given: the C library reads the path up to its first NUL. Pool creation with that path
passes this tree to `zpool_create`. -/
theorem createVdevRoot_path_cut :
    ["/dev/da0\x00x"] ≠ ([] : List String) ∧
    allocationsSucceed sampleBackend ∧
    (libzfsDriver.createVdevRoot sampleBackend ["/dev/da0\x00x"] []).map (fun r => r.1) =
      some (some (NvList.mk [("type", "root")]
        [("children", [NvList.mk [("type", "disk"), ("path", "/dev/da0")] []])]),
        [NvList.mk [("type", "disk"), ("path", "/dev/da0")] []], GoError.nil) ∧
    "/dev/da0" ≠ "/dev/da0\x00x" ∧
    (libzfsDriver.createVdevRoot sampleBackend ["/dev/da0\x00x"] []).map (fun r => r.1.1) ≠
      some (some (vdevTree "root" ["/dev/da0\x00x"])) ∧
    liveDriver.CreatePool sampleBackend "tank" ["/dev/da0\x00x"]
        { Properties := [], FsProperties := [], AltRoot := "", Force := false } [] =
      some (GoError.nil,
        [Call.nvlist_alloc,
          Call.nvlist_add_string (NvList.mk [] []) "type" "root",
          Call.nvlist_alloc,
          Call.nvlist_add_string (NvList.mk [] []) "type" "disk",
          Call.nvlist_add_string (NvList.mk [("type", "disk")] []) "path" "/dev/da0",
          Call.nvlist_add_nvlist_array (NvList.mk [("type", "root")] []) "children"
            [NvList.mk [("type", "disk"), ("path", "/dev/da0")] []],
          Call.zpool_create "tank"
            (some (NvList.mk [("type", "root")]
              [("children", [NvList.mk [("type", "disk"), ("path", "/dev/da0")] []])]))
            none none,
          Call.nvlist_free (NvList.mk [("type", "disk"), ("path", "/dev/da0")] []),
          Call.nvlist_free (NvList.mk [("type", "root")]
            [("children", [NvList.mk [("type", "disk"), ("path", "/dev/da0")] []])])]) :=
  ⟨by decide, fun _ _ _ => rfl, rfl, by decide, by
    intro h
    have h2 : (NvList.mk [("type", "root")]
        [("children", [NvList.mk [("type", "disk"), ("path", "/dev/da0")] []])]) =
        vdevTree "root" ["/dev/da0\x00x"] :=
      Option.some.inj (Option.some.inj h)
    simp [vdevTree, diskLeaf] at h2, rfl⟩

/-- C13, amended, on two devices with a library whose allocations succeed, on no device, and
on a path and a pool name that hold a NUL. -/
theorem CreatePool_requires_device_witness :
    ["/dev/da0", "/dev/da1"] ≠ ([] : List String) ∧
    zpool.Client.Create sampleBackend { d := some liveDriver } "tank" []
        { Properties := [], FsProperties := [], AltRoot := "", Force := false } [] =
      some (errorf "at least one vdev is required", []) ∧
    liveDriver.CreatePool sampleBackend "tank" []
        { Properties := [], FsProperties := [], AltRoot := "", Force := false } [] =
      some (errorf "at least one vdev is required to create a pool", []) ∧
    (∃ t1, libzfsDriver.createVdevRoot sampleBackend ["/dev/da0", "/dev/da1"] [] =
      some ((some (vdevTree "root" ["/dev/da0", "/dev/da1"]),
        ["/dev/da0", "/dev/da1"].map diskLeaf, GoError.nil), t1)) ∧
    (∃ err t1 props fsprops,
      liveDriver.CreatePool sampleBackend "tank" ["/dev/da0", "/dev/da1"]
        { Properties := [], FsProperties := [], AltRoot := "", Force := false } [] =
          some (err, t1) ∧
      Call.zpool_create "tank" (some (vdevTree "root" ["/dev/da0", "/dev/da1"])) props fsprops
        ∈ t1) ∧
    ∃ err t1 props fsprops,
      liveDriver.CreatePool sampleBackend "tank\x00k" ["/dev/da0\x00x"]
        { Properties := [], FsProperties := [], AltRoot := "", Force := false } [] =
          some (err, t1) ∧
      Call.zpool_create "tank" (some (vdevTree "root" ["/dev/da0"])) props fsprops ∈ t1 :=
  have h := CreatePool_requires_device sampleBackend liveDriver { d := some liveDriver } "tank"
    ["/dev/da0", "/dev/da1"]
    { Properties := [], FsProperties := [], AltRoot := "", Force := false }
    { Properties := [], FsProperties := [], AltRoot := "", Force := false } [] (by decide)
  ⟨by decide, rfl, rfl, h.2.2.2.2.2.1 (fun _ _ _ => rfl),
    h.2.2.2.2.2.2.1 (fun _ _ _ => rfl) (by decide),
    (CreatePool_requires_device sampleBackend liveDriver { d := some liveDriver } "tank\x00k"
      ["/dev/da0\x00x"]
      { Properties := [], FsProperties := [], AltRoot := "", Force := false }
      { Properties := [], FsProperties := [], AltRoot := "", Force := false } []
      (by decide)).2.2.2.2.2.2.1 (fun _ _ _ => rfl) (by decide)⟩

/-! ## The walker -/

theorem iterate_hoare {α σ : Type} (cb : α → σ → Int × σ) (Pre : σ → Prop)
    (Post : Int × σ → Prop) (hcb : ∀ n s, Pre s → Post (cb n s))
    (hzero : ∀ r s, Post (r, s) → r = 0 → Pre s) (hret : ∀ ret s, Pre s → Post (ret, s))
    (l : List α) :
    ∀ (ret : Int) (s : σ) (t : Trace), Pre s → Post (iterate (pureCallback cb) l ret s t).1 := by
  induction l with
  | nil => intro ret s t hs; exact hret ret s hs
  | cons x xs ih =>
    intro ret s t hs
    simp only [iterate, pureCallback]
    split
    · exact hcb x s hs
    · rename_i hr
      have h0 : (cb x s).1 = 0 := not_not.mp hr
      apply ih
      apply hzero (cb x s).1 (cb x s).2 _ h0
      exact hcb x s hs

theorem comprehensive_iter_hoare {σ : Type} (cb : ZfsNode → σ → Int × σ) (Pre : σ → Prop)
    (Post : Int × σ → Prop) (hcb : ∀ n s, Pre s → Post (cb n s))
    (hzero : ∀ r s, Post (r, s) → r = 0 → Pre s) (hret : ∀ ret s, Pre s → Post (ret, s))
    (n : ZfsNode) :
    ∀ (s : σ) (t : Trace), Pre s → Post (comprehensive_iter_func cb n s t).1 := by
  refine ZfsNode.rec
    (motive_1 := fun n => ∀ (s : σ) (t : Trace), Pre s →
      Post (comprehensive_iter_func cb n s t).1)
    (motive_2 := fun l => ∀ (ret : Int) (s : σ) (t : Trace), Pre s →
      Post (comprehensive_iter_children cb l ret s t).1)
    ?_ ?_ ?_ n
  · intro name type guid children childrenRet snapshots snapshotsRet ihc _ s t hs
    rw [comprehensive_iter_func]
    have hr := hcb (ZfsNode.mk name type guid children childrenRet snapshots snapshotsRet) s hs
    split
    · exact hr
    · rename_i h0
      have hp := hzero _ _ hr (not_not.mp h0)
      split
      · have hc := ihc childrenRet _ (t ++ [Call.zfs_iter_children name]) hp
        simp only []
        split
        · exact hc
        · rename_i h1
          have hpc := hzero _ _ hc (not_not.mp h1)
          have hsn := iterate_hoare cb Pre Post hcb hzero hret snapshots snapshotsRet _
            ((comprehensive_iter_children cb children childrenRet
              (cb (ZfsNode.mk name type guid children childrenRet snapshots snapshotsRet) s).2
              (t ++ [Call.zfs_iter_children name])).2 ++ [Call.zfs_iter_snapshots name]) hpc
          simp only [zfs_iter_snapshots]
          split
          · exact hsn
          · rename_i h2
            exact hret 0 _ (hzero _ _ hsn (not_not.mp h2))
      · exact hret 0 _ hp
  · intro ret s t hs
    rw [comprehensive_iter_children]
    exact hret ret s hs
  · intro head tail ihh iht ret s t hs
    rw [comprehensive_iter_children]
    split
    · exact ihh s t hs
    · rename_i hr
      have h0 := not_not.mp hr
      apply iht
      exact hzero _ _ (ihh s t hs) h0

theorem comprehensive_iter_children_hoare {σ : Type} (cb : ZfsNode → σ → Int × σ)
    (Pre : σ → Prop) (Post : Int × σ → Prop) (hcb : ∀ n s, Pre s → Post (cb n s))
    (hzero : ∀ r s, Post (r, s) → r = 0 → Pre s) (hret : ∀ ret s, Pre s → Post (ret, s))
    (l : List ZfsNode) :
    ∀ (ret : Int) (s : σ) (t : Trace), Pre s →
      Post (comprehensive_iter_children cb l ret s t).1 := by
  induction l with
  | nil =>
    intro ret s t hs
    rw [comprehensive_iter_children]
    exact hret ret s hs
  | cons x xs ih =>
    intro ret s t hs
    rw [comprehensive_iter_children]
    have hx := comprehensive_iter_hoare cb Pre Post hcb hzero hret x s t hs
    split
    · exact hx
    · rename_i hr
      exact ih _ _ _ (hzero _ _ hx (not_not.mp hr))

theorem iterate_simulation {α σ1 σ2 : Type} (cb1 : α → σ1 → Int × σ1)
    (cb2 : α → σ2 → Int × σ2) (rel : σ1 → σ2 → Prop)
    (hcb : ∀ n s1 s2, rel s1 s2 → (cb1 n s1).1 = (cb2 n s2).1 ∧ rel (cb1 n s1).2 (cb2 n s2).2)
    (l : List α) :
    ∀ (ret : Int) (s1 : σ1) (s2 : σ2) (t : Trace), rel s1 s2 →
      (iterate (pureCallback cb1) l ret s1 t).1.1 = (iterate (pureCallback cb2) l ret s2 t).1.1 ∧
      rel (iterate (pureCallback cb1) l ret s1 t).1.2 (iterate (pureCallback cb2) l ret s2 t).1.2 ∧
      (iterate (pureCallback cb1) l ret s1 t).2 = (iterate (pureCallback cb2) l ret s2 t).2 := by
  induction l with
  | nil => intro ret s1 s2 t h; exact ⟨rfl, h, rfl⟩
  | cons x xs ih =>
    intro ret s1 s2 t h
    obtain ⟨h1, h2⟩ := hcb x s1 s2 h
    simp only [iterate, pureCallback]
    by_cases hz : (cb1 x s1).1 = 0
    · have hz2 : (cb2 x s2).1 = 0 := h1 ▸ hz
      simp only [hz, hz2, ne_eq, not_true_eq_false, if_false]
      exact ih ret _ _ t h2
    · have hz2 : ¬ (cb2 x s2).1 = 0 := h1 ▸ hz
      simp only [hz, hz2, ne_eq, not_false_eq_true, if_true]
      exact ⟨h1, h2, trivial⟩

theorem iterate_simulates {α σ1 σ2 : Type} (cb1 : α → σ1 → Int × σ1)
    (cb2 : α → σ2 → Int × σ2) (rel : σ1 → σ2 → Prop)
    (hcb : ∀ n s1 s2, rel s1 s2 → (cb1 n s1).1 = (cb2 n s2).1 ∧ rel (cb1 n s1).2 (cb2 n s2).2)
    (l : List α) (ret : Int) (s1 : σ1) (s2 : σ2) (t : Trace) (h : rel s1 s2) :
    simulates rel (iterate (pureCallback cb1) l ret s1 t) (iterate (pureCallback cb2) l ret s2 t) :=
  iterate_simulation cb1 cb2 rel hcb l ret s1 s2 t h

theorem simulates_of_eq {σ1 σ2 : Type} (rel : σ1 → σ2 → Prop) (a : (Int × σ1) × Trace)
    (b : (Int × σ2) × Trace) (h1 : a.1.1 = b.1.1) (h2 : rel a.1.2 b.1.2) (h3 : a.2 = b.2) :
    simulates rel a b := ⟨h1, h2, h3⟩

theorem comprehensive_iter_simulation {σ1 σ2 : Type} (cb1 : ZfsNode → σ1 → Int × σ1)
    (cb2 : ZfsNode → σ2 → Int × σ2) (rel : σ1 → σ2 → Prop)
    (hcb : ∀ n s1 s2, rel s1 s2 → (cb1 n s1).1 = (cb2 n s2).1 ∧ rel (cb1 n s1).2 (cb2 n s2).2)
    (n : ZfsNode) :
    ∀ (s1 : σ1) (s2 : σ2) (t : Trace), rel s1 s2 →
      simulates rel (comprehensive_iter_func cb1 n s1 t) (comprehensive_iter_func cb2 n s2 t) := by
  refine ZfsNode.rec
    (motive_1 := fun n => ∀ (s1 : σ1) (s2 : σ2) (t : Trace), rel s1 s2 →
      simulates rel (comprehensive_iter_func cb1 n s1 t) (comprehensive_iter_func cb2 n s2 t))
    (motive_2 := fun l => ∀ (ret : Int) (s1 : σ1) (s2 : σ2) (t : Trace), rel s1 s2 →
      simulates rel (comprehensive_iter_children cb1 l ret s1 t)
        (comprehensive_iter_children cb2 l ret s2 t))
    ?_ ?_ ?_ n
  · intro name type guid children childrenRet snapshots snapshotsRet ihc _ s1 s2 t h
    obtain ⟨h1, h2⟩ :=
      hcb (ZfsNode.mk name type guid children childrenRet snapshots snapshotsRet) s1 s2 h
    rw [comprehensive_iter_func, comprehensive_iter_func]
    simp only []
    rw [← h1]
    by_cases hz :
        (cb1 (ZfsNode.mk name type guid children childrenRet snapshots snapshotsRet) s1).1 = 0
    · rw [if_neg (not_not.mpr hz), if_neg (not_not.mpr hz)]
      by_cases hty : type = ZFS_TYPE_SNAPSHOT
      · rw [if_neg (not_not.mpr hty), if_neg (not_not.mpr hty)]
        exact ⟨rfl, h2, rfl⟩
      · rw [if_pos hty, if_pos hty]
        obtain ⟨c1, c2, c3⟩ := ihc childrenRet _ _ (t ++ [Call.zfs_iter_children name]) h2
        rw [← c1, ← c3]
        by_cases hcz : (comprehensive_iter_children cb1 children childrenRet
            (cb1 (ZfsNode.mk name type guid children childrenRet snapshots snapshotsRet) s1).2
            (t ++ [Call.zfs_iter_children name])).1.1 = 0
        · rw [if_neg (not_not.mpr hcz), if_neg (not_not.mpr hcz)]
          simp only [zfs_iter_snapshots]
          obtain ⟨e1, e2, e3⟩ := iterate_simulation cb1 cb2 rel hcb snapshots snapshotsRet _ _
            ((comprehensive_iter_children cb1 children childrenRet
              (cb1 (ZfsNode.mk name type guid children childrenRet snapshots snapshotsRet) s1).2
              (t ++ [Call.zfs_iter_children name])).2 ++ [Call.zfs_iter_snapshots name]) c2
          rw [← e1, ← e3]
          split
          · exact ⟨e1, e2, e3⟩
          · exact ⟨rfl, e2, rfl⟩
        · rw [if_pos hcz, if_pos hcz]
          exact ⟨c1, c2, c3⟩
    · rw [if_pos hz, if_pos hz]
      exact ⟨h1, h2, rfl⟩
  · intro ret s1 s2 t h
    rw [comprehensive_iter_children, comprehensive_iter_children]
    exact ⟨rfl, h, rfl⟩
  · intro head tail ihh iht ret s1 s2 t h
    rw [comprehensive_iter_children, comprehensive_iter_children]
    obtain ⟨a1, a2, a3⟩ := ihh s1 s2 t h
    rw [← a1, ← a3]
    split
    · exact ⟨a1, a2, a3⟩
    · exact iht ret _ _ _ a2

theorem comprehensive_iter_children_simulation {σ1 σ2 : Type} (cb1 : ZfsNode → σ1 → Int × σ1)
    (cb2 : ZfsNode → σ2 → Int × σ2) (rel : σ1 → σ2 → Prop)
    (hcb : ∀ n s1 s2, rel s1 s2 → (cb1 n s1).1 = (cb2 n s2).1 ∧ rel (cb1 n s1).2 (cb2 n s2).2)
    (l : List ZfsNode) :
    ∀ (ret : Int) (s1 : σ1) (s2 : σ2) (t : Trace), rel s1 s2 →
      simulates rel (comprehensive_iter_children cb1 l ret s1 t)
        (comprehensive_iter_children cb2 l ret s2 t) := by
  induction l with
  | nil =>
    intro ret s1 s2 t h
    rw [comprehensive_iter_children, comprehensive_iter_children]
    exact ⟨rfl, h, rfl⟩
  | cons x xs ih =>
    intro ret s1 s2 t h
    rw [comprehensive_iter_children, comprehensive_iter_children]
    obtain ⟨a1, a2, a3⟩ := comprehensive_iter_simulation cb1 cb2 rel hcb x s1 s2 t h
    rw [← a1, ← a3]
    split
    · exact ⟨a1, a2, a3⟩
    · exact ih ret _ _ _ a2

/-! ## De-duplication by name -/

theorem dedup_keys (l : List DatasetInfo) :
    ∀ (m : GoMap DatasetInfo), (∀ kv ∈ m, kv.1 = kv.2.Name) →
      ∀ kv ∈ l.foldl (fun (datasetMap : GoMap DatasetInfo) dataset =>
        datasetMap.set dataset.Name dataset) m, kv.1 = kv.2.Name := by
  induction l with
  | nil => intro m hm; exact hm
  | cons a l ih =>
    intro m hm
    rw [List.foldl_cons]
    apply ih
    intro kv hkv
    simp only [GoMap.set, List.mem_append, List.mem_filter, List.mem_singleton] at hkv
    rcases hkv with ⟨h1, _⟩ | h2
    · exact hm kv h1
    · rw [h2]

theorem map_snd_filter_key (m : GoMap DatasetInfo) (k : String)
    (hm : ∀ kv ∈ m, kv.1 = kv.2.Name) :
    (m.filter (fun kv => kv.1 ≠ k)).map Prod.snd =
      (m.map Prod.snd).filter (fun x => x.Name ≠ k) := by
  induction m with
  | nil => rfl
  | cons kv m ih =>
    have hk : kv.1 = kv.2.Name := hm kv (List.mem_cons_self _ _)
    have ih2 := ih (fun x hx => hm x (List.mem_cons_of_mem _ hx))
    simp only [List.filter_cons, List.map_cons, hk]
    by_cases h : kv.2.Name = k
    · simp only [h, ne_eq, not_true_eq_false, decide_False, Bool.false_eq_true, if_false]
      exact ih2
    · simp only [h, ne_eq, not_false_eq_true, decide_True, if_true, List.map_cons]
      rw [ih2]

theorem uniqueDatasets_nil : uniqueDatasets [] = [] := rfl

theorem uniqueDatasets_snoc (l : List DatasetInfo) (a : DatasetInfo) :
    uniqueDatasets (l ++ [a]) =
      (uniqueDatasets l).filter (fun x => x.Name ≠ a.Name) ++ [a] := by
  unfold uniqueDatasets
  rw [List.foldl_append, List.foldl_cons, List.foldl_nil]
  have hk := dedup_keys l [] (fun kv hkv => absurd hkv (List.not_mem_nil kv))
  generalize l.foldl (fun (datasetMap : GoMap DatasetInfo) dataset =>
    datasetMap.set dataset.Name dataset) [] = m at hk
  show ((m.filter (fun kv => kv.1 ≠ a.Name)) ++ [(a.Name, a)]).map Prod.snd = _
  rw [List.map_append, map_snd_filter_key m a.Name hk]
  rfl

theorem lastByName_nil (x : DatasetInfo) : ¬ lastByName [] x := by
  rintro ⟨pre, post, h, _⟩
  cases pre <;> simp at h

theorem lastByName_snoc (l : List DatasetInfo) (a x : DatasetInfo) :
    lastByName (l ++ [a]) x ↔ x = a ∨ (lastByName l x ∧ x.Name ≠ a.Name) := by
  constructor
  · rintro ⟨pre, post, h, hpost⟩
    rcases List.eq_nil_or_concat post with hp | ⟨post2, b, hp⟩
    · subst hp
      left
      have h2 : l ++ [a] = pre ++ [x] := h
      have hb : [a] = [x] := List.append_inj_right' h2 rfl
      have hax : a = x := by simpa using hb
      exact hax.symm
    · subst hp
      right
      have h2 : l ++ [a] = (pre ++ x :: post2) ++ [b] := by
        rw [h]; simp
      have hl := List.append_inj_left' h2 rfl
      have hb : [a] = [b] := List.append_inj_right' h2 rfl
      have hab : a = b := by simpa using hb
      refine ⟨⟨pre, post2, hl, ?_⟩, ?_⟩
      · intro y hy
        exact hpost y (by simp [hy])
      · have := hpost b (by simp)
        rw [hab]
        exact fun e => this e.symm
  · rintro (h | ⟨⟨pre, post, h, hpost⟩, hne⟩)
    · subst h
      exact ⟨l, [], rfl, fun y hy => absurd hy (List.not_mem_nil y)⟩
    · refine ⟨pre, post ++ [a], ?_, ?_⟩
      · rw [h]; simp
      · intro y hy
        rcases List.mem_append.mp hy with h1 | h1
        · exact hpost y h1
        · rw [List.mem_singleton.mp h1]
          exact fun e => hne e.symm

theorem mem_uniqueDatasets (l : List DatasetInfo) (x : DatasetInfo) :
    x ∈ uniqueDatasets l ↔ lastByName l x := by
  induction l using List.reverseRecOn with
  | nil => simp [uniqueDatasets_nil, lastByName_nil]
  | append_singleton l a ih =>
    rw [uniqueDatasets_snoc, lastByName_snoc, List.mem_append, List.mem_filter, ih,
      List.mem_singleton]
    simp only [ne_eq, decide_not, Bool.not_eq_true', decide_eq_false_iff_not]
    constructor
    · rintro (h | h)
      · exact Or.inr h
      · exact Or.inl h
    · rintro (h | h)
      · exact Or.inr h
      · exact Or.inl h

theorem uniqueDatasets_nodup (l : List DatasetInfo) :
    ((uniqueDatasets l).map (fun x => x.Name)).Nodup := by
  induction l using List.reverseRecOn with
  | nil => simp [uniqueDatasets_nil]
  | append_singleton l a ih =>
    rw [uniqueDatasets_snoc, List.map_append, List.nodup_append]
    refine ⟨?_, by simp, ?_⟩
    · exact List.Nodup.sublist (List.Sublist.map _ (List.filter_sublist _)) ih
    · intro n hn hn2
      simp only [List.map_cons, List.map_nil, List.mem_singleton] at hn2
      simp only [List.mem_map, List.mem_filter] at hn
      obtain ⟨y, ⟨_, hy⟩, hyn⟩ := hn
      simp only [ne_eq, decide_not, Bool.not_eq_true', decide_eq_false_iff_not] at hy
      exact hy (hyn.trans hn2)

theorem uniqueDatasets_covers (l : List DatasetInfo) :
    ∀ y ∈ l, ∃ x ∈ uniqueDatasets l, x.Name = y.Name := by
  induction l using List.reverseRecOn with
  | nil => intro y hy; exact absurd hy (List.not_mem_nil y)
  | append_singleton l a ih =>
    intro y hy
    rw [uniqueDatasets_snoc]
    by_cases h : y.Name = a.Name
    · exact ⟨a, by simp, h.symm⟩
    · rcases List.mem_append.mp hy with h1 | h1
      · obtain ⟨x, hx, hxy⟩ := ih y h1
        refine ⟨x, ?_, hxy⟩
        rw [List.mem_append, List.mem_filter]
        left
        refine ⟨hx, ?_⟩
        simp only [ne_eq, decide_not, Bool.not_eq_true', decide_eq_false_iff_not]
        rw [hxy]; exact h
      · rw [List.mem_singleton.mp h1] at h
        exact absurd rfl h

/-! ## Listing datasets by type -/

theorem libzfsFailure_ne_nil (B : Backend) (what : String) (t : Trace) :
    (libzfsFailure B what t).1 ≠ GoError.nil := by
  simp [libzfsFailure, errorf]

theorem go_iter_all_datasets_err_nil (B : Backend) (t : Trace) :
    (go_iter_all_datasets B go_dataset_iter_callback
      { datasets := [], err := GoError.nil } t).1.2.err = GoError.nil := by
  unfold go_iter_all_datasets
  exact comprehensive_iter_children_hoare go_dataset_iter_callback
    (fun s => s.err = GoError.nil) (fun p => p.2.err = GoError.nil)
    (fun _ _ h => h) (fun _ _ h _ => h) (fun _ _ h => h) _ _ _ _ rfl

theorem ListDatasetsByType_ok (B : Backend) (d : libzfsDriver) (dsType : Option DatasetType)
    (recursive : Bool) (t : Trace) (hopen : d.h ≠ none)
    (hret : (go_iter_all_datasets B go_dataset_iter_callback
      { datasets := [], err := GoError.nil } t).1.1 = 0) :
    d.ListDatasetsByType B dsType recursive t =
      ((match dsType with
        | none => uniqueDatasets (reportedDatasets B t)
        | some ty => (uniqueDatasets (reportedDatasets B t)).filter
            (fun dataset => dataset.Type_ = ty), GoError.nil),
        (go_iter_all_datasets B go_dataset_iter_callback
          { datasets := [], err := GoError.nil } t).2) := by
  unfold libzfsDriver.ListDatasetsByType reportedDatasets
  cases hd : d.h with
  | none => exact absurd hd hopen
  | some _ =>
    simp only [hret, go_iter_all_datasets_err_nil, ne_eq, not_true_eq_false, if_false]
    cases dsType <;> rfl

theorem ListDatasetsByType_interrupted (B : Backend) (d : libzfsDriver)
    (dsType : Option DatasetType) (recursive : Bool) (t : Trace)
    (hret : (go_iter_all_datasets B go_dataset_iter_callback
      { datasets := [], err := GoError.nil } t).1.1 ≠ 0) :
    (d.ListDatasetsByType B dsType recursive t).1.1 = [] ∧
      (d.ListDatasetsByType B dsType recursive t).1.2 ≠ GoError.nil := by
  unfold libzfsDriver.ListDatasetsByType
  cases hd : d.h with
  | none => simp [errorf]
  | some _ =>
    simp only [hret, ne_eq, not_false_eq_true, if_true]
    exact ⟨trivial, libzfsFailure_ne_nil B _ _⟩

/-- C14: with no type filter, on an open driver whose traversal succeeds,
`ListDatasetsByType` returns no error and, up to order, one entry per distinct reported
name: no name occurs twice among the entries, every reported name has an entry, and the
entries are exactly the records that are the last one reported under their name. -/
theorem ListDatasetsByType_unfiltered (B : Backend) (d : libzfsDriver) (recursive : Bool)
    (t : Trace) (hopen : d.h ≠ none)
    (hret : (go_iter_all_datasets B go_dataset_iter_callback
      { datasets := [], err := GoError.nil } t).1.1 = 0) :
    (d.ListDatasetsByType B none recursive t).1.2 = GoError.nil ∧
    ((d.ListDatasetsByType B none recursive t).1.1.map (fun x => x.Name)).Nodup ∧
    (∀ y ∈ reportedDatasets B t,
      ∃ x ∈ (d.ListDatasetsByType B none recursive t).1.1, x.Name = y.Name) ∧
    (∀ x, x ∈ (d.ListDatasetsByType B none recursive t).1.1 ↔
      lastByName (reportedDatasets B t) x) := by
  rw [ListDatasetsByType_ok B d none recursive t hopen hret]
  exact ⟨rfl, uniqueDatasets_nodup _, uniqueDatasets_covers _, mem_uniqueDatasets _⟩

theorem ListDatasetsByType_unfiltered_witness :
    reportedDatasets sampleBackend [] =
      [{ Name := "tank", Type_ := DatasetType.DatasetFilesystem, GUID := 11 },
       { Name := "tank/data", Type_ := DatasetType.DatasetFilesystem, GUID := 12 },
       { Name := "tank@snap1", Type_ := DatasetType.DatasetSnapshot, GUID := 13 },
       { Name := "tank@snap1", Type_ := DatasetType.DatasetSnapshot, GUID := 13 }] ∧
    (liveDriver.ListDatasetsByType sampleBackend none false []).1.1 =
      [{ Name := "tank", Type_ := DatasetType.DatasetFilesystem, GUID := 11 },
       { Name := "tank/data", Type_ := DatasetType.DatasetFilesystem, GUID := 12 },
       { Name := "tank@snap1", Type_ := DatasetType.DatasetSnapshot, GUID := 13 }] ∧
    ((liveDriver.ListDatasetsByType sampleBackend none false []).1.2 = GoError.nil ∧
    ((liveDriver.ListDatasetsByType sampleBackend none false []).1.1.map
      (fun x => x.Name)).Nodup ∧
    (∀ y ∈ reportedDatasets sampleBackend [],
      ∃ x ∈ (liveDriver.ListDatasetsByType sampleBackend none false []).1.1,
        x.Name = y.Name) ∧
    (∀ x, x ∈ (liveDriver.ListDatasetsByType sampleBackend none false []).1.1 ↔
      lastByName (reportedDatasets sampleBackend []) x)) :=
  ⟨by decide, by decide,
    ListDatasetsByType_unfiltered sampleBackend liveDriver false [] (by decide) (by decide)⟩

/-- C15: the type filter is a final pass over the de-duplicated collection: with a
filter `ty`, `ListDatasetsByType` returns exactly the entries of the unfiltered result
whose type is `ty`, in the same order, with the same error and the same calls; with no
filter it returns the whole de-duplicated collection of the reported records (nothing
on a closed driver or a failed traversal). -/
theorem ListDatasetsByType_filter_last (B : Backend) (d : libzfsDriver) (ty : DatasetType)
    (r1 r2 : Bool) (t : Trace) :
    (d.ListDatasetsByType B (some ty) r1 t).1.1 =
      (d.ListDatasetsByType B none r2 t).1.1.filter (fun dataset => dataset.Type_ = ty) ∧
    (d.ListDatasetsByType B (some ty) r1 t).1.2 = (d.ListDatasetsByType B none r2 t).1.2 ∧
    (d.ListDatasetsByType B (some ty) r1 t).2 = (d.ListDatasetsByType B none r2 t).2 ∧
    (d.ListDatasetsByType B none r2 t).1.1 =
      (if d.h.isSome ∧ (go_iter_all_datasets B go_dataset_iter_callback
          { datasets := [], err := GoError.nil } t).1.1 = 0
        then uniqueDatasets (reportedDatasets B t) else []) := by
  cases hd : d.h with
  | none => simp [libzfsDriver.ListDatasetsByType, hd]
  | some u =>
    have hopen : d.h ≠ none := by rw [hd]; exact Option.some_ne_none u
    by_cases hret : (go_iter_all_datasets B go_dataset_iter_callback
        { datasets := [], err := GoError.nil } t).1.1 = 0
    · rw [ListDatasetsByType_ok B d (some ty) r1 t hopen hret,
        ListDatasetsByType_ok B d none r2 t hopen hret]
      simp [hret]
    · have h1 := ListDatasetsByType_interrupted B d none r2 t hret
      simp only [libzfsDriver.ListDatasetsByType, hd, hret, ne_eq, not_false_eq_true, if_true,
        List.filter_nil, Option.isSome_some, and_false, if_false, and_self, true_and]

theorem ListDatasetsByType_filter_last_witness :
    (liveDriver.ListDatasetsByType sampleBackend (some DatasetType.DatasetSnapshot) true []).1.1 =
      [{ Name := "tank@snap1", Type_ := DatasetType.DatasetSnapshot, GUID := 13 }] ∧
    (liveDriver.ListDatasetsByType sampleBackend (some DatasetType.DatasetSnapshot) true []).1.1 =
      (liveDriver.ListDatasetsByType sampleBackend none false []).1.1.filter
        (fun dataset => dataset.Type_ = DatasetType.DatasetSnapshot) :=
  ⟨by decide,
    (ListDatasetsByType_filter_last sampleBackend liveDriver DatasetType.DatasetSnapshot
      true false []).1⟩

/-- C16: the walker short-circuits. With the callback instrumented to log the code of
each invocation, every logged code but the last is zero, so no invocation follows one
that returned non-zero; when the last code is non-zero the walk returns it; the
instrumented walk returns the same value, data and calls as the plain one. When the
walk of `ListDatasetsByType` returns non-zero, the operation returns an error and no
datasets. -/
theorem walker_short_circuits {σ : Type} (B : Backend) (callback : ZfsNode → σ → Int × σ)
    (data : σ) (d : libzfsDriver) (dsType : Option DatasetType) (recursive : Bool)
    (t : Trace) :
    (∀ x ∈ (go_iter_all_datasets B (logged callback) (data, []) t).1.2.2.dropLast, x = 0) ∧
    (∀ x, (go_iter_all_datasets B (logged callback) (data, []) t).1.2.2.getLast? = some x →
      x ≠ 0 → (go_iter_all_datasets B (logged callback) (data, []) t).1.1 = x) ∧
    simulates (fun s1 s2 => s1.1 = s2)
      (go_iter_all_datasets B (logged callback) (data, []) t)
      (go_iter_all_datasets B callback data t) ∧
    ((go_iter_all_datasets B go_dataset_iter_callback
        { datasets := [], err := GoError.nil } t).1.1 ≠ 0 →
      (d.ListDatasetsByType B dsType recursive t).1.1 = [] ∧
      (d.ListDatasetsByType B dsType recursive t).1.2 ≠ GoError.nil) := by
  have hlog := comprehensive_iter_children_hoare (logged callback)
    (fun s => ∀ x ∈ s.2, x = 0)
    (fun p => (∀ x ∈ p.2.2.dropLast, x = 0) ∧
      (∀ x, p.2.2.getLast? = some x → x ≠ 0 → p.1 = x) ∧ (p.1 = 0 → ∀ x ∈ p.2.2, x = 0))
    (by
      intro n s hs
      refine ⟨?_, ?_, ?_⟩
      · simpa [logged] using hs
      · intro x hx _
        simp [logged] at hx
        simpa [logged] using hx
      · intro h0 x hx
        simp only [logged, List.mem_append, List.mem_singleton] at hx h0
        rcases hx with h | h
        · exact hs x h
        · rw [h]; exact h0)
    (fun r s h hr => h.2.2 hr)
    (by
      intro ret s hs
      refine ⟨fun x hx => hs x (List.dropLast_subset _ hx), ?_, fun _ => hs⟩
      intro x hx hne
      exact absurd (hs x (List.mem_of_mem_getLast? (Option.mem_def.mpr hx))) hne)
    (B.roots t) (B.int t Call.zfs_iter_root) (data, []) (t ++ [Call.zfs_iter_root])
    (fun x hx => absurd hx (List.not_mem_nil x))
  refine ⟨hlog.1, hlog.2.1, ?_, ListDatasetsByType_interrupted B d dsType recursive t⟩
  unfold go_iter_all_datasets
  exact comprehensive_iter_children_simulation (logged callback) callback
    (fun s1 s2 => s1.1 = s2)
    (by
      intro n s1 s2 h
      subst h
      exact ⟨rfl, rfl⟩) _ _ _ _ _ rfl

theorem walker_short_circuits_witness :
    (go_iter_all_datasets sampleBackend (logged stopAtSecond) (0, []) []).1.2.2 = [0, 7] ∧
    (go_iter_all_datasets sampleBackend stopAtSecond 0 []).1 = (7, 2) ∧
    reportedDatasets interruptedBackend [] =
      [{ Name := "tank", Type_ := DatasetType.DatasetFilesystem, GUID := 11 },
       { Name := "tank/data", Type_ := DatasetType.DatasetFilesystem, GUID := 12 }] ∧
    (go_iter_all_datasets interruptedBackend go_dataset_iter_callback
        { datasets := [], err := GoError.nil } []).1.1 = 5 ∧
    ((liveDriver.ListDatasetsByType interruptedBackend none false []).1.1 = [] ∧
      (liveDriver.ListDatasetsByType interruptedBackend none false []).1.2 ≠ GoError.nil) :=
  ⟨by decide, by decide, by decide, by decide,
    (walker_short_circuits interruptedBackend stopAtSecond 0 liveDriver none false []).2.2.2
      (by decide)⟩

/-! ## Property retrieval -/

theorem GoMap_get_set {T : Type} (m : GoMap T) (k k2 : String) (v : T) :
    (m.set k v).get k2 = if k2 = k then some v else m.get k2 := by
  unfold GoMap.set GoMap.get
  induction m with
  | nil =>
    by_cases h : k2 = k
    · simp [h]
    · have h2 : ¬ k = k2 := fun e => h e.symm
      simp [h, h2]
  | cons kv m ih =>
    by_cases h1 : kv.1 = k
    · have hf : List.filter (fun kv => decide (kv.1 ≠ k)) (kv :: m) =
          List.filter (fun kv => decide (kv.1 ≠ k)) m := by
        simp [List.filter_cons, h1]
      rw [hf, ih]
      by_cases h : k2 = k
      · simp [h]
      · have h3 : ¬ kv.1 = k2 := fun e => h (e.symm.trans h1)
        simp [h, List.find?_cons, h3]
    · have hf : List.filter (fun kv => decide (kv.1 ≠ k)) (kv :: m) =
          kv :: List.filter (fun kv => decide (kv.1 ≠ k)) m := by
        simp [List.filter_cons, h1]
      rw [hf, List.cons_append, List.find?_cons, List.find?_cons]
      by_cases h2 : kv.1 = k2
      · have h : ¬ k2 = k := fun e => h1 (h2.trans e)
        simp [h2, h]
      · simp only [h2, decide_False]
        exact ih

theorem GoMap_get_mem {T : Type} (m : GoMap T) (k : String) (v : T) (h : m.get k = some v) :
    (k, v) ∈ m := by
  unfold GoMap.get at h
  cases hf : m.find? (fun kv => kv.1 = k) with
  | none => rw [hf] at h; simp at h
  | some kv =>
    rw [hf] at h
    have hk := List.find?_some hf
    have hm := List.mem_of_find?_eq_some hf
    simp only [Option.map_some', Option.some.injEq] at h
    simp only [decide_eq_true_eq] at hk
    rw [← hk, ← h]
    exact hm

theorem GoMap_get_inj {T : Type} (m : GoMap T) (hm : (m.map Prod.snd).Nodup) (k k2 : String)
    (v : T) (h1 : m.get k = some v) (h2 : m.get k2 = some v) : k = k2 := by
  have e := List.inj_on_of_nodup_map hm (GoMap_get_mem m k v h1) (GoMap_get_mem m k2 v h2) rfl
  exact congrArg Prod.fst e

theorem GoMap_get_set_isSome {T : Type} (m : GoMap T) (k k2 : String) (v : T) :
    ((m.set k v).get k2).isSome ↔ k2 = k ∨ (m.get k2).isSome := by
  rw [GoMap_get_set]
  by_cases h : k2 = k
  · simp [h]
  · simp [h]

theorem propsLoop_fetch {P : Type} (B : Backend) (table : GoMap P) (mk : P → Call)
    (names : List String) :
    ∀ (m : GoMap PropertyInfo) (t : Trace),
      (propsLoop B table mk names m t).2 = t ++ fetchCalls table mk names := by
  induction names with
  | nil => intro m t; simp [propsLoop, fetchCalls]
  | cons a rest ih =>
    intro m t
    rw [propsLoop]
    cases hget : table.get a with
    | none =>
      simp only []
      rw [ih]
      simp [fetchCalls, hget]
    | some pa =>
      simp only []
      split
      · rw [ih]
        simp [fetchCalls, hget]
      · rw [ih]
        simp [fetchCalls, hget]

theorem fetchCalls_cons_none {P : Type} (table : GoMap P) (mk : P → Call) (a : String)
    (pre : List String) (h : table.get a = none) :
    fetchCalls table mk (a :: pre) = fetchCalls table mk pre := by
  simp [fetchCalls, h]

theorem fetchCalls_cons_some {P : Type} (table : GoMap P) (mk : P → Call) (a : String)
    (pre : List String) (pa : P) (h : table.get a = some pa) :
    fetchCalls table mk (a :: pre) = mk pa :: fetchCalls table mk pre := by
  simp [fetchCalls, h]

/-- A name is in the result of the loop iff it was there before or some occurrence of it in
the names is in the table and its fetch, made after the fetches of the names before it, was
answered with success. -/
theorem propsLoop_present {P : Type} (B : Backend) (table : GoMap P) (mk : P → Call)
    (names : List String) :
    ∀ (m : GoMap PropertyInfo) (t : Trace) (n : String),
      ((propsLoop B table mk names m t).1.get n).isSome ↔
        (m.get n).isSome ∨
          ∃ p, table.get n = some p ∧ ∃ pre post, names = pre ++ n :: post ∧
            B.int (t ++ fetchCalls table mk pre) (mk p) = 0 := by
  induction names with
  | nil =>
    intro m t n
    simp only [propsLoop]
    constructor
    · exact Or.inl
    · rintro (h | ⟨p, _, pre, post, h, _⟩)
      · exact h
      · simp at h
  | cons a rest ih =>
    intro m t n
    have hsplit : ∀ (pre post : List String), a :: rest = pre ++ n :: post →
        (pre = [] ∧ a = n ∧ rest = post) ∨ ∃ pre2, pre = a :: pre2 ∧ rest = pre2 ++ n :: post := by
      intro pre post h
      cases pre with
      | nil =>
        simp only [List.nil_append, List.cons.injEq] at h
        exact Or.inl ⟨rfl, h.1, h.2⟩
      | cons x pre2 =>
        simp only [List.cons_append, List.cons.injEq] at h
        exact Or.inr ⟨pre2, by rw [h.1], h.2⟩
    rw [propsLoop]
    cases hget : table.get a with
    | none =>
      simp only []
      rw [ih]
      constructor
      · rintro (h | ⟨p, hp, pre, post, h1, h2⟩)
        · exact Or.inl h
        · refine Or.inr ⟨p, hp, a :: pre, post, by rw [h1]; rfl, ?_⟩
          rw [fetchCalls_cons_none table mk a pre hget]
          exact h2
      · rintro (h | ⟨p, hp, pre, post, h1, h2⟩)
        · exact Or.inl h
        · rcases hsplit pre post h1 with ⟨_, han, _⟩ | ⟨pre2, hpre, hrest⟩
          · rw [han, hp] at hget
            exact absurd hget (Option.some_ne_none p)
          · subst hpre
            rw [fetchCalls_cons_none table mk a pre2 hget] at h2
            exact Or.inr ⟨p, hp, pre2, post, hrest, h2⟩
    | some pa =>
      simp only []
      by_cases hr : B.int t (mk pa) = 0
      · rw [if_pos hr, ih, GoMap_get_set_isSome]
        constructor
        · rintro ((h | h) | ⟨p, hp, pre, post, h1, h2⟩)
          · subst h
            refine Or.inr ⟨pa, hget, [], rest, rfl, ?_⟩
            simpa [fetchCalls] using hr
          · exact Or.inl h
          · refine Or.inr ⟨p, hp, a :: pre, post, by rw [h1]; rfl, ?_⟩
            rw [fetchCalls_cons_some table mk a pre pa hget]
            simpa using h2
        · rintro (h | ⟨p, hp, pre, post, h1, h2⟩)
          · exact Or.inl (Or.inr h)
          · rcases hsplit pre post h1 with ⟨_, han, _⟩ | ⟨pre2, hpre, hrest⟩
            · exact Or.inl (Or.inl han.symm)
            · subst hpre
              rw [fetchCalls_cons_some table mk a pre2 pa hget] at h2
              exact Or.inr ⟨p, hp, pre2, post, hrest, by simpa using h2⟩
      · rw [if_neg hr, ih]
        constructor
        · rintro (h | ⟨p, hp, pre, post, h1, h2⟩)
          · exact Or.inl h
          · refine Or.inr ⟨p, hp, a :: pre, post, by rw [h1]; rfl, ?_⟩
            rw [fetchCalls_cons_some table mk a pre pa hget]
            simpa using h2
        · rintro (h | ⟨p, hp, pre, post, h1, h2⟩)
          · exact Or.inl h
          · rcases hsplit pre post h1 with ⟨hpre, han, _⟩ | ⟨pre2, hpre, hrest⟩
            · subst hpre
              subst han
              rw [hget] at hp
              rw [← Option.some.inj hp] at h2
              exact absurd (by simpa [fetchCalls] using h2) hr
            · subst hpre
              rw [fetchCalls_cons_some table mk a pre2 pa hget] at h2
              exact Or.inr ⟨p, hp, pre2, post, hrest, by simpa using h2⟩

theorem propsLoop_names {P : Type} (B : Backend) (table : GoMap P) (mk : P → Call)
    (names : List String) :
    ∀ (m : GoMap PropertyInfo) (t : Trace), (∀ kv ∈ m, kv.2.Name = kv.1) →
      ∀ kv ∈ (propsLoop B table mk names m t).1, kv.2.Name = kv.1 := by
  induction names with
  | nil => intro m t hm; exact hm
  | cons a rest ih =>
    intro m t hm
    rw [propsLoop]
    cases hget : table.get a with
    | none => exact ih m t hm
    | some pa =>
      simp only []
      split
      · apply ih
        intro kv hkv
        simp only [GoMap.set, List.mem_append, List.mem_filter, List.mem_singleton] at hkv
        rcases hkv with ⟨h1, _⟩ | h2
        · exact hm kv h1
        · rw [h2]
      · exact ih m _ hm

theorem propsLoop_stable {P : Type} (B : Backend) (hst : stableGetters B) (table : GoMap P)
    (mk : P → Call) (names : List String) :
    ∀ (m : GoMap PropertyInfo) (t : Trace) (n : String),
      (propsLoop B table mk names m t).1.get n =
        match table.get n with
        | some p =>
          if n ∈ names ∧ B.int [] (mk p) = 0 then
            some ⟨n, B.str [] (mk p), PropSource.PropSourceLocal, false⟩
          else m.get n
        | none => m.get n := by
  induction names with
  | nil =>
    intro m t n
    simp only [propsLoop, List.not_mem_nil, false_and, if_false]
    cases table.get n <;> rfl
  | cons a rest ih =>
    intro m t n
    rw [propsLoop]
    cases hget : table.get a with
    | none =>
      simp only []
      rw [ih]
      cases hn : table.get n with
      | none => rfl
      | some p =>
        have hne : n ≠ a := fun e => by rw [e, hget] at hn; exact Option.noConfusion hn
        simp only [List.mem_cons, hne, false_or]
    | some pa =>
      simp only []
      have hi : B.int t (mk pa) = B.int [] (mk pa) := (hst t [] (mk pa)).1
      have hs : B.str t (mk pa) = B.str [] (mk pa) := (hst t [] (mk pa)).2
      by_cases hr : B.int t (mk pa) = 0
      · rw [if_pos hr, ih, GoMap_get_set]
        cases hn : table.get n with
        | none =>
          have hne : n ≠ a := fun e => by rw [e, hget] at hn; exact Option.noConfusion hn
          simp only [hne, if_false]
        | some p =>
          by_cases hna : n = a
          · have hp : p = pa := by
              rw [hna, hget] at hn
              exact (Option.some.inj hn).symm
            rw [hi] at hr
            simp [hna, hp, hr, hs]
          · simp only [List.mem_cons, hna, false_or, if_false]
      · rw [if_neg hr, ih]
        cases hn : table.get n with
        | none => rfl
        | some p =>
          by_cases hna : n = a
          · have hp : p = pa := by
              rw [hna, hget] at hn
              exact (Option.some.inj hn).symm
            rw [hi] at hr
            simp [hna, hp, hr]
          · simp only [List.mem_cons, hna, false_or]

theorem getDatasetPropsLoop_eq (B : Backend) (zhp : ZfsNode) (names : List String) :
    ∀ (m : GoMap PropertyInfo) (t : Trace),
      getDatasetPropsLoop B zhp names m t =
        propsLoop B datasetPropMap (Call.zfs_prop_get zhp.name) names m t := by
  induction names with
  | nil => intro m t; rfl
  | cons a rest ih =>
    intro m t
    rw [getDatasetPropsLoop, propsLoop]
    cases datasetPropMap.get a with
    | none => exact ih m t
    | some pa =>
      simp only [go_get_zfs_property]
      split
      · exact ih _ _
      · exact ih _ _

theorem getPoolPropsLoop_eq (B : Backend) (zhp : ZpoolObj) (names : List String) :
    ∀ (m : GoMap PropertyInfo) (t : Trace),
      getPoolPropsLoop B zhp names m t =
        propsLoop B poolPropMap (Call.zpool_get_prop zhp.name) names m t := by
  induction names with
  | nil => intro m t; rfl
  | cons a rest ih =>
    intro m t
    rw [getPoolPropsLoop, propsLoop]
    cases poolPropMap.get a with
    | none => exact ih m t
    | some pa =>
      simp only [go_get_zpool_property]
      split
      · exact ih _ _
      · exact ih _ _

theorem datasetPropMap_inj (ds : String) (n n2 : String) (p p2 : zfs_prop_t)
    (h1 : datasetPropMap.get n = some p) (h2 : datasetPropMap.get n2 = some p2)
    (he : Call.zfs_prop_get ds p = Call.zfs_prop_get ds p2) : n = n2 := by
  have hp : p = p2 := by injection he
  rw [← hp] at h2
  exact GoMap_get_inj datasetPropMap (by decide) n n2 p h1 h2

theorem poolPropMap_inj (pool : String) (n n2 : String) (p p2 : zpool_prop_t)
    (h1 : poolPropMap.get n = some p) (h2 : poolPropMap.get n2 = some p2)
    (he : Call.zpool_get_prop pool p = Call.zpool_get_prop pool p2) : n = n2 := by
  have hp : p = p2 := by injection he
  rw [← hp] at h2
  exact GoMap_get_inj poolPropMap (by decide) n n2 p h1 h2

theorem propsLoop_stable_perm {P : Type} (B : Backend) (hst : stableGetters B)
    (table : GoMap P) (mk : P → Call) (names1 names2 : List String)
    (h : ∀ n, (table.get n).isSome → (n ∈ names1 ↔ n ∈ names2))
    (m : GoMap PropertyInfo) (t1 t2 : Trace) (n : String) :
    (propsLoop B table mk names1 m t1).1.get n = (propsLoop B table mk names2 m t2).1.get n := by
  rw [propsLoop_stable B hst, propsLoop_stable B hst]
  cases hn : table.get n with
  | none => rfl
  | some p =>
    have h2 := h n (by rw [hn]; rfl)
    simp only [h2]

theorem GoMap_get_key {T : Type} (m : GoMap T) (k : String) (h : (m.get k).isSome) :
    k ∈ m.map Prod.fst := by
  obtain ⟨v, hv⟩ := Option.isSome_iff_exists.mp h
  exact List.mem_map_of_mem Prod.fst (GoMap_get_mem m k v hv)

theorem GetDatasetProps_open (B : Backend) (d : libzfsDriver) (datasetName : String)
    (names : List String) (t : Trace) (zhp : ZfsNode) (hopen : d.h ≠ none)
    (hz : B.zfs_open t datasetName ZFS_TYPE_DATASET = some zhp) :
    d.GetDatasetProps B datasetName names t =
      (((propsLoop B datasetPropMap (Call.zfs_prop_get zhp.name)
          (if names.length = 0 then datasetPropMap.map Prod.fst else names) []
          (t ++ [Call.zfs_open datasetName ZFS_TYPE_DATASET])).1, GoError.nil),
        (propsLoop B datasetPropMap (Call.zfs_prop_get zhp.name)
          (if names.length = 0 then datasetPropMap.map Prod.fst else names) []
          (t ++ [Call.zfs_open datasetName ZFS_TYPE_DATASET])).2 ++ [Call.zfs_close zhp.name]) := by
  unfold libzfsDriver.GetDatasetProps
  cases hd : d.h with
  | none => exact absurd hd hopen
  | some _ =>
    simp only [hz, getDatasetPropsLoop_eq, callVoid]

theorem GetPoolProps_open (B : Backend) (d : libzfsDriver) (poolName : String)
    (names : List String) (t : Trace) (zhp : ZpoolObj) (hopen : d.h ≠ none)
    (hz : B.zpool_open t poolName = some zhp) :
    d.GetPoolProps B poolName names t =
      (((propsLoop B poolPropMap (Call.zpool_get_prop zhp.name)
          (if names.length = 0 then poolPropMap.map Prod.fst else names) []
          (t ++ [Call.zpool_open poolName])).1, GoError.nil),
        (propsLoop B poolPropMap (Call.zpool_get_prop zhp.name)
          (if names.length = 0 then poolPropMap.map Prod.fst else names) []
          (t ++ [Call.zpool_open poolName])).2 ++ [Call.zpool_close zhp.name]) := by
  unfold libzfsDriver.GetPoolProps
  cases hd : d.h with
  | none => exact absurd hd hopen
  | some _ =>
    simp only [hz, getPoolPropsLoop_eq, callVoid]

theorem requestedNames_mem {P : Type} (table : GoMap P) (names : List String) (n : String)
    (h : (table.get n).isSome) :
    n ∈ requestedNames table names ↔ names = [] ∨ n ∈ names := by
  unfold requestedNames
  by_cases hl : names.length = 0
  · have hnil : names = [] := List.length_eq_zero.mp hl
    simp only [hl, if_true]
    exact ⟨fun _ => Or.inl hnil, fun _ => GoMap_get_key table n h⟩
  · have hnil : names ≠ [] := fun e => hl (by rw [e]; rfl)
    simp only [hl, if_false]
    exact ⟨Or.inr, fun h2 => h2.elim (fun e => absurd e hnil) id⟩

theorem propsLoop_projection {P : Type} (B : Backend) (table : GoMap P) (mk : P → Call)
    (names : List String) (t : Trace) (n : String) :
    ((propsLoop B table mk (requestedNames table names) [] t).1.get n).isSome ↔
      (names = [] ∨ n ∈ names) ∧ ∃ p, table.get n = some p ∧
        ∃ pre post, requestedNames table names = pre ++ n :: post ∧
          B.int (t ++ fetchCalls table mk pre) (mk p) = 0 := by
  rw [propsLoop_present B table mk]
  constructor
  · rintro (h | ⟨p, hp, pre, post, h1, h2⟩)
    · exact absurd h (by simp [GoMap.get])
    · refine ⟨?_, p, hp, pre, post, h1, h2⟩
      apply (requestedNames_mem table names n (by rw [hp]; rfl)).mp
      rw [h1]
      simp
  · rintro ⟨_, h⟩
    exact Or.inr h

theorem propsLoop_stable_projection {P : Type} (B : Backend) (hst : stableGetters B)
    (table : GoMap P) (mk : P → Call) (names : List String) (t : Trace) (n : String) :
    (propsLoop B table mk (requestedNames table names) [] t).1.get n =
      (table.get n).bind (fun p =>
        if (names = [] ∨ n ∈ names) ∧ B.int [] (mk p) = 0 then
          some ⟨n, B.str [] (mk p), PropSource.PropSourceLocal, false⟩
        else none) := by
  rw [propsLoop_stable B hst]
  cases hp : table.get n with
  | none => rfl
  | some p =>
    simp only [requestedNames_mem table names n (by rw [hp]; rfl), Option.some_bind]
    split <;> rfl

/-- C17: property retrieval is a lenient partial projection. For a dataset (a pool) that
opens on an open driver and any list of requested names, `GetDatasetProps`
(`GetPoolProps`) returns no error; it opens the object, makes one getter call per requested
name of the table of the object class, in order and whatever the answers, and closes the
object; its result has the key `n` iff `n` was requested (the empty list requests
everything), `n` is in the table, and the library answered the getter call of an occurrence
of `n` with success; every entry has its key as Name. When the answers of the library do not
depend on earlier calls, the entry under a requested name of the table whose getter succeeds
holds the value the getter gives, and no other name has an entry. -/
theorem getProps_partial_projection (B : Backend) (d : libzfsDriver) (names : List String)
    (t : Trace) :
    (∀ datasetName zhp, d.h ≠ none → B.zfs_open t datasetName ZFS_TYPE_DATASET = some zhp →
      (d.GetDatasetProps B datasetName names t).1.2 = GoError.nil ∧
      (d.GetDatasetProps B datasetName names t).2 =
        t ++ [Call.zfs_open datasetName ZFS_TYPE_DATASET] ++
          fetchCalls datasetPropMap (Call.zfs_prop_get zhp.name)
            (requestedNames datasetPropMap names) ++ [Call.zfs_close zhp.name] ∧
      (∀ n, ((d.GetDatasetProps B datasetName names t).1.1.get n).isSome ↔
        (names = [] ∨ n ∈ names) ∧ ∃ p, datasetPropMap.get n = some p ∧
          ∃ pre post, requestedNames datasetPropMap names = pre ++ n :: post ∧
            B.int (t ++ [Call.zfs_open datasetName ZFS_TYPE_DATASET] ++
              fetchCalls datasetPropMap (Call.zfs_prop_get zhp.name) pre)
              (Call.zfs_prop_get zhp.name p) = 0) ∧
      (∀ kv ∈ (d.GetDatasetProps B datasetName names t).1.1, kv.2.Name = kv.1) ∧
      (stableGetters B → ∀ n, (d.GetDatasetProps B datasetName names t).1.1.get n =
        (datasetPropMap.get n).bind (fun p =>
          if (names = [] ∨ n ∈ names) ∧ B.int [] (Call.zfs_prop_get zhp.name p) = 0 then
            some ⟨n, B.str [] (Call.zfs_prop_get zhp.name p), PropSource.PropSourceLocal, false⟩
          else none))) ∧
    (∀ poolName zhp, d.h ≠ none → B.zpool_open t poolName = some zhp →
      (d.GetPoolProps B poolName names t).1.2 = GoError.nil ∧
      (d.GetPoolProps B poolName names t).2 =
        t ++ [Call.zpool_open poolName] ++
          fetchCalls poolPropMap (Call.zpool_get_prop zhp.name)
            (requestedNames poolPropMap names) ++ [Call.zpool_close zhp.name] ∧
      (∀ n, ((d.GetPoolProps B poolName names t).1.1.get n).isSome ↔
        (names = [] ∨ n ∈ names) ∧ ∃ p, poolPropMap.get n = some p ∧
          ∃ pre post, requestedNames poolPropMap names = pre ++ n :: post ∧
            B.int (t ++ [Call.zpool_open poolName] ++
              fetchCalls poolPropMap (Call.zpool_get_prop zhp.name) pre)
              (Call.zpool_get_prop zhp.name p) = 0) ∧
      (∀ kv ∈ (d.GetPoolProps B poolName names t).1.1, kv.2.Name = kv.1) ∧
      (stableGetters B → ∀ n, (d.GetPoolProps B poolName names t).1.1.get n =
        (poolPropMap.get n).bind (fun p =>
          if (names = [] ∨ n ∈ names) ∧ B.int [] (Call.zpool_get_prop zhp.name p) = 0 then
            some ⟨n, B.str [] (Call.zpool_get_prop zhp.name p), PropSource.PropSourceLocal,
              false⟩
          else none))) := by
  constructor
  · intro datasetName zhp hopen hz
    rw [GetDatasetProps_open B d datasetName names t zhp hopen hz]
    refine ⟨rfl, ?_, ?_, ?_, ?_⟩
    · show (propsLoop B datasetPropMap (Call.zfs_prop_get zhp.name)
        (requestedNames datasetPropMap names) [] _).2 ++ _ = _
      rw [propsLoop_fetch]
    · intro n
      exact propsLoop_projection B datasetPropMap (Call.zfs_prop_get zhp.name) names _ n
    · exact propsLoop_names B datasetPropMap _ _ [] _
        (fun kv hkv => absurd hkv (List.not_mem_nil kv))
    · intro hst n
      exact propsLoop_stable_projection B hst datasetPropMap (Call.zfs_prop_get zhp.name)
        names _ n
  · intro poolName zhp hopen hz
    rw [GetPoolProps_open B d poolName names t zhp hopen hz]
    refine ⟨rfl, ?_, ?_, ?_, ?_⟩
    · show (propsLoop B poolPropMap (Call.zpool_get_prop zhp.name)
        (requestedNames poolPropMap names) [] _).2 ++ _ = _
      rw [propsLoop_fetch]
    · intro n
      exact propsLoop_projection B poolPropMap (Call.zpool_get_prop zhp.name) names _ n
    · exact propsLoop_names B poolPropMap _ _ [] _
        (fun kv hkv => absurd hkv (List.not_mem_nil kv))
    · intro hst n
      exact propsLoop_stable_projection B hst poolPropMap (Call.zpool_get_prop zhp.name)
        names _ n

/-- C17 on the dataset "tank/data" of a library without a "mountpoint" value, asked for
"used" and "mountpoint", and on the pool "tank" of a library without a "health" value, asked
for "size", an unknown name and "health". -/
theorem getProps_partial_projection_witness :
    liveDriver.GetDatasetProps noMountpointBackend "tank/data" ["used", "mountpoint"] [] =
      (([("used", { Name := "used", Value := "10G", Source := PropSource.PropSourceLocal,
                    Received := false })], GoError.nil),
        [Call.zfs_open "tank/data" ZFS_TYPE_DATASET,
          Call.zfs_prop_get "tank/data" zfs_prop_t.ZFS_PROP_USED,
          Call.zfs_prop_get "tank/data" zfs_prop_t.ZFS_PROP_MOUNTPOINT,
          Call.zfs_close "tank/data"]) ∧
    (liveDriver.GetDatasetProps noMountpointBackend "tank/data"
      ["used", "nosuchproperty"] []).1.1.map Prod.fst = ["used"] ∧
    liveDriver.GetPoolProps noHealthBackend "tank" ["size", "bogus", "health"] [] =
      (([("size", { Name := "size", Value := "10G", Source := PropSource.PropSourceLocal,
                    Received := false })], GoError.nil),
        [Call.zpool_open "tank",
          Call.zpool_get_prop "tank" zpool_prop_t.ZPOOL_PROP_SIZE,
          Call.zpool_get_prop "tank" zpool_prop_t.ZPOOL_PROP_HEALTH,
          Call.zpool_close "tank"]) ∧
    stableGetters noMountpointBackend ∧ stableGetters noHealthBackend ∧
    (∀ n, ((liveDriver.GetDatasetProps noMountpointBackend "tank/data"
        ["used", "mountpoint"] []).1.1.get n).isSome ↔
      (["used", "mountpoint"] = [] ∨ n ∈ ["used", "mountpoint"]) ∧
        ∃ p, datasetPropMap.get n = some p ∧
          ∃ pre post, requestedNames datasetPropMap ["used", "mountpoint"] = pre ++ n :: post ∧
            noMountpointBackend.int ([] ++ [Call.zfs_open "tank/data" ZFS_TYPE_DATASET] ++
              fetchCalls datasetPropMap
                (Call.zfs_prop_get (ZfsNode.mk "tank/data" 1 12 [] 0 [] 0).name) pre)
              (Call.zfs_prop_get (ZfsNode.mk "tank/data" 1 12 [] 0 [] 0).name p) = 0) ∧
    (∀ n, (liveDriver.GetDatasetProps noMountpointBackend "tank/data"
        ["used", "mountpoint"] []).1.1.get n =
      (datasetPropMap.get n).bind (fun p =>
        if (["used", "mountpoint"] = [] ∨ n ∈ ["used", "mountpoint"]) ∧
            noMountpointBackend.int []
              (Call.zfs_prop_get (ZfsNode.mk "tank/data" 1 12 [] 0 [] 0).name p) = 0 then
          some ⟨n, noMountpointBackend.str []
            (Call.zfs_prop_get (ZfsNode.mk "tank/data" 1 12 [] 0 [] 0).name p),
            PropSource.PropSourceLocal, false⟩
        else none)) ∧
    (∀ n, (liveDriver.GetPoolProps noHealthBackend "tank" ["size", "bogus", "health"]
        []).1.1.get n =
      (poolPropMap.get n).bind (fun p =>
        if (["size", "bogus", "health"] = [] ∨ n ∈ ["size", "bogus", "health"]) ∧
            noHealthBackend.int [] (Call.zpool_get_prop "tank" p) = 0 then
          some ⟨n, noHealthBackend.str [] (Call.zpool_get_prop "tank" p),
            PropSource.PropSourceLocal, false⟩
        else none)) :=
  have hd := (getProps_partial_projection noMountpointBackend liveDriver
    ["used", "mountpoint"] []).1 "tank/data" (ZfsNode.mk "tank/data" 1 12 [] 0 [] 0)
    (by decide) rfl
  have hp := (getProps_partial_projection noHealthBackend liveDriver
    ["size", "bogus", "health"] []).2 "tank" { name := "tank", state := 0, status := 7 }
    (by decide) rfl
  ⟨rfl, by decide, rfl, fun _ _ _ => ⟨rfl, rfl⟩, fun _ _ _ => ⟨rfl, rfl⟩, hd.2.2.1,
    hd.2.2.2.2 (fun _ _ _ => ⟨rfl, rfl⟩), hp.2.2.2.2 (fun _ _ _ => ⟨rfl, rfl⟩)⟩

/-- C18: an empty list of names means all known properties of the object class.
`GetDatasetProps` with no names behaves as with the nine names of the dataset table and
`GetPoolProps` with no names as with the seven names of the pool table; no name is in
both tables; and when the answers of the library do not depend on earlier calls, any
list holding exactly the names of the table gives the same lookups as the empty list. -/
theorem getProps_empty_means_all (B : Backend) (d : libzfsDriver) (t : Trace) :
    (∀ datasetName, d.GetDatasetProps B datasetName [] t =
      d.GetDatasetProps B datasetName ["used", "avail", "refer", "compressratio", "quota",
        "reservation", "recordsize", "mountpoint", "compression"] t) ∧
    (∀ poolName, d.GetPoolProps B poolName [] t =
      d.GetPoolProps B poolName ["size", "capacity", "health", "guid", "version", "free",
        "allocated"] t) ∧
    (∀ n, ¬ ((datasetPropMap.get n).isSome ∧ (poolPropMap.get n).isSome)) ∧
    (stableGetters B → ∀ (names : List String) (datasetName : String),
      (∀ n ∈ names, n ∈ datasetPropMap.map Prod.fst) →
      (∀ n ∈ datasetPropMap.map Prod.fst, n ∈ names) →
      (d.GetDatasetProps B datasetName names t).1.2 =
        (d.GetDatasetProps B datasetName [] t).1.2 ∧
      ∀ n, (d.GetDatasetProps B datasetName names t).1.1.get n =
        (d.GetDatasetProps B datasetName [] t).1.1.get n) ∧
    (stableGetters B → ∀ (names : List String) (poolName : String),
      (∀ n ∈ names, n ∈ poolPropMap.map Prod.fst) →
      (∀ n ∈ poolPropMap.map Prod.fst, n ∈ names) →
      (d.GetPoolProps B poolName names t).1.2 = (d.GetPoolProps B poolName [] t).1.2 ∧
      ∀ n, (d.GetPoolProps B poolName names t).1.1.get n =
        (d.GetPoolProps B poolName [] t).1.1.get n) := by
  refine ⟨fun _ => rfl, fun _ => rfl, ?_, ?_, ?_⟩
  · rintro n ⟨h1, h2⟩
    have hd : ∀ n ∈ datasetPropMap.map Prod.fst, n ∉ poolPropMap.map Prod.fst := by decide
    exact hd n (GoMap_get_key _ n h1) (GoMap_get_key _ n h2)
  · intro hst names datasetName hsub hsup
    cases hd : d.h with
    | none => simp [libzfsDriver.GetDatasetProps, hd]
    | some u =>
      have hopen : d.h ≠ none := by rw [hd]; exact Option.some_ne_none u
      cases hz : B.zfs_open t datasetName ZFS_TYPE_DATASET with
      | none => simp [libzfsDriver.GetDatasetProps, hd, hz]
      | some zhp =>
        rw [GetDatasetProps_open B d datasetName names t zhp hopen hz,
          GetDatasetProps_open B d datasetName [] t zhp hopen hz]
        refine ⟨rfl, fun n => ?_⟩
        apply propsLoop_stable_perm B hst
        intro k hk
        have hkey := GoMap_get_key _ k hk
        by_cases hl : names.length = 0
        · simp only [hl, if_true, List.length_nil]
        · simp only [hl, if_false, List.length_nil, if_true]
          exact ⟨fun _ => hkey, fun h => hsup k h⟩
  · intro hst names poolName hsub hsup
    cases hd : d.h with
    | none => simp [libzfsDriver.GetPoolProps, hd]
    | some u =>
      have hopen : d.h ≠ none := by rw [hd]; exact Option.some_ne_none u
      cases hz : B.zpool_open t poolName with
      | none => simp [libzfsDriver.GetPoolProps, hd, hz]
      | some zhp =>
        rw [GetPoolProps_open B d poolName names t zhp hopen hz,
          GetPoolProps_open B d poolName [] t zhp hopen hz]
        refine ⟨rfl, fun n => ?_⟩
        apply propsLoop_stable_perm B hst
        intro k hk
        have hkey := GoMap_get_key _ k hk
        by_cases hl : names.length = 0
        · simp only [hl, if_true, List.length_nil]
        · simp only [hl, if_false, List.length_nil, if_true]
          exact ⟨fun _ => hkey, fun h => hsup k h⟩

theorem getProps_empty_means_all_witness :
    (liveDriver.GetDatasetProps sampleBackend "tank/data" [] []).1.1.map Prod.fst =
      ["used", "avail", "refer", "compressratio", "quota", "reservation", "recordsize",
        "mountpoint", "compression"] ∧
    (liveDriver.GetPoolProps sampleBackend "tank" [] []).1.1.map Prod.fst =
      ["size", "capacity", "health", "guid", "version", "free", "allocated"] ∧
    (∀ n, (liveDriver.GetPoolProps sampleBackend "tank"
        ["allocated", "free", "version", "guid", "health", "capacity", "size"] []).1.1.get n =
      (liveDriver.GetPoolProps sampleBackend "tank" [] []).1.1.get n) :=
  ⟨by decide, by decide,
    ((getProps_empty_means_all sampleBackend liveDriver []).2.2.2.2 (fun _ _ _ => ⟨rfl, rfl⟩)
      ["allocated", "free", "version", "guid", "health", "capacity", "size"] "tank"
      (by decide) (by decide)).2⟩

/-! ## Clones -/

theorem destroyCount_append (t1 t2 : Trace) :
    destroyCount (t1 ++ t2) = destroyCount t1 + destroyCount t2 := by
  simp [destroyCount, List.countP_append]

theorem destroyCount_libzfsFailure (B : Backend) (what : String) (t : Trace) :
    destroyCount (libzfsFailure B what t).2 = destroyCount t := by
  simp [libzfsFailure, go_libzfs_errno, go_libzfs_error_description, callInt, callStr,
    destroyCount, List.countP_append, List.countP_cons, Call.isDestroy]

theorem promoteCount_libzfsFailure (B : Backend) (what : String) (t : Trace) :
    promoteCount (libzfsFailure B what t).2 = promoteCount t := by
  simp [libzfsFailure, go_libzfs_errno, go_libzfs_error_description, callInt, callStr,
    promoteCount, List.countP_append, List.countP_cons, Call.isPromote]

theorem DestroyClone_not_open (B : Backend) (d : libzfsDriver) (cloneName : String)
    (force : Bool) (t : Trace)
    (hz : B.zfs_open t cloneName (go_get_zfs_type_filesystem ||| go_get_zfs_type_volume) = none) :
    destroyCount (d.DestroyClone B cloneName force t).2 = destroyCount t := by
  unfold libzfsDriver.DestroyClone
  cases d.h with
  | none => rfl
  | some _ =>
    simp only [hz]
    rw [destroyCount_libzfsFailure, destroyCount_append]
    simp [destroyCount, Call.isDestroy]

theorem DestroyClone_rejected (B : Backend) (d : libzfsDriver) (cloneName : String)
    (t : Trace) (zhp : ZfsNode) (hopen : d.h ≠ none)
    (hz : B.zfs_open t cloneName (go_get_zfs_type_filesystem ||| go_get_zfs_type_volume) =
      some zhp)
    (hc : (go_zfs_is_clone B zhp (t ++ [Call.zfs_open cloneName
      (go_get_zfs_type_filesystem ||| go_get_zfs_type_volume)])).1 = false) :
    d.DestroyClone B cloneName false t =
      (errorf ("dataset " ++ cloneName ++ " is not a clone"),
        t ++ [Call.zfs_open cloneName (go_get_zfs_type_filesystem ||| go_get_zfs_type_volume),
          Call.zfs_prop_get zhp.name zfs_prop_t.ZFS_PROP_ORIGIN, Call.zfs_close zhp.name]) := by
  unfold libzfsDriver.DestroyClone
  cases hd : d.h with
  | none => exact absurd hd hopen
  | some _ =>
    simp only [hz, hc, Bool.not_false, if_true, Bool.and_self, decide_True, callVoid]
    simp [go_zfs_is_clone]

theorem DestroyClone_issued (B : Backend) (d : libzfsDriver) (cloneName : String)
    (force : Bool) (t : Trace) (zhp : ZfsNode) (hopen : d.h ≠ none)
    (hz : B.zfs_open t cloneName (go_get_zfs_type_filesystem ||| go_get_zfs_type_volume) =
      some zhp)
    (hc : force = true ∨ (go_zfs_is_clone B zhp (t ++ [Call.zfs_open cloneName
      (go_get_zfs_type_filesystem ||| go_get_zfs_type_volume)])).1 = true) :
    destroyCount (d.DestroyClone B cloneName force t).2 = destroyCount t + 1 ∧
    (force = true → ∃ rest, (d.DestroyClone B cloneName force t).2 =
      t ++ [Call.zfs_open cloneName (go_get_zfs_type_filesystem ||| go_get_zfs_type_volume),
        Call.zfs_destroy zhp.name true] ++ rest) := by
  unfold libzfsDriver.DestroyClone
  cases hd : d.h with
  | none => exact absurd hd hopen
  | some _ =>
    cases force with
    | true =>
      simp only [hz, Bool.not_true, Bool.false_and, if_false, go_zfs_destroy, callInt, callVoid,
        Bool.false_eq_true]
      by_cases hr : B.int (t ++ [Call.zfs_open cloneName
          (go_get_zfs_type_filesystem ||| go_get_zfs_type_volume)])
          (Call.zfs_destroy zhp.name true) = 0
      · simp only [hr, ne_eq, not_true_eq_false, if_false]
        refine ⟨?_, fun _ => ⟨[Call.zfs_close zhp.name], by simp⟩⟩
        simp [destroyCount, List.countP_append, Call.isDestroy]
      · simp only [hr, ne_eq, not_false_eq_true, if_true]
        refine ⟨?_, fun _ =>
          ⟨[Call.libzfs_errno, Call.libzfs_error_description, Call.zfs_close zhp.name], ?_⟩⟩
        · rw [destroyCount_append, destroyCount_libzfsFailure, destroyCount_append,
            destroyCount_append]
          simp [destroyCount, Call.isDestroy]
        · simp [libzfsFailure, go_libzfs_errno, go_libzfs_error_description, callInt, callStr]
    | false =>
      have hc2 := hc.resolve_left (by simp)
      simp only [hz, hc2, Bool.not_false, Bool.true_and, if_true, go_zfs_destroy, callInt,
        callVoid, Bool.true_eq_false, decide_False, Bool.false_eq_true, if_false,
        false_implies, and_true]
      simp only [go_zfs_is_clone]
      by_cases hr : B.int (t ++ [Call.zfs_open cloneName
          (go_get_zfs_type_filesystem ||| go_get_zfs_type_volume)] ++
          [Call.zfs_prop_get zhp.name zfs_prop_t.ZFS_PROP_ORIGIN])
          (Call.zfs_destroy zhp.name false) = 0
      · simp only [hr, ne_eq, not_true_eq_false, if_false]
        simp [destroyCount, List.countP_append, Call.isDestroy]
      · simp only [hr, ne_eq, not_false_eq_true, if_true]
        rw [destroyCount_append, destroyCount_libzfsFailure, destroyCount_append,
          destroyCount_append, destroyCount_append]
        simp [destroyCount, Call.isDestroy]

theorem go_zfs_is_clone_empty_origin (B : Backend) (zhp : ZfsNode) (t : Trace)
    (h : B.str t (Call.zfs_prop_get zhp.name zfs_prop_t.ZFS_PROP_ORIGIN) = "") :
    (go_zfs_is_clone B zhp t).1 = false := by
  simp [go_zfs_is_clone, h]

theorem PromoteClone_rejected (B : Backend) (d : libzfsDriver) (cloneName : String)
    (t : Trace) (zhp : ZfsNode) (hopen : d.h ≠ none)
    (hz : (openFilesystemOrVolume B cloneName t).1 = some zhp)
    (hc : (go_zfs_is_clone B zhp (openFilesystemOrVolume B cloneName t).2).1 = false) :
    d.PromoteClone B cloneName t =
      (errorf ("dataset " ++ cloneName ++ " is not a clone"),
        (openFilesystemOrVolume B cloneName t).2 ++
          [Call.zfs_prop_get zhp.name zfs_prop_t.ZFS_PROP_ORIGIN, Call.zfs_close zhp.name]) := by
  unfold libzfsDriver.PromoteClone
  cases hd : d.h with
  | none => exact absurd hd hopen
  | some _ =>
    simp only [hz, hc, if_true, callVoid]
    simp [go_zfs_is_clone]

theorem promoteCount_openFilesystemOrVolume (B : Backend) (name : String) (t : Trace) :
    promoteCount (openFilesystemOrVolume B name t).2 = promoteCount t := by
  unfold openFilesystemOrVolume
  split <;> simp [promoteCount, List.countP_append, Call.isPromote]

/-- C19: on an open driver `DestroyClone` issues the library's destroy exactly when the
target opens and force is set or the library reports the target to be a clone, and
issues no destroy otherwise. With force unset on a dataset whose origin is empty it
returns an error and issues no destroy; with force set the origin is not queried and the
destroy follows the opening directly. -/
theorem DestroyClone_destroys_iff (B : Backend) (d : libzfsDriver) (cloneName : String)
    (force : Bool) (t : Trace) (hopen : d.h ≠ none) :
    (destroyCount (d.DestroyClone B cloneName force t).2 = destroyCount t + 1 ↔
      ∃ zhp, B.zfs_open t cloneName (go_get_zfs_type_filesystem ||| go_get_zfs_type_volume) =
          some zhp ∧
        (force = true ∨ (go_zfs_is_clone B zhp (t ++ [Call.zfs_open cloneName
          (go_get_zfs_type_filesystem ||| go_get_zfs_type_volume)])).1 = true)) ∧
    (destroyCount (d.DestroyClone B cloneName force t).2 = destroyCount t + 1 ∨
      destroyCount (d.DestroyClone B cloneName force t).2 = destroyCount t) ∧
    (force = false → ∀ zhp,
      B.zfs_open t cloneName (go_get_zfs_type_filesystem ||| go_get_zfs_type_volume) =
        some zhp →
      B.str (t ++ [Call.zfs_open cloneName
          (go_get_zfs_type_filesystem ||| go_get_zfs_type_volume)])
        (Call.zfs_prop_get zhp.name zfs_prop_t.ZFS_PROP_ORIGIN) = "" →
      (d.DestroyClone B cloneName force t).1 =
          errorf ("dataset " ++ cloneName ++ " is not a clone") ∧
        (d.DestroyClone B cloneName force t).1 ≠ GoError.nil ∧
        destroyCount (d.DestroyClone B cloneName force t).2 = destroyCount t) ∧
    (force = true → ∀ zhp,
      B.zfs_open t cloneName (go_get_zfs_type_filesystem ||| go_get_zfs_type_volume) =
        some zhp →
      ∃ rest, (d.DestroyClone B cloneName force t).2 =
        t ++ [Call.zfs_open cloneName (go_get_zfs_type_filesystem ||| go_get_zfs_type_volume),
          Call.zfs_destroy zhp.name true] ++ rest) := by
  have hrej : ∀ zhp,
      B.zfs_open t cloneName (go_get_zfs_type_filesystem ||| go_get_zfs_type_volume) =
        some zhp → force = false →
      (go_zfs_is_clone B zhp (t ++ [Call.zfs_open cloneName
        (go_get_zfs_type_filesystem ||| go_get_zfs_type_volume)])).1 = false →
      (d.DestroyClone B cloneName force t).1 =
          errorf ("dataset " ++ cloneName ++ " is not a clone") ∧
        destroyCount (d.DestroyClone B cloneName force t).2 = destroyCount t := by
    intro zhp hz hf hc
    subst hf
    rw [DestroyClone_rejected B d cloneName t zhp hopen hz hc]
    refine ⟨rfl, ?_⟩
    simp [destroyCount, List.countP_append, List.countP_cons, Call.isDestroy]
  refine ⟨?_, ?_, ?_, ?_⟩
  · constructor
    · intro h
      cases hz : B.zfs_open t cloneName
          (go_get_zfs_type_filesystem ||| go_get_zfs_type_volume) with
      | none =>
        rw [DestroyClone_not_open B d cloneName force t hz] at h
        omega
      | some zhp =>
        refine ⟨zhp, rfl, ?_⟩
        by_contra hc
        have hf : force = false := by
          cases force
          · rfl
          · exact absurd (Or.inl rfl) hc
        have hcl : (go_zfs_is_clone B zhp (t ++ [Call.zfs_open cloneName
            (go_get_zfs_type_filesystem ||| go_get_zfs_type_volume)])).1 = false := by
          cases hv : (go_zfs_is_clone B zhp (t ++ [Call.zfs_open cloneName
            (go_get_zfs_type_filesystem ||| go_get_zfs_type_volume)])).1
          · rfl
          · exact absurd (Or.inr hv) hc
        rw [(hrej zhp hz hf hcl).2] at h
        omega
    · rintro ⟨zhp, hz, hc⟩
      exact (DestroyClone_issued B d cloneName force t zhp hopen hz hc).1
  · cases hz : B.zfs_open t cloneName
        (go_get_zfs_type_filesystem ||| go_get_zfs_type_volume) with
    | none => exact Or.inr (DestroyClone_not_open B d cloneName force t hz)
    | some zhp =>
      by_cases hc : force = true ∨ (go_zfs_is_clone B zhp (t ++ [Call.zfs_open cloneName
          (go_get_zfs_type_filesystem ||| go_get_zfs_type_volume)])).1 = true
      · exact Or.inl (DestroyClone_issued B d cloneName force t zhp hopen hz hc).1
      · have hf : force = false := by
          cases force
          · rfl
          · exact absurd (Or.inl rfl) hc
        have hcl : (go_zfs_is_clone B zhp (t ++ [Call.zfs_open cloneName
            (go_get_zfs_type_filesystem ||| go_get_zfs_type_volume)])).1 = false := by
          cases hv : (go_zfs_is_clone B zhp (t ++ [Call.zfs_open cloneName
            (go_get_zfs_type_filesystem ||| go_get_zfs_type_volume)])).1
          · rfl
          · exact absurd (Or.inr hv) hc
        exact Or.inr (hrej zhp hz hf hcl).2
  · intro hf zhp hz ho
    have h := hrej zhp hz hf (go_zfs_is_clone_empty_origin B zhp _ ho)
    refine ⟨h.1, ?_, h.2⟩
    rw [h.1]
    simp [errorf]
  · intro hf zhp hz
    exact (DestroyClone_issued B d cloneName force t zhp hopen hz (Or.inl hf)).2 hf

theorem DestroyClone_destroys_iff_witness :
    liveDriver.h ≠ none ∧
    destroyCount (liveDriver.DestroyClone notCloneBackend "tank/notaclone" true []).2 = 1 ∧
    destroyCount (liveDriver.DestroyClone sampleBackend "tank/clone" false []).2 = 1 ∧
    ((liveDriver.DestroyClone notCloneBackend "tank/notaclone" false []).1 =
        errorf ("dataset " ++ "tank/notaclone" ++ " is not a clone") ∧
      (liveDriver.DestroyClone notCloneBackend "tank/notaclone" false []).1 ≠ GoError.nil ∧
      destroyCount (liveDriver.DestroyClone notCloneBackend "tank/notaclone" false []).2 =
        destroyCount []) :=
  ⟨by decide, by decide, by decide,
    (DestroyClone_destroys_iff notCloneBackend liveDriver "tank/notaclone" false []
      (by decide)).2.2.1 rfl (ZfsNode.mk "tank/notaclone" 1 12 [] 0 [] 0) rfl rfl⟩

/-- C20, as the claim states it, fails: the error `DestroyClone` returns for
"tank/notaclone" with an empty origin and force unset is the plain error of
`fmt.Errorf`; no structured error is in its chain, so it has no kind and no Op, and
`EINVAL` in particular is not its kind. The same holds for `PromoteClone`. -/
theorem DestroyClone_error_not_structured :
    (liveDriver.DestroyClone notCloneBackend "tank/notaclone" false []).1 =
      GoError.foreign "dataset tank/notaclone is not a clone" GoError.nil ∧
    (liveDriver.PromoteClone notCloneBackend "tank/notaclone" []).1 =
      GoError.foreign "dataset tank/notaclone is not a clone" GoError.nil ∧
    AsZfsError (GoError.foreign "dataset tank/notaclone is not a clone" GoError.nil) = none ∧
    ¬ ∃ z, AsZfsError
        (GoError.foreign "dataset tank/notaclone is not a clone" GoError.nil) = some z ∧
      z.Code = ErrCodeInval := by
  refine ⟨by decide, by decide, rfl, ?_⟩
  rintro ⟨z, hz, _⟩
  simp [AsZfsError] at hz

/-- C20, amended: on an open driver, when the target opens and the library does not
report it to be a clone (its origin is empty), `DestroyClone` with force unset and
`PromoteClone` fail with the plain error of `fmt.Errorf` "dataset NAME is not a clone"
and issue no destroy and no promote; that error is not nil, unwraps to nil and is not a
structured error: `IsZfsError` and every predicate of the family are false on it. -/
theorem clone_check_plain_error (B : Backend) (d : libzfsDriver) (cloneName : String)
    (t : Trace) (hopen : d.h ≠ none) :
    (∀ zhp,
      B.zfs_open t cloneName (go_get_zfs_type_filesystem ||| go_get_zfs_type_volume) =
        some zhp →
      (go_zfs_is_clone B zhp (t ++ [Call.zfs_open cloneName
        (go_get_zfs_type_filesystem ||| go_get_zfs_type_volume)])).1 = false →
      (d.DestroyClone B cloneName false t).1 =
          errorf ("dataset " ++ cloneName ++ " is not a clone") ∧
        destroyCount (d.DestroyClone B cloneName false t).2 = destroyCount t) ∧
    (∀ zhp, (openFilesystemOrVolume B cloneName t).1 = some zhp →
      (go_zfs_is_clone B zhp (openFilesystemOrVolume B cloneName t).2).1 = false →
      (d.PromoteClone B cloneName t).1 =
          errorf ("dataset " ++ cloneName ++ " is not a clone") ∧
        promoteCount (d.PromoteClone B cloneName t).2 = promoteCount t) ∧
    errorf ("dataset " ++ cloneName ++ " is not a clone") ≠ GoError.nil ∧
    (errorf ("dataset " ++ cloneName ++ " is not a clone")).Unwrap = GoError.nil ∧
    IsZfsError (errorf ("dataset " ++ cloneName ++ " is not a clone")) = false ∧
    ∀ P ∈ predicateFamily, P (errorf ("dataset " ++ cloneName ++ " is not a clone")) = false := by
  refine ⟨?_, ?_, by simp [errorf], rfl, rfl, fun P hP => predicateFamily_errorf _ P hP⟩
  · intro zhp hz hc
    rw [DestroyClone_rejected B d cloneName t zhp hopen hz hc]
    refine ⟨rfl, ?_⟩
    simp [destroyCount, List.countP_append, List.countP_cons, Call.isDestroy]
  · intro zhp hz hc
    rw [PromoteClone_rejected B d cloneName t zhp hopen hz hc]
    refine ⟨rfl, ?_⟩
    have h := promoteCount_openFilesystemOrVolume B cloneName t
    simp only [promoteCount, List.countP_append, List.countP_cons, Call.isPromote] at h ⊢
    simp [h]

theorem clone_check_plain_error_witness :
    liveDriver.h ≠ none ∧
    notCloneBackend.str [Call.zfs_open "tank/notaclone"
        (go_get_zfs_type_filesystem ||| go_get_zfs_type_volume)]
      (Call.zfs_prop_get "tank/notaclone" zfs_prop_t.ZFS_PROP_ORIGIN) = "" ∧
    ((liveDriver.DestroyClone notCloneBackend "tank/notaclone" false []).1 =
        errorf ("dataset " ++ "tank/notaclone" ++ " is not a clone") ∧
      destroyCount (liveDriver.DestroyClone notCloneBackend "tank/notaclone" false []).2 =
        destroyCount []) :=
  ⟨by decide, by decide,
    (clone_check_plain_error notCloneBackend liveDriver "tank/notaclone" [] (by decide)).1
      (ZfsNode.mk "tank/notaclone" 1 12 [] 0 [] 0) rfl rfl⟩

/-! ## Backend failures -/

theorem libzfsFailure_eq (B : Backend) (what : String) (t : Trace) :
    libzfsFailure B what t =
      (backendFailure what (B.int t Call.libzfs_errno)
          (B.str (t ++ [Call.libzfs_errno]) Call.libzfs_error_description),
        t ++ [Call.libzfs_errno, Call.libzfs_error_description]) := by
  simp [libzfsFailure, backendFailure, go_libzfs_errno, go_libzfs_error_description, callInt,
    callStr]

/-- C21 fails on the code: no backend call failure is converted into a structured error.
On a library every call of which fails with the error number 16, `DestroyPool`, `ListPools`
and `CreateDataset`, and with them `DestroyDataset`, `CreateSnapshot`, `DestroySnapshot`,
`ExportPool`, `SetDatasetProp`, `CreateClone`, `RollbackToSnapshot` and `ListDatasets`,
return the plain error of `fmt.Errorf`: it is not a `ZfsError`, so it has no Op, no Resource
and no kind, and the kind EBUSY that `MapErrno` gives for 16 is not attached to it. On a
library that opens no dataset and reports the error number 2, `GetProperties` of the dataset
client for "fake/dataset" returns the plain error of `GetDatasetProps` under a plain
wrapper: `IsZfsError` and `IsDatasetNotFound` are false on it, although `MapErrno` gives
ENOENT for 2. -/
theorem backend_failure_not_structured :
    (liveDriver.DestroyPool failingBackend "tank" []).1 =
      GoError.foreign "failed to destroy pool tank (errno 16): pool is busy" GoError.nil ∧
    IsZfsError (liveDriver.DestroyPool failingBackend "tank" []).1 = false ∧
    (liveDriver.ListPools failingBackend []).1.2 =
      GoError.foreign "failed to iterate pools (errno 16): pool is busy" GoError.nil ∧
    IsZfsError (liveDriver.ListPools failingBackend []).1.2 = false ∧
    (liveDriver.CreateDataset failingBackend "tank/data" DatasetType.DatasetFilesystem [] []).1 =
      GoError.foreign "failed to create dataset tank/data (errno 16): pool is busy" GoError.nil ∧
    IsZfsError (liveDriver.CreateDataset failingBackend "tank/data"
      DatasetType.DatasetFilesystem [] []).1 = false ∧
    (¬ ∃ z, AsZfsError (liveDriver.DestroyPool failingBackend "tank" []).1 = some z ∧
      z.Code = MapErrno 16) ∧
    MapErrno 16 = "EBUSY" ∧
    ((liveDriver.DestroyDataset failingBackend "tank/data" false []).1 =
        GoError.foreign "failed to destroy dataset tank/data (errno 16): pool is busy"
          GoError.nil ∧
      (liveDriver.CreateSnapshot failingBackend "tank@s" false [] []).1 =
        GoError.foreign "failed to create snapshot tank@s (errno 16): pool is busy"
          GoError.nil ∧
      (liveDriver.DestroySnapshot failingBackend "tank@s" []).1 =
        GoError.foreign "failed to destroy snapshot tank@s (errno 16): pool is busy"
          GoError.nil ∧
      (liveDriver.ExportPool failingBackend "tank" { Force := false, Message := "" } []).1 =
        GoError.foreign "failed to export pool tank (errno 16): pool is busy" GoError.nil ∧
      (liveDriver.SetDatasetProp failingBackend "tank/data" "quota" "1G" []).1 =
        GoError.foreign
          "failed to set property quota=1G on dataset tank/data (errno 16): pool is busy"
          GoError.nil ∧
      (liveDriver.CreateClone failingBackend "tank@s" "tank/c" [] []).1 =
        GoError.foreign
          "failed to create clone tank/c from snapshot tank@s (errno 16): pool is busy"
          GoError.nil ∧
      (liveDriver.RollbackToSnapshot failingBackend "tank/data" "s" false []).1 =
        GoError.foreign "failed to rollback tank/data to snapshot s (errno 16): pool is busy"
          GoError.nil ∧
      (liveDriver.ListDatasets failingBackend true []).1.2 =
        GoError.foreign "failed to iterate datasets (errno 16): pool is busy" GoError.nil) ∧
    (liveDriver.GetDatasetProps notFoundBackend "fake/dataset" ["used", "avail"] []).1.2 =
      GoError.foreign "failed to open dataset fake/dataset (errno 2): dataset does not exist"
        GoError.nil ∧
    (liveDriver.GetPoolProps notFoundBackend "nopool" [] []).1.2 =
      GoError.foreign "failed to open pool nopool (errno 2): dataset does not exist"
        GoError.nil ∧
    (zfs.Client.GetProperties notFoundBackend { d := some liveDriver } "fake/dataset"
        ["used", "avail"] []).1 =
      (none, GoError.foreign
        ("failed to get dataset properties: " ++
          "failed to open dataset fake/dataset (errno 2): dataset does not exist")
        (GoError.foreign "failed to open dataset fake/dataset (errno 2): dataset does not exist"
          GoError.nil)) ∧
    IsZfsError (zfs.Client.GetProperties notFoundBackend { d := some liveDriver }
      "fake/dataset" ["used", "avail"] []).1.2 = false ∧
    IsDatasetNotFound (zfs.Client.GetProperties notFoundBackend { d := some liveDriver }
      "fake/dataset" ["used", "avail"] []).1.2 = false ∧
    AsZfsError (zfs.Client.GetProperties notFoundBackend { d := some liveDriver }
      "fake/dataset" ["used", "avail"] []).1.2 = none ∧
    MapErrno 2 = "ENOENT" := by
  refine ⟨by decide, by decide, by decide, by decide, by decide, by decide, ?_, by decide,
    ⟨by decide, by decide, by decide, by decide, by decide, by decide, by decide, by decide⟩,
    by decide, by decide, by decide, by decide, by decide, by decide, by decide⟩
  rintro ⟨z, hz, _⟩
  have h : AsZfsError (liveDriver.DestroyPool failingBackend "tank" []).1 = none := by decide
  rw [h] at hz
  exact Option.noConfusion hz

/-- The error of a failed library call is the plain error of `fmt.Errorf`, whatever the
library and the state of the run. When `zpool_destroy` fails in `DestroyPool`, the pool
iteration fails in `ListPools`, or `zfs_create` fails in `CreateDataset`, the error
returned carries in its message the operation, the resource (none for `ListPools`) and
the error number and description the library reports; that error is not nil, unwraps to
nil and is not a structured error: `IsZfsError` and every predicate of the family are
false on it. -/
theorem backend_failure_plain_error (B : Backend) (d : libzfsDriver) (t : Trace)
    (hopen : d.h ≠ none) :
    (∀ poolName zhp, B.zpool_open t poolName = some zhp →
      B.int (t ++ [Call.zpool_open poolName])
        (Call.zpool_destroy zhp.name "Destroyed via Go ZFS library") ≠ 0 →
      (d.DestroyPool B poolName t).1 =
        backendFailure ("failed to destroy pool " ++ poolName)
          (B.int (t ++ [Call.zpool_open poolName,
            Call.zpool_destroy zhp.name "Destroyed via Go ZFS library"]) Call.libzfs_errno)
          (B.str (t ++ [Call.zpool_open poolName,
            Call.zpool_destroy zhp.name "Destroyed via Go ZFS library", Call.libzfs_errno])
            Call.libzfs_error_description)) ∧
    ((go_iter_pools B go_pool_iter_callback { pools := [], err := GoError.nil } t).1.1 ≠ 0 →
      (d.ListPools B t).1.1 = [] ∧
      (d.ListPools B t).1.2 =
        backendFailure "failed to iterate pools"
          (B.int (go_iter_pools B go_pool_iter_callback
            { pools := [], err := GoError.nil } t).2 Call.libzfs_errno)
          (B.str ((go_iter_pools B go_pool_iter_callback
            { pools := [], err := GoError.nil } t).2 ++ [Call.libzfs_errno])
            Call.libzfs_error_description)) ∧
    (∀ datasetName ty,
      B.int t (Call.zfs_create datasetName
        (if ty = DatasetType.DatasetVolume then go_get_zfs_type_volume
          else go_get_zfs_type_filesystem) none) ≠ 0 →
      ty = DatasetType.DatasetFilesystem ∨ ty = DatasetType.DatasetVolume →
      (d.CreateDataset B datasetName ty [] t).1 =
        backendFailure ("failed to create dataset " ++ datasetName)
          (B.int (t ++ [Call.zfs_create datasetName
            (if ty = DatasetType.DatasetVolume then go_get_zfs_type_volume
              else go_get_zfs_type_filesystem) none]) Call.libzfs_errno)
          (B.str (t ++ [Call.zfs_create datasetName
            (if ty = DatasetType.DatasetVolume then go_get_zfs_type_volume
              else go_get_zfs_type_filesystem) none, Call.libzfs_errno])
            Call.libzfs_error_description)) ∧
    (∀ what errno desc,
      backendFailure what errno desc ≠ GoError.nil ∧
      (backendFailure what errno desc).Unwrap = GoError.nil ∧
      IsZfsError (backendFailure what errno desc) = false ∧
      ∀ P ∈ predicateFamily, P (backendFailure what errno desc) = false) := by
  cases hd : d.h with
  | none => exact absurd hd hopen
  | some u =>
    refine ⟨?_, ?_, ?_, ?_⟩
    · intro poolName zhp hz hr
      simp only [libzfsDriver.DestroyPool, hd, hz, callInt, hr, ne_eq, not_false_eq_true,
        if_true, libzfsFailure_eq]
      simp
    · intro hr
      simp only [libzfsDriver.ListPools, hd, hr, ne_eq, not_false_eq_true, if_true,
        libzfsFailure_eq]
      exact ⟨trivial, trivial⟩
    · intro datasetName ty hr hty
      rcases hty with h | h <;> subst h
      · simp only [reduceCtorEq, if_false] at hr
        simp [libzfsDriver.CreateDataset, hd, libzfsDriver.createPropsNvlist, callInt, hr,
          libzfsDriver.getLibzfsError, backendFailure, go_libzfs_errno,
          go_libzfs_error_description, callStr, libzfsDriver.freeNvlist]
      · simp only [if_true] at hr
        simp [libzfsDriver.CreateDataset, hd, libzfsDriver.createPropsNvlist, callInt, hr,
          libzfsDriver.getLibzfsError, backendFailure, go_libzfs_errno,
          go_libzfs_error_description, callStr, libzfsDriver.freeNvlist]
    · intro what errno desc
      exact ⟨by simp [backendFailure, errorf], rfl, rfl,
        fun P hP => predicateFamily_errorf _ P hP⟩

theorem backend_failure_plain_error_witness :
    liveDriver.h ≠ none ∧
    failingBackend.zpool_open [] "tank" = some { name := "tank", state := 0, status := 7 } ∧
    failingBackend.int ([] ++ [Call.zpool_open "tank"])
      (Call.zpool_destroy "tank" "Destroyed via Go ZFS library") ≠ 0 ∧
    (liveDriver.DestroyPool failingBackend "tank" []).1 =
      backendFailure ("failed to destroy pool " ++ "tank")
        (failingBackend.int ([] ++ [Call.zpool_open "tank",
          Call.zpool_destroy "tank" "Destroyed via Go ZFS library"]) Call.libzfs_errno)
        (failingBackend.str ([] ++ [Call.zpool_open "tank",
          Call.zpool_destroy "tank" "Destroyed via Go ZFS library", Call.libzfs_errno])
          Call.libzfs_error_description) :=
  ⟨by decide, rfl, by decide,
    (backend_failure_plain_error failingBackend liveDriver [] (by decide)).1 "tank"
      { name := "tank", state := 0, status := 7 } rfl (by decide)⟩

/-! ## Defects -/

/-- C26 fails on the code: `go_zfs_destroy_recursive` ignores its argument and makes the
call `zfs_destroy(zhp, B_FALSE)` that `go_zfs_destroy(zhp, 0)` makes, so `DestroyDataset`
with recursive set returns the same error and makes the same calls as with recursive
unset; on the sample library both make the one destroy request `zfs_destroy "tank/data"
false`. -/
theorem DestroyDataset_recursive_not_forwarded (B : Backend) (d : libzfsDriver)
    (datasetName : String) (t : Trace) :
    d.DestroyDataset B datasetName true t = d.DestroyDataset B datasetName false t ∧
    liveDriver.DestroyDataset sampleBackend "tank/data" true [] =
      (GoError.nil, [Call.zfs_open "tank/data" ZFS_TYPE_DATASET,
        Call.zfs_destroy "tank/data" false, Call.zfs_close "tank/data"]) ∧
    liveDriver.DestroyDataset sampleBackend "tank/data" false [] =
      (GoError.nil, [Call.zfs_open "tank/data" ZFS_TYPE_DATASET,
        Call.zfs_destroy "tank/data" false, Call.zfs_close "tank/data"]) := by
  refine ⟨?_, rfl, rfl⟩
  unfold libzfsDriver.DestroyDataset
  cases d.h with
  | none => rfl
  | some _ =>
    cases B.zfs_open t datasetName ZFS_TYPE_DATASET with
    | none => rfl
    | some zhp => simp [go_zfs_destroy_recursive, go_zfs_destroy]

/-- C27 fails on the code: when the allocation of the disk leaf fails,
`createComplexVdevNvlist` returns a nil error with a null tree, and so it does when the
allocation of the mirror parent fails after the leaves were built; `AddVdev` then passes
the null tree to `zpool_add` and returns nil. -/
theorem createComplexVdevNvlist_null_tree_nil_error :
    libzfsDriver.createComplexVdevNvlist allocFailsBackend
        { Type_ := "disk", Devices := ["/dev/da0"] } [] =
      some ((none, GoError.nil), [Call.nvlist_alloc]) ∧
    liveDriver.AddVdev allocFailsBackend "tank" { Type_ := "disk", Devices := ["/dev/da0"] } [] =
      some (GoError.nil, [Call.zpool_open "tank", Call.nvlist_alloc,
        Call.zpool_add "tank" none, Call.zpool_close "tank"]) ∧
    (libzfsDriver.createComplexVdevNvlist parentFailsBackend
        { Type_ := "mirror", Devices := ["/dev/da0", "/dev/da1"] } []).map (fun r => r.1) =
      some (none, GoError.nil) ∧
    (liveDriver.AddVdev parentFailsBackend "tank"
        { Type_ := "mirror", Devices := ["/dev/da0", "/dev/da1"] } []).map
        (fun r => (r.1, r.2.drop 10)) =
      some (GoError.nil, [Call.zpool_add "tank" none, Call.zpool_close "tank"]) :=
  ⟨rfl, rfl, rfl, rfl⟩

/-- C28 fails on the code: `getCloneList` frees the clones tree without reading it, so
`ListClones` returns no name whatever the tree holds; for a snapshot whose clones tree
holds one entry `ListClones` returns the empty list and `GetCloneInfo` reports
CloneCount 1 with no Dependents. -/
theorem ListClones_returns_no_clone (B : Backend) (d : libzfsDriver) (snapshotName : String)
    (t : Trace) :
    (d.ListClones B snapshotName t).1.1 = [] ∧
    (clonesBackend.clones [] "tank@snap1").map (fun nvl => nvl.strings.map Prod.fst) =
      some ["tank/clone"] ∧
    (liveDriver.ListClones clonesBackend "tank@snap1" []).1 = ([], GoError.nil) ∧
    (liveDriver.GetCloneInfo clonesBackend "tank@snap1" []).1 =
      (some { Name := "tank@snap1", Origin := "", IsClone := false, CloneCount := 1,
              Dependents := [] }, GoError.nil) := by
  refine ⟨?_, rfl, rfl, rfl⟩
  unfold libzfsDriver.ListClones
  cases d.h with
  | none => rfl
  | some _ =>
    cases B.zfs_open t snapshotName go_get_zfs_type_snapshot with
    | none => rfl
    | some zhp =>
      simp only [libzfsDriver.getCloneList]
      cases (go_zfs_get_clones_nvlist B zhp
        (t ++ [Call.zfs_open snapshotName go_get_zfs_type_snapshot])).1 <;> rfl

/-- C29 fails on the code: five of the names `GetAvailableFeatures` returns are missing
from the table of `checkZFSFeature`, and `SupportsFeature` reports each of them as not
supported; "sha512" is one. The second half of the claim holds: for a name that is not
in the table `SupportsFeature` returns false and no error. -/
theorem available_features_not_all_supported (d : libzfsDriver) (feature : String)
    (t : Trace) :
    "sha512" ∈ (liveDriver.GetAvailableFeatures []).1.1 ∧
    (liveDriver.GetAvailableFeatures []).1.2 = GoError.nil ∧
    (liveDriver.SupportsFeature "sha512" []).1 = (false, GoError.nil) ∧
    (liveDriver.GetAvailableFeatures []).1.1.filter
        (fun f => !(liveDriver.SupportsFeature f []).1.1) =
      ["filesystem_limits", "large_dnode", "sha512", "skein", "edonr"] ∧
    (d.h ≠ none → commonFeatures.get feature = none →
      (d.SupportsFeature feature t).1 = (false, GoError.nil)) := by
  refine ⟨by decide, by decide, by decide, by decide, ?_⟩
  intro hopen hf
  unfold libzfsDriver.SupportsFeature
  cases hd : d.h with
  | none => exact absurd hd hopen
  | some _ => simp [libzfsDriver.checkZFSFeature, hf]

/-! ## The recursive argument of the listings -/

/-- C30: the listings do not depend on the recursive argument. For every library, driver,
type filter and trace, `ListDatasets` and `ListDatasetsByType` return the same datasets
in the same order, the same error and make the same calls with recursive set and unset;
and `ListDatasetsInPool` returns, with the error and the calls of `ListDatasets`, exactly
the sub-list of the datasets of `ListDatasets` whose name is the pool name or starts with
the pool name followed by "/". -/
theorem listings_ignore_recursive (B : Backend) (d : libzfsDriver)
    (dsType : Option DatasetType) (poolName : String) (recursive : Bool) (t : Trace) :
    d.ListDatasets B true t = d.ListDatasets B false t ∧
    d.ListDatasetsByType B dsType true t = d.ListDatasetsByType B dsType false t ∧
    ((d.ListDatasetsByType B dsType true t).1.1).Perm
      (d.ListDatasetsByType B dsType false t).1.1 ∧
    (d.ListDatasetsInPool B poolName recursive t).1.1 =
      (d.ListDatasets B recursive t).1.1.filter
        (fun dataset => decide (dataset.Name = poolName) ||
          HasPrefix dataset.Name (poolName ++ "/")) ∧
    (d.ListDatasetsInPool B poolName recursive t).1.2 = (d.ListDatasets B recursive t).1.2 ∧
    (d.ListDatasetsInPool B poolName recursive t).2 = (d.ListDatasets B recursive t).2 ∧
    d.ListDatasetsInPool B poolName true t = d.ListDatasetsInPool B poolName false t := by
  have h1 : d.ListDatasets B true t = d.ListDatasets B false t := rfl
  have h2 : d.ListDatasetsByType B dsType true t = d.ListDatasetsByType B dsType false t := rfl
  have hf : ∀ l : List DatasetInfo,
      l.filter (fun dataset =>
        HasPrefix dataset.Name (poolName ++ "/") || decide (dataset.Name = poolName)) =
      l.filter (fun dataset => decide (dataset.Name = poolName) ||
        HasPrefix dataset.Name (poolName ++ "/")) := by
    intro l
    apply List.filter_congr
    intro x _
    exact Bool.or_comm _ _
  refine ⟨h1, h2, by rw [h2], ?_, ?_, ?_, rfl⟩
  · unfold libzfsDriver.ListDatasetsInPool
    by_cases he : (d.ListDatasets B recursive t).1.2 = GoError.nil
    · simp only [he, ne_eq, not_true_eq_false, if_false]
      exact hf _
    · simp only [he, ne_eq, not_false_eq_true, if_true]
      have hnil : (d.ListDatasets B recursive t).1.1 = [] := by
        revert he
        unfold libzfsDriver.ListDatasets
        cases d.h with
        | none => intro _; rfl
        | some _ =>
          simp only []
          split
          · intro _; rfl
          · split
            · intro _; rfl
            · intro he; exact absurd rfl he
      rw [hnil]
      rfl
  · unfold libzfsDriver.ListDatasetsInPool
    by_cases he : (d.ListDatasets B recursive t).1.2 = GoError.nil
    · simp only [he, ne_eq, not_true_eq_false, if_false]
    · simp only [he, ne_eq, not_false_eq_true, if_true]
  · unfold libzfsDriver.ListDatasetsInPool
    by_cases he : (d.ListDatasets B recursive t).1.2 = GoError.nil
    · simp only [he, ne_eq, not_true_eq_false, if_false]
    · simp only [he, ne_eq, not_false_eq_true, if_true]

end driver

namespace zfs

open errors driver

/-! ## Names of datasets -/

theorem cutAt_none (sep : Char) (s : List Char) (h : sep ∉ s) : cutAt sep s = none := by
  induction s with
  | nil => rfl
  | cons x xs ih =>
    have hx : ¬ x = sep := fun e => h (by rw [e]; exact List.mem_cons_self _ _)
    have hxs : sep ∉ xs := fun e => h (List.mem_cons_of_mem _ e)
    simp [cutAt, hx, ih hxs]

theorem cutAt_append (sep : Char) (a b : List Char) (h : sep ∉ a) :
    cutAt sep (a ++ sep :: b) = some (a, b) := by
  induction a with
  | nil => simp [cutAt]
  | cons x xs ih =>
    have hx : ¬ x = sep := fun e => h (by rw [e]; exact List.mem_cons_self _ _)
    have hxs : sep ∉ xs := fun e => h (List.mem_cons_of_mem _ e)
    simp [cutAt, hx, ih hxs]

/-- The names `Pool` handles as documented: for a pool name `p` without "/", the pool of
the dataset `p` is `p`, and so is the pool of every dataset `p/rest`, snapshots
`p/path@snap` included. -/
theorem Dataset_Pool_of_path (p rest : String) (ty : DatasetType) (guid : Nat)
    (hp : '/' ∉ p.data) :
    (Dataset.mk p ty guid).Pool = some p ∧
    (Dataset.mk (p ++ "/" ++ rest) ty guid).Pool = some p := by
  constructor
  · simp [Dataset.Pool, SplitN, splitNChars, cutAt_none '/' p.data hp]
  · have hd : (p ++ "/" ++ rest).data = p.data ++ '/' :: rest.data := by
      simp [String.data_append]
    simp [Dataset.Pool, SplitN, splitNChars, hd, cutAt_append '/' p.data rest.data hp]

theorem Dataset_Pool_of_path_witness :
    '/' ∉ "tank".data ∧
    ((Dataset.mk "tank" TypeFilesystem 11).Pool = some "tank" ∧
      (Dataset.mk ("tank" ++ "/" ++ "data@snap1") TypeSnapshot 14).Pool = some "tank") :=
  ⟨by decide, Dataset_Pool_of_path "tank" "data@snap1" TypeSnapshot 14 (by decide)⟩

/-- C22 fails on the code: `Pool` cuts the name at the first "/" only, so for the
snapshot "tank@snap1" of the root dataset of the pool "tank" it returns "tank@snap1",
not "tank"; in general the pool of `p@snap` is `p@snap` when neither part has a "/". -/
theorem Dataset_Pool_root_snapshot (p snap : String) (ty : DatasetType) (guid : Nat) :
    (Dataset.mk "tank@snap1" TypeSnapshot 13).Pool = some "tank@snap1" ∧
    (Dataset.mk "tank@snap1" TypeSnapshot 13).Pool ≠ some "tank" ∧
    (Dataset.mk "tank/data@snap1" TypeSnapshot 14).Pool = some "tank" ∧
    ('/' ∉ p.data → '/' ∉ snap.data →
      (Dataset.mk (p ++ "@" ++ snap) ty guid).Pool = some (p ++ "@" ++ snap)) := by
  refine ⟨by decide, by decide, by decide, ?_⟩
  intro hp hs
  have hn : '/' ∉ (p ++ "@" ++ snap).data := by
    simp only [String.data_append, List.mem_append, not_or]
    exact ⟨⟨hp, by decide⟩, hs⟩
  unfold Dataset.Pool SplitN
  simp only [splitNChars, cutAt_none '/' _ hn, List.map_cons, List.map_nil, List.head?_cons]

/-! ## Snapshots and their parents -/

theorem lastIndexOf_none (c : Char) (s : List Char) : lastIndexOf c s = none ↔ c ∉ s := by
  induction s with
  | nil => simp [lastIndexOf]
  | cons x xs ih =>
    rw [lastIndexOf]
    cases h : lastIndexOf c xs with
    | some k =>
      have hin : c ∈ xs := by
        by_contra hc
        rw [ih.mpr hc] at h
        exact Option.noConfusion h
      simp [hin]
    | none =>
      have hnot := ih.mp h
      by_cases hx : x = c
      · simp [hx]
      · have hx2 : ¬ c = x := fun e => hx e.symm
        simp [hx, hx2, hnot]

theorem lastIndexOf_some (c : Char) (s : List Char) :
    ∀ k, lastIndexOf c s = some k →
      s = s.take k ++ c :: s.drop (k + 1) ∧ c ∉ s.drop (k + 1) := by
  induction s with
  | nil => intro k h; simp [lastIndexOf] at h
  | cons x xs ih =>
    intro k h
    rw [lastIndexOf] at h
    cases hl : lastIndexOf c xs with
    | some j =>
      rw [hl] at h
      simp only [Option.some.injEq] at h
      subst h
      obtain ⟨h1, h2⟩ := ih j hl
      refine ⟨?_, ?_⟩
      · simp only [List.take_succ_cons, List.drop_succ_cons, List.cons_append]
        rw [← h1]
      · simpa using h2
    | none =>
      rw [hl] at h
      by_cases hx : x = c
      · simp only [hx, if_true, Option.some.injEq] at h
        subst h
        refine ⟨by simp [hx], ?_⟩
        simpa using (lastIndexOf_none c xs).mp hl
      · simp [hx] at h

theorem listSnapshotsLoop_eq (parent : String) (infos : List DatasetInfo) :
    ∀ snapshots, listSnapshotsLoop parent infos snapshots =
      snapshots ++ infos.filterMap (snapshotOf parent) := by
  induction infos with
  | nil => intro snapshots; simp [listSnapshotsLoop]
  | cons info rest ih =>
    intro snapshots
    rw [listSnapshotsLoop, List.filterMap_cons]
    simp only []
    by_cases h1 : LastIndex info.Name '@' = -1
    · simp only [h1, if_true, snapshotOf]
      exact ih snapshots
    · by_cases h2 : parent ≠ "" ∧ (sliceTo info.Name (LastIndex info.Name '@') ≠ parent ∧
          HasPrefix (sliceTo info.Name (LastIndex info.Name '@')) (parent ++ "/") = false)
      · simp only [h1, h2, if_false, if_true, snapshotOf, and_self, ne_eq, not_false_eq_true]
        exact ih snapshots
      · simp only [h1, h2, if_false, snapshotOf]
        rw [ih]
        simp

theorem snapshotOf_some (parent : String) (info : DatasetInfo) (s : Snapshot)
    (h : snapshotOf parent info = some s) :
    ∃ k, lastIndexOf '@' info.Name.data = some k ∧
      s = { Name := info.Name, Type_ := mapDriverTypeToPublic info.Type_, GUID := info.GUID,
            Parent := String.mk (info.Name.data.take k) } ∧
      (parent ≠ "" → s.Parent = parent ∨ HasPrefix s.Parent (parent ++ "/") = true) := by
  unfold snapshotOf at h
  cases hl : lastIndexOf '@' info.Name.data with
  | none => simp [LastIndex, hl] at h
  | some k =>
    have hli : LastIndex info.Name '@' = (k : Int) := by simp [LastIndex, hl]
    have hne : ¬ ((k : Int) = -1) := by omega
    rw [hli] at h
    simp only [hne, if_false] at h
    have hs : sliceTo info.Name (k : Int) = String.mk (info.Name.data.take k) := by
      simp [sliceTo]
    rw [hs] at h
    split at h
    · exact Option.noConfusion h
    · rename_i hcond
      simp only [Option.some.injEq] at h
      refine ⟨k, rfl, h.symm, ?_⟩
      intro hp
      rw [← h]
      simp only
      by_contra hc
      apply hcond
      refine ⟨hp, fun e => hc (Or.inl e), ?_⟩
      cases hh : HasPrefix (String.mk (info.Name.data.take k)) (parent ++ "/")
      · rfl
      · exact absurd (Or.inr hh) hc

theorem snapshotOf_isSome (parent : String) (info : DatasetInfo) (h : '@' ∈ info.Name.data)
    (hp : parent = "" ∨ sliceTo info.Name (LastIndex info.Name '@') = parent ∨
      HasPrefix (sliceTo info.Name (LastIndex info.Name '@')) (parent ++ "/") = true) :
    ∃ s, snapshotOf parent info = some s ∧ s.Name = info.Name := by
  unfold snapshotOf
  cases hl : lastIndexOf '@' info.Name.data with
  | none => exact absurd h ((lastIndexOf_none _ _).mp hl)
  | some k =>
    have hli : LastIndex info.Name '@' = (k : Int) := by simp [LastIndex, hl]
    have hne : ¬ ((k : Int) = -1) := by omega
    rw [hli] at hp ⊢
    simp only [hne, if_false]
    split
    · rename_i hcond
      rcases hp with h1 | h1 | h1
      · exact absurd h1 hcond.1
      · exact absurd h1 hcond.2.1
      · rw [hcond.2.2] at h1
        exact Bool.noConfusion h1
    · exact ⟨_, rfl, rfl⟩

theorem ListSnapshots_eq (B : Backend) (c : Client) (parent : String) (t : Trace) :
    (c.ListSnapshots B parent t).1.1 = (snapshotRecords B c t).filterMap (snapshotOf parent) := by
  unfold Client.ListSnapshots snapshotRecords
  cases c.d with
  | none => rfl
  | some d =>
    simp only []
    split
    · rename_i he
      have h0 : (d.ListDatasetsByType B (some driver.DatasetType.DatasetSnapshot) true t).1.1 =
          [] := by
        revert he
        unfold libzfsDriver.ListDatasetsByType
        cases d.h with
        | none => intro _; rfl
        | some _ =>
          simp only []
          split
          · intro _; rfl
          · split
            · intro _; rfl
            · intro he; exact absurd rfl he
      rw [h0]
      rfl
    · rw [listSnapshotsLoop_eq]
      simp

/-- C23: the parent of a snapshot is derived by splitting at the last "@". Every
snapshot `ListSnapshots` returns comes from a record of the driver with the same name,
type and GUID, and its Name is its Parent, then "@", then a part free of "@"; a record
whose name has no "@" is omitted, and every other record is returned when no filter is
given or its parent passes the filter; with a non-empty filter every returned Parent
equals the filter or starts with the filter followed by "/". -/
theorem ListSnapshots_parent (B : Backend) (c : Client) (parent : String) (t : Trace) :
    (∀ s ∈ (c.ListSnapshots B parent t).1.1,
      (∃ snap : String, s.Name = s.Parent ++ "@" ++ snap ∧ '@' ∉ snap.data) ∧
      (∃ info ∈ snapshotRecords B c t, info.Name = s.Name ∧ info.GUID = s.GUID ∧
        mapDriverTypeToPublic info.Type_ = s.Type_) ∧
      (parent ≠ "" → s.Parent = parent ∨ HasPrefix s.Parent (parent ++ "/") = true)) ∧
    (∀ info ∈ snapshotRecords B c t, '@' ∉ info.Name.data →
      ∀ s ∈ (c.ListSnapshots B parent t).1.1, s.Name ≠ info.Name) ∧
    (∀ info ∈ snapshotRecords B c t, '@' ∈ info.Name.data →
      (parent = "" ∨ sliceTo info.Name (LastIndex info.Name '@') = parent ∨
        HasPrefix (sliceTo info.Name (LastIndex info.Name '@')) (parent ++ "/") = true) →
      ∃ s ∈ (c.ListSnapshots B parent t).1.1, s.Name = info.Name) := by
  rw [ListSnapshots_eq]
  have hfirst : ∀ s ∈ (snapshotRecords B c t).filterMap (snapshotOf parent),
      (∃ snap : String, s.Name = s.Parent ++ "@" ++ snap ∧ '@' ∉ snap.data) ∧
      (∃ info ∈ snapshotRecords B c t, info.Name = s.Name ∧ info.GUID = s.GUID ∧
        mapDriverTypeToPublic info.Type_ = s.Type_) ∧
      (parent ≠ "" → s.Parent = parent ∨ HasPrefix s.Parent (parent ++ "/") = true) := by
    intro s hs
    obtain ⟨info, hinfo, hso⟩ := List.mem_filterMap.mp hs
    obtain ⟨k, hk, hseq, hpar⟩ := snapshotOf_some parent info s hso
    obtain ⟨hsplit, hfree⟩ := lastIndexOf_some '@' info.Name.data k hk
    refine ⟨⟨String.mk (info.Name.data.drop (k + 1)), ?_, hfree⟩, ⟨info, hinfo, ?_⟩, hpar⟩
    · rw [hseq]
      apply String.ext
      simp only [String.data_append]
      rw [List.append_assoc]
      exact hsplit
    · rw [hseq]
      exact ⟨rfl, rfl, rfl⟩
  refine ⟨hfirst, ?_, ?_⟩
  · intro info _ hno s hs hname
    obtain ⟨⟨snap, hsnap, _⟩, _, _⟩ := hfirst s hs
    apply hno
    rw [← hname, hsnap]
    simp [String.data_append]
  · intro info hinfo hat hp
    obtain ⟨s, hs, hname⟩ := snapshotOf_isSome parent info hat hp
    exact ⟨s, List.mem_filterMap.mpr ⟨info, hinfo, hs⟩, hname⟩

theorem ListSnapshots_parent_witness :
    (snapshotRecords snapshotsBackend { d := some liveDriver } []).map (fun i => i.Name) =
      ["tank/data@a@b", "tank@snap1", "oddname"] ∧
    ((Client.ListSnapshots snapshotsBackend { d := some liveDriver } "" []).1.1.map
        (fun s => (s.Name, s.Parent)) =
      [("tank/data@a@b", "tank/data@a"), ("tank@snap1", "tank")]) ∧
    ((Client.ListSnapshots snapshotsBackend { d := some liveDriver } "tank/data" []).1.1.map
        (fun s => (s.Name, s.Parent)) = []) ∧
    (∀ s ∈ (Client.ListSnapshots snapshotsBackend { d := some liveDriver } "tank" []).1.1,
      (∃ snap : String, s.Name = s.Parent ++ "@" ++ snap ∧ '@' ∉ snap.data) ∧
      (∃ info ∈ snapshotRecords snapshotsBackend { d := some liveDriver } [],
        info.Name = s.Name ∧ info.GUID = s.GUID ∧
        mapDriverTypeToPublic info.Type_ = s.Type_) ∧
      ("tank" ≠ "" → s.Parent = "tank" ∨ HasPrefix s.Parent ("tank" ++ "/") = true)) :=
  ⟨by decide, by decide, by decide,
    (ListSnapshots_parent snapshotsBackend { d := some liveDriver } "tank" []).1⟩

end zfs
